import Mathlib

/-!
# Cluster pairing (cluster/manager/pair.go)

A shallow embedding of the pairing code of the cluster manager: the pair record
store (pairCreate, pairGet, pairList, pairDelete, pairUpdate and the default
pointer helpers), the token manager (GetPairToken) and the pairing protocol
(CreatePair, ProcessPairRequest, DeletePair, GetPair, EnumeratePairs).

Go functions that touch the coordination store become functions on an explicit
`World` value.  A Go `error` result is an `Option Error` (`none` is `nil`), a
`(value, error)` result whose error is always checked first is an `Except`.
-/

namespace Openstorage

/-! ## Data model -/

/-- Error values seen by the pairing code. -/
inductive Error where
  /-- The sentinel kvdb.ErrNotFound. -/
  | ErrNotFound
  /-- The sentinel kvdb.ErrExist. -/
  | ErrExist
  /-- Any other failure reported by the coordination store (lock or operation). -/
  | store (msg : String)
  /-- A decoding failure reported by json.Unmarshal. -/
  | jsonSyntax (msg : String)
  /-- An error built by fmt.Errorf with the given rendered message. -/
  | errorf (msg : String)
  /-- An error returned by a collaborator outside this package (listener, remote peer). -/
  | external (msg : String)
  deriving DecidableEq, Repr

/-- The Go method Error(): the message of an error value. -/
def Error.message : Error → String
  | .ErrNotFound => "Key not found"
  | .ErrExist => "Key already exists"
  | .store msg => msg
  | .jsonSyntax msg => "invalid character in " ++ msg
  | .errorf msg => msg
  | .external msg => msg

/-- The record api.ClusterPairInfo.  Port is a uint32 in the source; the map
Options is an association list. -/
structure ClusterPairInfo where
  Id : String
  Name : String
  Ip : String
  Port : Nat
  Token : String
  Options : List (String × String)
  deriving DecidableEq, Repr

/-- Escape one character the way a JSON string literal needs it. -/
def jsonEscapeChar (c : Char) : List Char :=
  if c = '"' then ['\\', '"'] else if c = '\\' then ['\\', '\\'] else [c]

/-- A quoted JSON string literal. -/
def jsonQuote (s : String) : String :=
  "\"" ++ String.mk (s.data.flatMap jsonEscapeChar) ++ "\""

/-- The members of a JSON object holding a string map. -/
def jsonMembers : List (String × String) → String
  | [] => ""
  | [(k, v)] => jsonQuote k ++ ":" ++ jsonQuote v
  | (k, v) :: rest => jsonQuote k ++ ":" ++ jsonQuote v ++ "," ++ jsonMembers rest

/-- The text of the JSON document json.Marshal produces for a pair record. -/
def jsonText (info : ClusterPairInfo) : String :=
  "\x7b\"id\":" ++ jsonQuote info.Id ++ ",\"name\":" ++ jsonQuote info.Name ++
  ",\"ip\":" ++ jsonQuote info.Ip ++ ",\"port\":" ++ toString info.Port ++
  ",\"token\":" ++ jsonQuote info.Token ++
  ",\"options\":\x7b" ++ jsonMembers info.Options ++ "\x7d\x7d"

/-- The bytes kept under a key.  The store keeps a Go string verbatim and a
struct as its JSON document, so a value is either raw text or the document of
a pair record. -/
inductive Bytes where
  | text (s : String)
  | json (info : ClusterPairInfo)
  deriving DecidableEq, Repr

/-- The Go conversion string(kvp.Value). -/
def Bytes.asString : Bytes → String
  | .text s => s
  | .json info => jsonText info

/-- The call json.Unmarshal(value, &info) for a pair record: the document of a
record decodes to that record, raw text written by setDefaultPairId or by a
lock does not decode. -/
def jsonUnmarshal : Bytes → Except Error ClusterPairInfo
  | .json info => .ok info
  | .text s => .error (.jsonSyntax s)

/-- A key with its value, kvdb.KVPair. -/
structure KVPair where
  Key : String
  Value : Bytes
  deriving DecidableEq, Repr

/-- The cluster configuration document ClusterInfo: the pair token and the
cluster id stand for its fields. -/
structure ClusterInfo where
  Id : String
  PairToken : String
  deriving DecidableEq, Repr

/-- An entry of the lock trace. -/
inductive LockEvent where
  | acquire (key : String) (locker : String)
  | release (key : String)
  deriving DecidableEq, Repr

/-- The two listener hooks of the pairing flows. -/
inductive HookKind where
  | CreatePair
  | ProcessPairRequest
  deriving DecidableEq, Repr

/-- One invocation of a listener hook: which hook, and the listener's String(). -/
structure HookCall where
  kind : HookKind
  listener : String
  deriving DecidableEq, Repr

/-- Everything outside the call stack that the pairing code reads or writes:
the coordination store contents, the cluster configuration document, the
scheduled store failures (one slot per store call, `some msg` makes that call
fail), the trace of lock events, the bytes crypto/rand will deliver, and the
trace of listener hook invocations. -/
structure World where
  kv : List KVPair
  db : ClusterInfo
  faults : List (Option String)
  lockLog : List LockEvent
  entropy : List Nat
  calls : List HookCall
  deriving DecidableEq, Repr

/-- A world with the given store contents and nothing else. -/
def World.ofKv (kv : List KVPair) : World :=
  { kv := kv, db := { Id := "", PairToken := "" }, faults := [], lockLog := [],
    entropy := [], calls := [] }

/-- The empty coordination store. -/
def World.empty : World := World.ofKv []

/-! ## The coordination store (kvdb interface) -/

namespace Kvdb

/-- Value stored under a key, if any. -/
def find (key : String) : List KVPair → Option Bytes
  | [] => none
  | p :: rest => if p.Key = key then some p.Value else find key rest

/-- Contents without the given key. -/
def erase (key : String) : List KVPair → List KVPair
  | [] => []
  | p :: rest => if p.Key = key then erase key rest else p :: erase key rest

/-- Contents with the given key bound to the value. -/
def insert (key : String) (v : Bytes) (kv : List KVPair) : List KVPair :=
  erase key kv ++ [{ Key := key, Value := v }]

/-- Consume the failure slot of the next store call. -/
def takeFault (w : World) : Option String × World :=
  match w.faults with
  | [] => (none, w)
  | f :: rest => (f, { w with faults := rest })

/-- The call kv.Get(key): kvdb.ErrNotFound when the key is absent. -/
def Get (key : String) (w : World) : Except Error KVPair × World :=
  match takeFault w with
  | (some m, w1) => (.error (.store m), w1)
  | (none, w1) =>
    match find key w1.kv with
    | none => (.error .ErrNotFound, w1)
    | some v => (.ok { Key := key, Value := v }, w1)

/-- The call kv.Put(key, value, 0): creates or overwrites. -/
def Put (key : String) (v : Bytes) (w : World) : Except Error KVPair × World :=
  match takeFault w with
  | (some m, w1) => (.error (.store m), w1)
  | (none, w1) => (.ok { Key := key, Value := v }, { w1 with kv := insert key v w1.kv })

/-- The call kv.Create(key, value, 0): kvdb.ErrExist when the key is present. -/
def Create (key : String) (v : Bytes) (w : World) : Except Error KVPair × World :=
  match takeFault w with
  | (some m, w1) => (.error (.store m), w1)
  | (none, w1) =>
    match find key w1.kv with
    | some _ => (.error .ErrExist, w1)
    | none => (.ok { Key := key, Value := v }, { w1 with kv := insert key v w1.kv })

/-- The call kv.Update(key, value, 0): kvdb.ErrNotFound when the key is absent. -/
def Update (key : String) (v : Bytes) (w : World) : Except Error KVPair × World :=
  match takeFault w with
  | (some m, w1) => (.error (.store m), w1)
  | (none, w1) =>
    match find key w1.kv with
    | none => (.error .ErrNotFound, w1)
    | some _ => (.ok { Key := key, Value := v }, { w1 with kv := insert key v w1.kv })

/-- The call kv.Delete(key): kvdb.ErrNotFound when the key is absent, the old
pair otherwise. -/
def Delete (key : String) (w : World) : Except Error KVPair × World :=
  match takeFault w with
  | (some m, w1) => (.error (.store m), w1)
  | (none, w1) =>
    match find key w1.kv with
    | none => (.error .ErrNotFound, w1)
    | some v => (.ok { Key := key, Value := v }, { w1 with kv := erase key w1.kv })

/-- The call kv.Enumerate(base): every pair whose key starts with base. -/
def Enumerate (base : String) (w : World) : Except Error (List KVPair) × World :=
  match takeFault w with
  | (some m, w1) => (.error (.store m), w1)
  | (none, w1) => (.ok (w1.kv.filter fun p => base.data.isPrefixOf p.Key.data), w1)

/-- The call kv.LockWithID(key, lockerID). -/
def LockWithID (key : String) (lockerID : String) (w : World) : Except Error KVPair × World :=
  match takeFault w with
  | (some m, w1) => (.error (.store m), w1)
  | (none, w1) =>
    (.ok { Key := key, Value := .text lockerID },
     { w1 with lockLog := w1.lockLog ++ [.acquire key lockerID] })

/-- The call kv.Lock(key), which is LockWithID with the locker id "locked". -/
def Lock (key : String) (w : World) : Except Error KVPair × World :=
  LockWithID key "locked" w

/-- The call kv.Unlock(kvp); its result is dropped by every caller. -/
def Unlock (kvp : KVPair) (w : World) : World :=
  { w with lockLog := w.lockLog ++ [.release kvp.Key] }

end Kvdb

/-! ## cluster/manager/pair.go -/

/-- ClusterPairKey is the key at which info about cluster pairs is stored in kvdb. -/
def ClusterPairKey : String := "cluster/pair"

/-- The key at which the id for the default pair is stored. -/
def clusterPairDefaultKey : String := "cluster/pair/default"

/-- Modelled from the spec: the fixed name of the cluster-wide configuration
lock; the constant clusterLockKey is declared outside the embedded sources. -/
def clusterLockKey : String := "/cluster/lock"

/-- The Go map map[string]*api.ClusterPairInfo, as an association list. -/
abbrev PairMap := List (String × ClusterPairInfo)

/-- Lookup m[id]. -/
def PairMap.get (m : PairMap) (id : String) : Option ClusterPairInfo :=
  match m with
  | [] => none
  | (k, v) :: rest => if k = id then some v else PairMap.get rest id

/-- The assignment m[id] = info. -/
def PairMap.set (m : PairMap) (id : String) (info : ClusterPairInfo) : PairMap :=
  (m.filter fun e => e.1 ≠ id) ++ [(id, info)]

/-- The function getDefaultPairId: the Go pair (string, error). -/
def getDefaultPairId (w : World) : (String × Option Error) × World :=
  match Kvdb.Get clusterPairDefaultKey w with
  | (.error e, w1) => (("", some e), w1)
  | (.ok kvp, w1) => ((kvp.Value.asString, none), w1)

/-- The function setDefaultPairId. -/
def setDefaultPairId (id : String) (w : World) : Option Error × World :=
  match Kvdb.Put clusterPairDefaultKey (.text id) w with
  | (.error e, w1) => (some e, w1)
  | (.ok _, w1) => (none, w1)

/-- The function deleteDefaultPairId. -/
def deleteDefaultPairId (w : World) : Option Error × World :=
  match Kvdb.Delete clusterPairDefaultKey w with
  | (.error e, w1) => (some e, w1)
  | (.ok _, w1) => (none, w1)

/-- The loop of pairList over the enumerated pairs. -/
def pairListLoop : List KVPair → PairMap → Except Error PairMap
  | [], pairs => .ok pairs
  | v :: rest, pairs =>
    if v.Key = clusterPairDefaultKey then pairListLoop rest pairs
    else
      match jsonUnmarshal v.Value with
      | .error e => .error e
      | .ok info => pairListLoop rest (pairs.set info.Id info)

/-- The function pairList. -/
def pairList (w : World) : Except Error PairMap × World :=
  match Kvdb.Enumerate ClusterPairKey w with
  | (.error e, w1) => (.error e, w1)
  | (.ok kv, w1) => (pairListLoop kv [], w1)

/-- The body of pairCreate that runs while the lock is held. -/
def pairCreateLocked (info : ClusterPairInfo) (setDefault : Bool) (w : World) :
    Option Error × World :=
  let key := ClusterPairKey ++ "/" ++ info.Id
  match Kvdb.Create key (.json info) w with
  | (.error e, w1) => (some e, w1)
  | (.ok _, w1) =>
    match getDefaultPairId w1 with
    | ((defaultId, err), w2) =>
      if setDefault || err == some Error.ErrNotFound || defaultId == "" then
        match setDefaultPairId info.Id w2 with
        | (some e, w3) => (some e, w3)
        | (none, w3) => (none, w3)
      else (none, w2)

/-- The function pairCreate: lock, body, deferred unlock. -/
def pairCreate (info : ClusterPairInfo) (setDefault : Bool) (w : World) :
    Option Error × World :=
  match Kvdb.Lock ClusterPairKey w with
  | (.error e, w1) => (some e, w1)
  | (.ok kvp, w1) =>
    match pairCreateLocked info setDefault w1 with
    | (r, w2) => (r, Kvdb.Unlock kvp w2)

/-- The body of pairUpdate that runs while the lock is held. -/
def pairUpdateLocked (info : ClusterPairInfo) (w : World) : Option Error × World :=
  let key := ClusterPairKey ++ "/" ++ info.Id
  match Kvdb.Update key (.json info) w with
  | (.error e, w1) => (some e, w1)
  | (.ok _, w1) => (none, w1)

/-- The function pairUpdate. -/
def pairUpdate (info : ClusterPairInfo) (w : World) : Option Error × World :=
  match Kvdb.Lock ClusterPairKey w with
  | (.error e, w1) => (some e, w1)
  | (.ok kvp, w1) =>
    match pairUpdateLocked info w1 with
    | (r, w2) => (r, Kvdb.Unlock kvp w2)

/-- The last step of pairDelete: delete the record key. -/
def pairDeleteRecord (id : String) (w : World) : Option Error × World :=
  let key := ClusterPairKey ++ "/" ++ id
  match Kvdb.Delete key w with
  | (.error e, w1) => (some e, w1)
  | (.ok _, w1) => (none, w1)

/-- The body of pairDelete that runs while the lock is held. -/
def pairDeleteLocked (id : String) (w : World) : Option Error × World :=
  match getDefaultPairId w with
  | ((defaultId, err), w1) =>
    if err != some Error.ErrNotFound && defaultId == id then
      match deleteDefaultPairId w1 with
      | (some _, w2) => (some (.errorf "error deleting default pair id"), w2)
      | (none, w2) => pairDeleteRecord id w2
    else pairDeleteRecord id w1

/-- The function pairDelete. -/
def pairDelete (id : String) (w : World) : Option Error × World :=
  match Kvdb.Lock ClusterPairKey w with
  | (.error e, w1) => (some e, w1)
  | (.ok kvp, w1) =>
    match pairDeleteLocked id w1 with
    | (r, w2) => (r, Kvdb.Unlock kvp w2)

/-- The body of pairGet that runs while the lock is held. -/
def pairGetLocked (id : String) (w : World) : Except Error ClusterPairInfo × World :=
  let key := ClusterPairKey ++ "/" ++ id
  match Kvdb.Get key w with
  | (.error e, w1) => (.error e, w1)
  | (.ok kvp, w1) =>
    match jsonUnmarshal kvp.Value with
    | .error e => (.error e, w1)
    | .ok info => (.ok info, w1)

/-- The function pairGet. -/
def pairGet (id : String) (w : World) : Except Error ClusterPairInfo × World :=
  match Kvdb.Lock ClusterPairKey w with
  | (.error e, w1) => (.error e, w1)
  | (.ok kvp, w1) =>
    match pairGetLocked id w1 with
    | (r, w2) => (r, Kvdb.Unlock kvp w2)

/-! ## Cluster manager types -/

/-- The request api.ClusterPairCreateRequest. -/
structure ClusterPairCreateRequest where
  RemoteClusterIp : String
  RemoteClusterPort : Nat
  RemoteClusterToken : String
  SetDefault : Bool
  deriving DecidableEq, Repr

/-- The response api.ClusterPairCreateResponse. -/
structure ClusterPairCreateResponse where
  RemoteClusterId : String
  RemoteClusterName : String
  deriving DecidableEq, Repr

/-- The request api.ClusterPairProcessRequest. -/
structure ClusterPairProcessRequest where
  SourceClusterId : String
  RemoteClusterToken : String
  deriving DecidableEq, Repr

/-- The response api.ClusterPairProcessResponse. -/
structure ClusterPairProcessResponse where
  RemoteClusterId : String
  RemoteClusterName : String
  Options : List (String × String)
  deriving DecidableEq, Repr

/-- The response api.ClusterPairGetResponse. -/
structure ClusterPairGetResponse where
  PairInfo : ClusterPairInfo
  deriving DecidableEq, Repr

/-- The response api.ClusterPairsEnumerateResponse. -/
structure ClusterPairsEnumerateResponse where
  Pairs : PairMap
  DefaultId : String
  deriving DecidableEq, Repr

/-- The response api.ClusterPairTokenGetResponse. -/
structure ClusterPairTokenGetResponse where
  Token : String
  deriving DecidableEq, Repr

/-- The node api.Node, by its id. -/
structure Node where
  Id : String
  deriving DecidableEq, Repr

/-- The fields of the cluster configuration the pairing code reads. -/
structure ClusterConfig where
  ClusterId : String
  NodeId : String
  deriving DecidableEq, Repr

/-- A cluster.ClusterListener: its String() and its two pairing hooks.  A hook
receives the node and a pointer to the response, so it yields its error
together with the response as it left it. -/
structure ClusterListener where
  name : String
  CreatePair : Node → ClusterPairProcessResponse → Option Error × ClusterPairProcessResponse
  ProcessPairRequest :
    Node → ClusterPairProcessResponse → Option Error × ClusterPairProcessResponse

/-- The fields of ClusterManager the pairing code reads. -/
structure ClusterManager where
  config : ClusterConfig
  selfNode : Node
  listeners : List ClusterListener

/-- The remote side reached through the cluster client: NewClusterClient for a
URL and protocol version, and the peer's answer to ProcessPairRequest. -/
structure RemoteCluster where
  NewClusterClient : String → String → Option Error
  ProcessPairRequest :
    String → ClusterPairProcessRequest → Except Error ClusterPairProcessResponse

/-- Modelled from the spec: the shared protocol version cluster.APIVersion; the
constant is declared outside the embedded sources. -/
def APIVersion : String := "v1"

/-! ## Token generation -/

/-- One lowercase hexadecimal digit. -/
def hexDigit (n : Nat) : Char :=
  match n % 16 with
  | 0 => '0' | 1 => '1' | 2 => '2' | 3 => '3' | 4 => '4' | 5 => '5' | 6 => '6' | 7 => '7'
  | 8 => '8' | 9 => '9' | 10 => 'a' | 11 => 'b' | 12 => 'c' | 13 => 'd' | 14 => 'e'
  | _ => 'f'

/-- The two digits of one byte. -/
def hexByte (b : Nat) : List Char := [hexDigit (b / 16), hexDigit b]

/-- The call fmt.Sprintf("%x", b) on a byte slice. -/
def hexEncode (b : List Nat) : String := String.mk (b.flatMap hexByte)

/-- The calls make([]byte, n) and rand.Read(b): the buffer starts as zeroes and
takes the next bytes of the entropy source; the result of rand.Read is dropped. -/
def randRead (n : Nat) (w : World) : List Nat × World :=
  ((List.range n).map fun i => (w.entropy.getD i 0) % 256,
   { w with entropy := w.entropy.drop n })

/-- Modelled from the spec: readClusterInfo, declared outside the embedded
sources, reads the cluster configuration document from the store. -/
def readClusterInfo (w : World) : Except Error ClusterInfo × World :=
  match Kvdb.takeFault w with
  | (some m, w1) => (.error (.store m), w1)
  | (none, w1) => (.ok w1.db, w1)

/-- Modelled from the spec: writeClusterInfo, declared outside the embedded
sources, persists the cluster configuration document. -/
def writeClusterInfo (db : ClusterInfo) (w : World) : Option Error × World :=
  match Kvdb.takeFault w with
  | (some m, w1) => (some (.store m), w1)
  | (none, w1) => (none, { w1 with db := db })

/-- The body of GetPairToken that runs while the cluster lock is held. -/
def GetPairTokenLocked (reset : Bool) (w : World) :
    Except Error ClusterPairTokenGetResponse × World :=
  match readClusterInfo w with
  | (.error e, w1) => (.error e, w1)
  | (.ok db, w1) =>
    if db.PairToken == "" || reset then
      match randRead 64 w1 with
      | (b, w2) =>
        let db1 : ClusterInfo := { db with PairToken := hexEncode b }
        match writeClusterInfo db1 w2 with
        | (some e, w3) => (.error e, w3)
        | (none, w3) => (.ok { Token := db1.PairToken }, w3)
    else (.ok { Token := db.PairToken }, w1)

/-- The method ClusterManager.GetPairToken. -/
def GetPairToken (c : ClusterManager) (reset : Bool) (w : World) :
    Except Error ClusterPairTokenGetResponse × World :=
  match Kvdb.LockWithID clusterLockKey c.config.NodeId w with
  | (.error e, w1) => (.error e, w1)
  | (.ok kvlock, w1) =>
    match GetPairTokenLocked reset w1 with
    | (r, w2) => (r, Kvdb.Unlock kvlock w2)

/-! ## Pairing protocol -/

/-- Record one hook invocation. -/
def World.called (w : World) (kind : HookKind) (l : ClusterListener) : World :=
  { w with calls := w.calls ++ [{ kind := kind, listener := l.name }] }

/-- The listener loop of CreatePair: the error of the first failing hook, and
the response as the hooks left it. -/
def createPairListeners (self : Node) :
    List ClusterListener → ClusterPairProcessResponse → World →
      Option Error × ClusterPairProcessResponse × World
  | [], resp, w => (none, resp, w)
  | l :: rest, resp, w =>
    match l.CreatePair self resp with
    | (some e, resp1) => (some e, resp1, w.called .CreatePair l)
    | (none, resp1) => createPairListeners self rest resp1 (w.called .CreatePair l)

/-- The listener loop of ProcessPairRequest. -/
def processPairListeners (self : Node) :
    List ClusterListener → ClusterPairProcessResponse → World →
      Option Error × ClusterPairProcessResponse × World
  | [], resp, w => (none, resp, w)
  | l :: rest, resp, w =>
    match l.ProcessPairRequest self resp with
    | (some e, resp1) => (some e, resp1, w.called .ProcessPairRequest l)
    | (none, resp1) =>
      processPairListeners self rest resp1 (w.called .ProcessPairRequest l)

/-- The method ClusterManager.CreatePair. -/
def CreatePair (c : ClusterManager) (remote : RemoteCluster)
    (request : ClusterPairCreateRequest) (w : World) :
    Except Error ClusterPairCreateResponse × World :=
  let remoteIp := request.RemoteClusterIp
  let processRequest : ClusterPairProcessRequest :=
    { SourceClusterId := c.config.ClusterId
      RemoteClusterToken := request.RemoteClusterToken }
  let url := "http://" ++ remoteIp ++ ":" ++ toString (request.RemoteClusterPort % 2 ^ 64)
  match remote.NewClusterClient url APIVersion with
  | some e => (.error e, w)
  | none =>
    match remote.ProcessPairRequest url processRequest with
    | .error e => (.error e, w)
    | .ok resp0 =>
      match createPairListeners c.selfNode c.listeners resp0 w with
      | (some e, _, w1) => (.error e, w1)
      | (none, resp, w1) =>
        let pairInfo : ClusterPairInfo :=
          { Id := resp.RemoteClusterId
            Name := resp.RemoteClusterName
            Ip := request.RemoteClusterIp
            Port := request.RemoteClusterPort
            Token := request.RemoteClusterToken
            Options := resp.Options }
        match pairCreate pairInfo request.SetDefault w1 with
        | (some e, w2) => (.error e, w2)
        | (none, w2) =>
          (.ok { RemoteClusterId := pairInfo.Id, RemoteClusterName := pairInfo.Name }, w2)

/-- The method ClusterManager.ProcessPairRequest. -/
def ProcessPairRequest (c : ClusterManager) (request : ClusterPairProcessRequest)
    (w : World) : Except Error ClusterPairProcessResponse × World :=
  let response : ClusterPairProcessResponse :=
    { RemoteClusterId := c.config.ClusterId
      RemoteClusterName := c.config.ClusterId
      Options := [] }
  match GetPairToken c false w with
  | (.error e, w1) =>
    (.error (.errorf ("Error getting Cluster Token: " ++ e.message)), w1)
  | (.ok tokenResp, w1) =>
    if tokenResp.Token != request.RemoteClusterToken then
      (.error (.errorf "Token mismatch during pairing"), w1)
    else
      match processPairListeners c.selfNode c.listeners response w1 with
      | (some e, _, w2) => (.error e, w2)
      | (none, resp, w2) => (.ok resp, w2)

/-- The method ClusterManager.DeletePair. -/
def DeletePair (_c : ClusterManager) (pairId : String) (w : World) : Option Error × World :=
  match pairDelete pairId w with
  | (some e, w1) => (some e, w1)
  | (none, w1) => (none, w1)

/-- The second half of GetPair, once the pair id is resolved. -/
def GetPairResolved (pairId : String) (w : World) :
    Except Error ClusterPairGetResponse × World :=
  match pairGet pairId w with
  | (.error e, w1) => (.error e, w1)
  | (.ok pair, w1) => (.ok { PairInfo := pair }, w1)

/-- The method ClusterManager.GetPair. -/
def GetPair (_c : ClusterManager) (pairId : String) (w : World) :
    Except Error ClusterPairGetResponse × World :=
  if pairId == "" then
    match getDefaultPairId w with
    | ((_, some e), w1) => (.error e, w1)
    | ((defaultId, none), w1) => GetPairResolved defaultId w1
  else GetPairResolved pairId w

/-- The method ClusterManager.EnumeratePairs. -/
def EnumeratePairs (_c : ClusterManager) (w : World) :
    Except Error ClusterPairsEnumerateResponse × World :=
  match pairList w with
  | (.error e, w1) => (.error e, w1)
  | (.ok pairs, w1) =>
    match getDefaultPairId w1 with
    | ((_, some e), w2) => (.error e, w2)
    | ((defaultId, none), w2) => (.ok { Pairs := pairs, DefaultId := defaultId }, w2)

/-! ## Views of the store used in the statements -/

/-- The value kept for a pair id, under cluster/pair/<id>. -/
def World.record (w : World) (id : String) : Option Bytes :=
  Kvdb.find (ClusterPairKey ++ "/" ++ id) w.kv

/-- The value kept at cluster/pair/default. -/
def World.defaultPointer (w : World) : Option Bytes :=
  Kvdb.find clusterPairDefaultKey w.kv

/-- The default pointer is absent, or empty, or its value is the Id of a pair
record stored under cluster/pair/<Id>. -/
def defaultConsistent (w : World) : Bool :=
  match w.defaultPointer with
  | none => true
  | some v =>
    v.asString == "" ||
      (match w.record v.asString with
       | some (.json info) => info.Id == v.asString
       | _ => false)

/-- A call of the pair record store: Create(info, setDefault) or Delete(id). -/
inductive StoreOp where
  | create (info : ClusterPairInfo) (setDefault : Bool)
  | delete (id : String)
  deriving DecidableEq, Repr

/-- The pair id a store call is about. -/
def StoreOp.id : StoreOp → String
  | .create info _ => info.Id
  | .delete id => id

/-- Run one store call, whatever its outcome. -/
def StoreOp.run (op : StoreOp) (w : World) : World :=
  match op with
  | .create info setDefault => (pairCreate info setDefault w).2
  | .delete id => (pairDelete id w).2

/-- Run a sequence of store calls from left to right. -/
def runOps (ops : List StoreOp) (w : World) : World :=
  ops.foldl (fun acc op => op.run acc) w

/-- Create the given records in order, each with setDefault false. -/
def createAll (infos : List ClusterPairInfo) (w : World) : World :=
  runOps (infos.map fun info => StoreOp.create info false) w

/-- The shape of a store written only through the pair record store: keys are
distinct, and every key other than the default-pointer key holds the document
of a record under cluster/pair/<Id of that record>. -/
def pairShaped (kv : List KVPair) : Prop :=
  (kv.map KVPair.Key).Nodup ∧
    ∀ p ∈ kv, p.Key = clusterPairDefaultKey ∨
      ∃ info : ClusterPairInfo, p.Value = .json info ∧ p.Key = ClusterPairKey ++ "/" ++ info.Id

/-- The store answers every call, is shaped by the pair record store, holds
exactly the records of the list done (under ids other than "default"), and its
default pointer is absent or raw text, and present once done is not empty. -/
def createdExactly (w : World) (done : List ClusterPairInfo) : Prop :=
  w.faults = [] ∧ pairShaped w.kv ∧
    (∀ id, id ≠ "default" →
      w.record id = (done.find? fun i => i.Id = id).map Bytes.json) ∧
    (∀ b, w.defaultPointer = some b → ∃ d, b = .text d) ∧
    (done ≠ [] → w.defaultPointer ≠ none)

/-- The second world differs from the first at most in the store contents and
in the failure slots consumed: hook trace, configuration document, entropy
and lock trace are the same. -/
def sameOutside (w w2 : World) : Prop :=
  w2.calls = w.calls ∧ w2.db = w.db ∧ w2.entropy = w.entropy ∧ w2.lockLog = w.lockLog

/-! ## Sample values -/

/-- The record of the round-trip example of the specification. -/
def westPair : ClusterPairInfo :=
  { Id := "c2", Name := "west", Ip := "10.0.0.5", Port := 9001, Token := "tok",
    Options := [("region", "west")] }

/-- A record for a remote cluster whose id is "c1". -/
def eastPair : ClusterPairInfo :=
  { Id := "c1", Name := "east", Ip := "10.0.0.4", Port := 9001, Token := "tok", Options := [] }

/-- A record for a remote cluster whose id is the word "default". -/
def defaultNamedPair : ClusterPairInfo :=
  { Id := "default", Name := "dflt", Ip := "10.0.0.6", Port := 9001, Token := "tok",
    Options := [] }

/-- A cluster manager without listeners. -/
def plainManager : ClusterManager :=
  { config := { ClusterId := "local", NodeId := "node-1" }, selfNode := { Id := "node-1" },
    listeners := [] }

/-- An empty store whose entropy source delivers the bytes 0, 1, 2, ... -/
def seededWorld : World :=
  { kv := [], db := { Id := "local", PairToken := "" }, faults := [], lockLog := [],
    entropy := List.range 200, calls := [] }

/-- A record for a remote cluster whose id is the empty string. -/
def emptyIdPair : ClusterPairInfo :=
  { Id := "", Name := "anon", Ip := "10.0.0.7", Port := 9001, Token := "tok", Options := [] }

/-- A listener whose hooks succeed; its accept hook adds one option. -/
def okListener (name : String) : ClusterListener :=
  { name := name
    CreatePair := fun _ resp => (none, resp)
    ProcessPairRequest := fun _ resp =>
      (none, { resp with Options := resp.Options ++ [(name, "ok")] }) }

/-- A listener whose hooks fail. -/
def failingListener (name : String) : ClusterListener :=
  { name := name
    CreatePair := fun _ resp => (some (.external (name ++ " refused")), resp)
    ProcessPairRequest := fun _ resp => (some (.external (name ++ " refused")), resp) }

/-- A cluster manager with the listeners L1, L2, L3, of which L2 fails. -/
def listeningManager : ClusterManager :=
  { config := { ClusterId := "local", NodeId := "node-1" }, selfNode := { Id := "node-1" },
    listeners := [okListener "L1", failingListener "L2", okListener "L3"] }

/-- An empty store whose configuration document holds the pair token "secret". -/
def tokenWorld : World :=
  { kv := [], db := { Id := "local", PairToken := "secret" }, faults := [], lockLog := [],
    entropy := [], calls := [] }

/-- A record for a remote cluster whose id is the JSON text of defaultNamedPair. -/
def shadowPair : ClusterPairInfo :=
  { Id := jsonText defaultNamedPair, Name := "shadow", Ip := "10.0.0.8", Port := 9001,
    Token := "tok", Options := [] }

/-- The trace entries of the given listeners, in order, for one kind of hook. -/
def hookTrace (kind : HookKind) (ls : List ClusterListener) : List HookCall :=
  ls.map fun l => { kind := kind, listener := l.name }

/-- The URL CreatePair dials for a request. -/
def dialUrl (request : ClusterPairCreateRequest) : String :=
  "http://" ++ request.RemoteClusterIp ++ ":" ++ toString (request.RemoteClusterPort % 2 ^ 64)

/-- The request CreatePair sends to the remote cluster. -/
def processRequestOf (c : ClusterManager) (request : ClusterPairCreateRequest) :
    ClusterPairProcessRequest :=
  { SourceClusterId := c.config.ClusterId, RemoteClusterToken := request.RemoteClusterToken }

/-- The record CreatePair builds from a response and the request. -/
def pairInfoOf (resp : ClusterPairProcessResponse) (request : ClusterPairCreateRequest) :
    ClusterPairInfo :=
  { Id := resp.RemoteClusterId, Name := resp.RemoteClusterName, Ip := request.RemoteClusterIp,
    Port := request.RemoteClusterPort, Token := request.RemoteClusterToken,
    Options := resp.Options }

/-- The response object ProcessPairRequest starts from. -/
def initialResponse (c : ClusterManager) : ClusterPairProcessResponse :=
  { RemoteClusterId := c.config.ClusterId, RemoteClusterName := c.config.ClusterId,
    Options := [] }

/-- Whether the message of an error contains the given text. -/
def Error.mentions (e : Error) (name : String) : Bool :=
  e.message.data.tails.any fun t => name.data.isPrefixOf t

/-- A remote cluster that can be dialed and accepts every request. -/
def friendlyRemote : RemoteCluster :=
  { NewClusterClient := fun _ _ => none
    ProcessPairRequest := fun _ _ =>
      .ok { RemoteClusterId := "remote-1", RemoteClusterName := "remote-one",
            Options := [("endpoint", "10.0.0.9:9001")] } }

/-- A remote cluster that cannot be dialed. -/
def unreachableRemote : RemoteCluster :=
  { NewClusterClient := fun _ _ => some (.external "connection refused")
    ProcessPairRequest := fun _ _ => .error (.external "connection refused") }

/-- A remote cluster that can be dialed and rejects every request. -/
def rejectingRemote : RemoteCluster :=
  { NewClusterClient := fun _ _ => none
    ProcessPairRequest := fun _ _ => .error (.external "Token mismatch during pairing") }

/-- A request to pair with the cluster at 10.0.0.9:9001. -/
def sampleCreateRequest : ClusterPairCreateRequest :=
  { RemoteClusterIp := "10.0.0.9", RemoteClusterPort := 9001, RemoteClusterToken := "secret",
    SetDefault := false }

/-- A listener named name whose hooks fail with an error that carries only msg. -/
def refusingListener (name msg : String) : ClusterListener :=
  { name := name
    CreatePair := fun _ resp => (some (.external msg), resp)
    ProcessPairRequest := fun _ resp => (some (.external msg), resp) }

/-- A listener whose hooks succeed and overwrite the id and the name carried by
the response object they are handed. -/
def rewritingListener (name : String) : ClusterListener :=
  { name := name
    CreatePair := fun _ resp =>
      (none, { resp with RemoteClusterId := "rewritten", RemoteClusterName := "renamed" })
    ProcessPairRequest := fun _ resp =>
      (none, { resp with RemoteClusterId := "rewritten", RemoteClusterName := "renamed" }) }

/-- A cluster manager whose second listener fails without naming itself. -/
def quietManager : ClusterManager :=
  { config := { ClusterId := "local", NodeId := "node-1" }, selfNode := { Id := "node-1" },
    listeners := [okListener "L1", refusingListener "L2" "disk full", okListener "L3"] }

/-- A cluster manager with one listener that rewrites the response. -/
def rewritingManager : ClusterManager :=
  { config := { ClusterId := "local", NodeId := "node-1" }, selfNode := { Id := "node-1" },
    listeners := [rewritingListener "L1"] }

/-- An empty store whose second store call fails: the lock is granted, the call
made under the lock is refused. -/
def flakyWorld : World :=
  { kv := [], db := { Id := "local", PairToken := "secret" },
    faults := [none, some "etcd unavailable"], lockLog := [], entropy := [], calls := [] }

/-- The store that holds "c1" as its default pair, on which the third store call
fails: the lock is granted, the default pointer is read, the next call is
refused. -/
def pointerFailWorld : World :=
  { kv := (pairCreate eastPair false World.empty).2.kv,
    db := { Id := "local", PairToken := "secret" },
    faults := [none, none, some "etcd unavailable"], lockLog := [], entropy := [],
    calls := [] }

/-! ## api/server/sdk/cloud_backup.go: StateChange -/

/-- The gRPC status codes that StateChange returns. -/
inductive Code where
  | InvalidArgument
  | Internal
  deriving DecidableEq, Repr

/-- A gRPC status error built by status.Error or status.Errorf. -/
structure Status where
  code : Code
  message : String
  deriving DecidableEq, Repr

/-- The enum api.SdkCloudBackupRequestedState: its four named values, and any
other number that the wire may carry. -/
inductive SdkCloudBackupRequestedState where
  | SdkCloudBackupRequestedStateUnknown
  | SdkCloudBackupRequestedStatePause
  | SdkCloudBackupRequestedStateResume
  | SdkCloudBackupRequestedStateStop
  | unrecognized (n : Nat)
  deriving DecidableEq, Repr

/-- The text that the verb %v prints for a value of the enum. -/
def SdkCloudBackupRequestedState.text : SdkCloudBackupRequestedState → String
  | .SdkCloudBackupRequestedStateUnknown => "SdkCloudBackupRequestedStateUnknown"
  | .SdkCloudBackupRequestedStatePause => "SdkCloudBackupRequestedStatePause"
  | .SdkCloudBackupRequestedStateResume => "SdkCloudBackupRequestedStateResume"
  | .SdkCloudBackupRequestedStateStop => "SdkCloudBackupRequestedStateStop"
  | .unrecognized n => toString n

/-- The message api.SdkCloudBackupStateChangeRequest. -/
structure SdkCloudBackupStateChangeRequest where
  SrcVolumeId : String
  RequestedState : SdkCloudBackupRequestedState
  deriving DecidableEq, Repr

/-- The message api.SdkCloudBackupStateChangeResponse, which has no field. -/
structure SdkCloudBackupStateChangeResponse where
  deriving DecidableEq, Repr

/-- The getter GetSrcVolumeId, which accepts a nil request. -/
def GetSrcVolumeId (req : Option SdkCloudBackupStateChangeRequest) : String :=
  match req with
  | none => ""
  | some r => r.SrcVolumeId

/-- The getter GetRequestedState, which accepts a nil request. -/
def GetRequestedState (req : Option SdkCloudBackupStateChangeRequest) :
    SdkCloudBackupRequestedState :=
  match req with
  | none => .SdkCloudBackupRequestedStateUnknown
  | some r => r.RequestedState

/-- The request api.CloudBackupStateChangeRequest handed to the driver. -/
structure CloudBackupStateChangeRequest where
  SrcVolumeID : String
  RequestedState : String
  deriving DecidableEq, Repr

/-- The string constants api.CloudBackupRequestedStatePause, ...Resume and
...Stop; they are declared outside the embedded sources, so the embedding
takes them as parameters. -/
structure CloudBackupStateNames where
  CloudBackupRequestedStatePause : String
  CloudBackupRequestedStateResume : String
  CloudBackupRequestedStateStop : String
  deriving DecidableEq, Repr

/-- The part of volume.VolumeDriver that StateChange calls. -/
structure VolumeDriver where
  CloudBackupStateChange : CloudBackupStateChangeRequest → Option Error

/-- The method CloudBackupServer.StateChange: its result, and the list of the
calls it made to the driver. -/
def StateChange (names : CloudBackupStateNames) (driver : VolumeDriver)
    (req : Option SdkCloudBackupStateChangeRequest) :
    Except Status SdkCloudBackupStateChangeResponse × List CloudBackupStateChangeRequest :=
  if (GetSrcVolumeId req).length == 0 then
    (.error { code := .InvalidArgument, message := "Must provide volume id" }, [])
  else if GetRequestedState req = .SdkCloudBackupRequestedStateUnknown then
    (.error { code := .InvalidArgument, message := "Must provide requested state" }, [])
  else
    let picked : Option String :=
      match GetRequestedState req with
      | .SdkCloudBackupRequestedStatePause => some names.CloudBackupRequestedStatePause
      | .SdkCloudBackupRequestedStateResume => some names.CloudBackupRequestedStateResume
      | .SdkCloudBackupRequestedStateStop => some names.CloudBackupRequestedStateStop
      | _ => none
    match picked with
    | none =>
      (.error { code := .InvalidArgument,
                message := "Invalid requested state: " ++ (GetRequestedState req).text }, [])
    | some rs =>
      let call : CloudBackupStateChangeRequest :=
        { SrcVolumeID := GetSrcVolumeId req, RequestedState := rs }
      match driver.CloudBackupStateChange call with
      | some err =>
        (.error { code := .Internal, message := "Failed to change state: " ++ err.message },
         [call])
      | none => (.ok {}, [call])

/-- The state string that belongs to a requested state, for Pause, Resume and
Stop. -/
def requestedStateName (names : CloudBackupStateNames) :
    SdkCloudBackupRequestedState → Option String
  | .SdkCloudBackupRequestedStatePause => some names.CloudBackupRequestedStatePause
  | .SdkCloudBackupRequestedStateResume => some names.CloudBackupRequestedStateResume
  | .SdkCloudBackupRequestedStateStop => some names.CloudBackupRequestedStateStop
  | _ => none

/-! ## api/client/volume/client.go: Attach -/

/-- The field of api.VolumeSpec that Attach reads. -/
structure VolumeSpec where
  Encrypted : Bool
  deriving DecidableEq, Repr

/-- The fields of api.Volume that Attach reads.  The message type is declared
outside the embedded sources; Spec is a message-typed field, so a pointer (the
client passes a *api.VolumeSpec for the field Spec of its requests), and Attach
reads it as a plain field, not through a getter. -/
structure Volume where
  Spec : Option VolumeSpec
  DevicePath : String
  SecureDevicePath : String
  deriving DecidableEq, Repr

/-- The message api.VolumeResponse. -/
structure VolumeResponse where
  Error : String
  deriving DecidableEq, Repr

/-- The message api.VolumeSetResponse; both fields are pointers. -/
structure VolumeSetResponse where
  Volume : Option Volume
  VolumeResponse : Option VolumeResponse
  deriving DecidableEq, Repr

/-- The enum api.VolumeActionParam. -/
inductive VolumeActionParam where
  | VOLUME_ACTION_PARAM_NONE
  | VOLUME_ACTION_PARAM_ON
  | VOLUME_ACTION_PARAM_OFF
  deriving DecidableEq, Repr

/-- The field of api.VolumeStateAction that Attach sets. -/
structure VolumeStateAction where
  Attach : VolumeActionParam
  deriving DecidableEq, Repr

/-- The fields of api.VolumeSetRequest that Attach sets. -/
structure VolumeSetRequest where
  Action : Option VolumeStateAction
  Options : List (String × String)
  deriving DecidableEq, Repr

/-- The volume client: the REST call Put on /osd-volumes/<id> with a request
body, followed by Do and Unmarshal into a fresh response, is a parameter. -/
structure volumeClient where
  putVolume : String → VolumeSetRequest → Except Error VolumeSetResponse

/-- The way a Go call ends: it returns, or it stops with a runtime fault. -/
inductive Outcome (α : Type) where
  | returned (value : α)
  | fault (msg : String)
  deriving DecidableEq, Repr

/-- The method volumeClient.doVolumeSetGetResponse; errors.New(msg) is the
error value built from the message. -/
def doVolumeSetGetResponse (v : volumeClient) (volumeID : String)
    (request : VolumeSetRequest) : Except Error VolumeSetResponse :=
  match v.putVolume volumeID request with
  | .error err => .error err
  | .ok response =>
    match response.VolumeResponse with
    | some vr => if vr.Error != "" then .error (.errorf vr.Error) else .ok response
    | none => .ok response

/-- The method volumeClient.Attach: the Go pair (string, error) when it returns;
reading Spec.Encrypted through a nil Spec is a nil pointer dereference. -/
def Attach (v : volumeClient) (volumeID : String) (attachOptions : List (String × String)) :
    Outcome (String × Option Error) :=
  match doVolumeSetGetResponse v volumeID
      { Action := some { Attach := .VOLUME_ACTION_PARAM_ON }, Options := attachOptions } with
  | .error err => .returned ("", some err)
  | .ok response =>
    match response.Volume with
    | some vol =>
      match vol.Spec with
      | none => .fault "invalid memory address or nil pointer dereference"
      | some spec =>
        if spec.Encrypted then .returned (vol.SecureDevicePath, none)
        else .returned (vol.DevicePath, none)
    | none => .returned ("", none)

/-- The values of the three state strings in the api package. -/
def stateNames : CloudBackupStateNames :=
  { CloudBackupRequestedStatePause := "pause", CloudBackupRequestedStateResume := "resume",
    CloudBackupRequestedStateStop := "stop" }

/-- A driver that accepts every state change. -/
def acceptingDriver : VolumeDriver :=
  { CloudBackupStateChange := fun _ => none }

/-- A driver that fails every state change. -/
def failingDriver : VolumeDriver :=
  { CloudBackupStateChange := fun _ => some (.external "backup not found") }

/-- A volume client whose server answers every volume-set call with the given
response. -/
def answeringClient (response : VolumeSetResponse) : volumeClient :=
  { putVolume := fun _ _ => .ok response }

/-! ## Lemmas about the store -/

theorem Kvdb.find_erase_self (k : String) (l : List KVPair) :
    Kvdb.find k (Kvdb.erase k l) = none := by
  induction l with
  | nil => rfl
  | cons p rest ih =>
    by_cases h : p.Key = k
    · simp [Kvdb.erase, h, ih]
    · simp [Kvdb.erase, Kvdb.find, h, ih]

theorem Kvdb.find_erase_ne {k k2 : String} (h : k2 ≠ k) (l : List KVPair) :
    Kvdb.find k2 (Kvdb.erase k l) = Kvdb.find k2 l := by
  induction l with
  | nil => rfl
  | cons p rest ih =>
    by_cases h1 : p.Key = k
    · have h2 : ¬ p.Key = k2 := fun h3 => h (h3.symm.trans h1)
      rw [Kvdb.erase, if_pos h1, ih, Kvdb.find, if_neg h2]
    · rw [Kvdb.erase, if_neg h1]
      by_cases h2 : p.Key = k2
      · rw [Kvdb.find, if_pos h2, Kvdb.find, if_pos h2]
      · rw [Kvdb.find, if_neg h2, ih, Kvdb.find, if_neg h2]

theorem Kvdb.find_append (k : String) (l r : List KVPair) :
    Kvdb.find k (l ++ r) = (Kvdb.find k l).orElse fun _ => Kvdb.find k r := by
  induction l with
  | nil => simp [Kvdb.find]
  | cons p rest ih =>
    by_cases h : p.Key = k
    · simp [Kvdb.find, h]
    · simp [Kvdb.find, h, ih]

theorem Kvdb.find_insert_self (k : String) (v : Bytes) (l : List KVPair) :
    Kvdb.find k (Kvdb.insert k v l) = some v := by
  simp [Kvdb.insert, Kvdb.find_append, Kvdb.find_erase_self, Kvdb.find]

theorem Kvdb.find_insert_ne {k k2 : String} (h : k2 ≠ k) (v : Bytes) (l : List KVPair) :
    Kvdb.find k2 (Kvdb.insert k v l) = Kvdb.find k2 l := by
  have h1 : ¬ k = k2 := fun h2 => h h2.symm
  cases hf : Kvdb.find k2 l <;>
    simp [Kvdb.insert, Kvdb.find_append, Kvdb.find_erase_ne h, Kvdb.find, h1, hf]

theorem pairKey_inj (a b : String) :
    ClusterPairKey ++ "/" ++ a = ClusterPairKey ++ "/" ++ b ↔ a = b := by
  constructor
  · intro h
    have h1 := congrArg String.data h
    simp only [String.data_append, List.append_assoc] at h1
    have h2 := List.append_cancel_left h1
    have h3 := List.append_cancel_left h2
    exact String.ext h3
  · intro h
    rw [h]

theorem pairKey_eq_default (a : String) :
    ClusterPairKey ++ "/" ++ a = clusterPairDefaultKey ↔ a = "default" := by
  have h : clusterPairDefaultKey = ClusterPairKey ++ "/" ++ "default" := by decide
  rw [h]
  exact pairKey_inj a "default"

theorem Kvdb.takeFault_healthy {w : World} (h : w.faults = []) :
    Kvdb.takeFault w = (none, w) := by
  simp [Kvdb.takeFault, h]

/-! ## Claims -/

/-- C3: when the store already holds a value under cluster/pair/<info.Id> and no
store failure is scheduled, pairCreate fails with kvdb.ErrExist for either
value of setDefault and the store contents (that record, every other record
and the default pointer) are exactly what they were. -/
theorem pairCreate_existing_fails (info : ClusterPairInfo) (setDefault : Bool) (w : World)
    (hf : w.faults = []) (hex : (w.record info.Id).isSome = true) :
    (pairCreate info setDefault w).1 = some Error.ErrExist ∧
      (pairCreate info setDefault w).2.kv = w.kv := by
  obtain ⟨v, hv⟩ := Option.isSome_iff_exists.mp hex
  simp only [World.record] at hv
  simp [pairCreate, Kvdb.Lock, Kvdb.LockWithID, Kvdb.takeFault, hf, pairCreateLocked,
    Kvdb.Create, hv, Kvdb.Unlock]

/-- C3 witness: a second Create of "c2", with setDefault true, on the store that
already holds "c2". -/
theorem pairCreate_existing_fails_witness :
    (pairCreate westPair true (pairCreate westPair false World.empty).2).1
        = some Error.ErrExist ∧
      (pairCreate westPair true (pairCreate westPair false World.empty).2).2.kv
        = (pairCreate westPair false World.empty).2.kv :=
  pairCreate_existing_fails westPair true (pairCreate westPair false World.empty).2
    (by decide) (by decide)

/-! ## Lemmas about token generation -/

theorem hexDigit_mod (n : Nat) : hexDigit (n % 16) = hexDigit n := by
  simp [hexDigit]

theorem hexDigit_inj_small : ∀ a < 16, ∀ b < 16, hexDigit a = hexDigit b → a = b := by
  decide

theorem hexDigit_inj_mod {a b : Nat} (h : hexDigit a = hexDigit b) : a % 16 = b % 16 := by
  rw [← hexDigit_mod a, ← hexDigit_mod b] at h
  exact hexDigit_inj_small _ (Nat.mod_lt _ (by decide)) _ (Nat.mod_lt _ (by decide)) h

theorem hexDigit_mem (n : Nat) : hexDigit n ∈ "0123456789abcdef".data := by
  have h : ∀ a < 16, hexDigit a ∈ "0123456789abcdef".data := by decide
  rw [← hexDigit_mod n]
  exact h _ (Nat.mod_lt _ (by decide))

theorem hexByte_inj {a b : Nat} (ha : a < 256) (hb : b < 256) (h : hexByte a = hexByte b) :
    a = b := by
  simp only [hexByte, List.cons.injEq, and_true] at h
  have h1 := hexDigit_inj_mod h.1
  have h2 := hexDigit_inj_mod h.2
  omega

theorem hexEncode_data (b : List Nat) : (hexEncode b).data = b.flatMap hexByte := rfl

theorem hexEncode_length (b : List Nat) : (hexEncode b).length = 2 * b.length := by
  show (b.flatMap hexByte).length = 2 * b.length
  induction b with
  | nil => rfl
  | cons x rest ih =>
    simp only [List.flatMap_cons, List.length_append, ih, hexByte, List.length_cons,
      List.length_nil]
    omega

theorem hexEncode_chars (b : List Nat) :
    ∀ ch ∈ (hexEncode b).data, ch ∈ "0123456789abcdef".data := by
  intro ch hch
  rw [hexEncode_data, List.mem_flatMap] at hch
  obtain ⟨x, _, hx⟩ := hch
  simp only [hexByte, List.mem_cons, List.mem_singleton, List.not_mem_nil, or_false] at hx
  rcases hx with hx | hx <;> rw [hx] <;> exact hexDigit_mem _

theorem hexEncode_inj : ∀ (a b : List Nat), (∀ x ∈ a, x < 256) → (∀ x ∈ b, x < 256) →
    hexEncode a = hexEncode b → a = b := by
  intro a
  induction a with
  | nil =>
    intro b _ _ h
    cases b with
    | nil => rfl
    | cons y ys =>
      have h1 := congrArg String.length h
      rw [hexEncode_length, hexEncode_length] at h1
      simp at h1
  | cons x xs ih =>
    intro b ha hb h
    cases b with
    | nil =>
      have h1 := congrArg String.length h
      rw [hexEncode_length, hexEncode_length] at h1
      simp at h1
    | cons y ys =>
      have h1 := congrArg String.data h
      simp only [hexEncode_data, List.flatMap_cons, hexByte, List.cons_append,
        List.nil_append, List.cons.injEq] at h1
      have hxy : x = y := by
        apply hexByte_inj (ha x (List.mem_cons_self _ _)) (hb y (List.mem_cons_self _ _))
        simp only [hexByte, List.cons.injEq, and_true]
        exact ⟨h1.1, h1.2.1⟩
      have hrest : xs = ys := by
        apply ih ys (fun z hz => ha z (List.mem_cons_of_mem _ hz))
          (fun z hz => hb z (List.mem_cons_of_mem _ hz))
        exact String.ext h1.2.2
      rw [hxy, hrest]

theorem randRead_length (n : Nat) (w : World) : (randRead n w).1.length = n := by
  simp [randRead]

theorem randRead_lt (n : Nat) (w : World) : ∀ x ∈ (randRead n w).1, x < 256 := by
  intro x hx
  simp only [randRead, List.mem_map] at hx
  obtain ⟨i, _, hi⟩ := hx
  rw [← hi]
  exact Nat.mod_lt _ (by decide)

theorem takeFault_fields (w : World) :
    (Kvdb.takeFault w).2.kv = w.kv ∧ (Kvdb.takeFault w).2.db = w.db ∧
      (Kvdb.takeFault w).2.entropy = w.entropy ∧ (Kvdb.takeFault w).2.calls = w.calls ∧
      (Kvdb.takeFault w).2.lockLog = w.lockLog := by
  unfold Kvdb.takeFault
  cases w.faults <;> simp

theorem GetPairTokenLocked_ok {reset : Bool} {w w2 : World} {r : ClusterPairTokenGetResponse}
    (h : GetPairTokenLocked reset w = (.ok r, w2)) :
    w2.kv = w.kv ∧ w2.calls = w.calls ∧ w2.db.PairToken = r.Token ∧ w2.db.Id = w.db.Id ∧
      ((w.db.PairToken = "" ∨ reset = true) → r.Token = hexEncode (randRead 64 w).1) ∧
      (¬ (w.db.PairToken = "" ∨ reset = true) → r.Token = w.db.PairToken ∧ w2.db = w.db) := by
  obtain ⟨hkv, hdb, hen, hcalls, _⟩ := takeFault_fields w
  unfold GetPairTokenLocked readClusterInfo at h
  rcases htf : Kvdb.takeFault w with ⟨f, w1⟩
  rw [htf] at h hkv hdb hen hcalls
  simp only at hkv hdb hen hcalls
  cases f with
  | some m => simp at h
  | none =>
    simp only at h
    by_cases hgen : (w1.db.PairToken == "" || reset) = true
    · rw [if_pos hgen] at h
      obtain ⟨hkv2, hdb2, hen2, hcalls2, _⟩ :=
        takeFault_fields (randRead 64 w1).2
      unfold writeClusterInfo at h
      rcases htf2 : Kvdb.takeFault (randRead 64 w1).2 with ⟨f2, w3⟩
      rw [htf2] at h hkv2 hdb2 hen2 hcalls2
      simp only at hkv2 hdb2 hen2 hcalls2
      cases f2 with
      | some m => simp at h
      | none =>
        simp only [Prod.mk.injEq, Except.ok.injEq] at h
        obtain ⟨hr, hw⟩ := h
        have hbytes : (randRead 64 w1).1 = (randRead 64 w).1 := by
          simp [randRead, hen]
        subst hw
        subst hr
        simp only [randRead] at hkv2 hcalls2
        refine ⟨by simp [hkv2, hkv], by simp [hcalls2, hcalls], rfl, by simp [hdb], ?_, ?_⟩
        · intro _
          simp [hbytes]
        · intro hn
          exfalso
          apply hn
          rw [hdb] at hgen
          simpa using hgen
    · rw [if_neg hgen] at h
      simp only [Prod.mk.injEq, Except.ok.injEq] at h
      obtain ⟨hr, hw⟩ := h
      subst hw
      subst hr
      refine ⟨hkv, hcalls, rfl, by rw [hdb], ?_, ?_⟩
      · intro hg
        exfalso
        apply hgen
        rw [hdb]
        simpa using hg
      · intro _
        exact ⟨by rw [hdb], hdb⟩

theorem GetPairToken_ok {c : ClusterManager} {reset : Bool} {w w2 : World}
    {r : ClusterPairTokenGetResponse} (h : GetPairToken c reset w = (.ok r, w2)) :
    w2.kv = w.kv ∧ w2.calls = w.calls ∧ w2.db.PairToken = r.Token ∧ w2.db.Id = w.db.Id ∧
      ((w.db.PairToken = "" ∨ reset = true) → r.Token = hexEncode (randRead 64 w).1) ∧
      (¬ (w.db.PairToken = "" ∨ reset = true) → r.Token = w.db.PairToken ∧ w2.db = w.db) := by
  obtain ⟨hkv, hdb, hen, hcalls, _⟩ := takeFault_fields w
  unfold GetPairToken Kvdb.LockWithID at h
  rcases htf : Kvdb.takeFault w with ⟨f, w1⟩
  rw [htf] at h hkv hdb hen hcalls
  simp only at hkv hdb hen hcalls
  cases f with
  | some m => simp at h
  | none =>
    simp only at h
    rcases hl : GetPairTokenLocked reset
      { w1 with lockLog := w1.lockLog ++ [LockEvent.acquire clusterLockKey c.config.NodeId] }
      with ⟨r1, w3⟩
    rw [hl] at h
    simp only [Prod.mk.injEq] at h
    obtain ⟨hr, hw⟩ := h
    subst hr
    subst hw
    have key := GetPairTokenLocked_ok hl
    simp only [Kvdb.Unlock, randRead] at key ⊢
    rw [hkv, hcalls, hdb, hen] at key
    exact key

/-- C9: two consecutive successful calls GetPairToken(false) return the same
token, and the second call leaves the configuration document as the first
call left it. -/
theorem GetPairToken_stable_without_reset (c : ClusterManager) (w : World)
    (r1 r2 : ClusterPairTokenGetResponse)
    (h1 : (GetPairToken c false w).1 = .ok r1)
    (h2 : (GetPairToken c false (GetPairToken c false w).2).1 = .ok r2) :
    r1.Token = r2.Token ∧
      (GetPairToken c false (GetPairToken c false w).2).2.db = (GetPairToken c false w).2.db := by
  have e1 : GetPairToken c false w = (.ok r1, (GetPairToken c false w).2) := by
    rw [← h1]
  have e2 : GetPairToken c false (GetPairToken c false w).2
      = (.ok r2, (GetPairToken c false (GetPairToken c false w).2).2) := by
    rw [← h2]
  obtain ⟨_, _, htok1, _, hgen1, hkeep1⟩ := GetPairToken_ok e1
  obtain ⟨_, _, _, _, _, hkeep2⟩ := GetPairToken_ok e2
  have hne : r1.Token ≠ "" := by
    by_cases hg : w.db.PairToken = "" ∨ false = true
    · intro h0
      have hlen := congrArg String.length h0
      rw [hgen1 hg, hexEncode_length, randRead_length] at hlen
      simp at hlen
    · rw [(hkeep1 hg).1]
      intro h0
      exact hg (Or.inl h0)
  have hstay : ¬ ((GetPairToken c false w).2.db.PairToken = "" ∨ false = true) := by
    rw [htok1]
    simp [hne]
  obtain ⟨ht, hdb⟩ := hkeep2 hstay
  exact ⟨by rw [ht, htok1], hdb⟩

/-- C9 witness: on a fresh configuration the first call generates the token and
the second call returns it again. -/
theorem GetPairToken_stable_without_reset_witness :
    (GetPairToken plainManager false seededWorld).1
        = .ok { Token := hexEncode (randRead 64 seededWorld).1 } ∧
      (GetPairToken plainManager false (GetPairToken plainManager false seededWorld).2).1
        = .ok { Token := hexEncode (randRead 64 seededWorld).1 } ∧
      (GetPairToken plainManager false (GetPairToken plainManager false seededWorld).2).2.db
        = (GetPairToken plainManager false seededWorld).2.db :=
  ⟨rfl, rfl,
   (GetPairToken_stable_without_reset plainManager seededWorld
      { Token := hexEncode (randRead 64 seededWorld).1 }
      { Token := hexEncode (randRead 64 seededWorld).1 } rfl rfl).2⟩

/-- C10: when GetPairToken generates a token (the stored token is empty or reset
is true) and succeeds, the token returned is the lowercase hexadecimal
encoding of the 64 bytes drawn, it is the token persisted in the configuration
document, it has exactly 128 characters, all of them hexadecimal digits; and
a following successful GetPairToken(true) whose drawn bytes differ from these
returns a different token. -/
theorem GetPairToken_generated_token (c : ClusterManager) (reset : Bool) (w : World)
    (r : ClusterPairTokenGetResponse)
    (hgen : w.db.PairToken = "" ∨ reset = true)
    (h : (GetPairToken c reset w).1 = .ok r) :
    r.Token = hexEncode (randRead 64 w).1 ∧
      (randRead 64 w).1.length = 64 ∧
      (GetPairToken c reset w).2.db.PairToken = r.Token ∧
      r.Token.length = 128 ∧
      (∀ ch ∈ r.Token.data, ch ∈ "0123456789abcdef".data) ∧
      (∀ r2 : ClusterPairTokenGetResponse,
        (GetPairToken c true (GetPairToken c reset w).2).1 = .ok r2 →
        (randRead 64 (GetPairToken c reset w).2).1 ≠ (randRead 64 w).1 →
        r2.Token ≠ r.Token) := by
  have e1 : GetPairToken c reset w = (.ok r, (GetPairToken c reset w).2) := by
    rw [← h]
  obtain ⟨_, _, htok, _, hg, _⟩ := GetPairToken_ok e1
  have ht := hg hgen
  refine ⟨ht, randRead_length 64 w, htok, ?_, ?_, ?_⟩
  · rw [ht, hexEncode_length, randRead_length]
  · rw [ht]
    exact hexEncode_chars _
  · intro r2 h2 hdiff heq
    have e2 : GetPairToken c true (GetPairToken c reset w).2
        = (.ok r2, (GetPairToken c true (GetPairToken c reset w).2).2) := by
      rw [← h2]
    obtain ⟨_, _, _, _, hg2, _⟩ := GetPairToken_ok e2
    have ht2 := hg2 (Or.inr rfl)
    rw [ht2, ht] at heq
    exact hdiff (hexEncode_inj _ _ (randRead_lt 64 _) (randRead_lt 64 _) heq)

/-- C10 witness: a reset on the seeded world, followed by a second reset that
draws the next 64 bytes. -/
theorem GetPairToken_generated_token_witness :
    (hexEncode (randRead 64 seededWorld).1).length = 128 ∧
      hexEncode (randRead 64 (GetPairToken plainManager true seededWorld).2).1
        ≠ hexEncode (randRead 64 seededWorld).1 :=
  have key := GetPairToken_generated_token plainManager true seededWorld
    { Token := hexEncode (randRead 64 seededWorld).1 } (Or.inr rfl) rfl
  ⟨key.2.2.2.1,
   key.2.2.2.2.2 { Token := hexEncode (randRead 64 (GetPairToken plainManager true seededWorld).2).1 }
     rfl (by decide)⟩

/-! ## Lemmas about the listener loops -/

theorem processPairListeners_calls (self : Node) :
    ∀ (ls : List ClusterListener) (resp : ClusterPairProcessResponse) (w : World),
      ∃ extra : List HookCall,
        (processPairListeners self ls resp w).2.2.calls = w.calls ++ extra ∧
          (ls ≠ [] → extra ≠ []) ∧
          (processPairListeners self ls resp w).2.2.kv = w.kv ∧
          (processPairListeners self ls resp w).2.2.db = w.db := by
  intro ls
  induction ls with
  | nil =>
    intro resp w
    exact ⟨[], by simp [processPairListeners], by simp, rfl, rfl⟩
  | cons l rest ih =>
    intro resp w
    rcases hl : l.ProcessPairRequest self resp with ⟨e, resp1⟩
    cases e with
    | some e =>
      refine ⟨[{ kind := .ProcessPairRequest, listener := l.name }], ?_, by simp, ?_, ?_⟩ <;>
        simp [processPairListeners, hl, World.called]
    | none =>
      obtain ⟨extra, h1, _, h3, h4⟩ := ih resp1 (w.called .ProcessPairRequest l)
      have hstep : processPairListeners self (l :: rest) resp w
          = processPairListeners self rest resp1 (w.called .ProcessPairRequest l) := by
        simp only [processPairListeners, hl]
      rw [hstep]
      refine ⟨{ kind := .ProcessPairRequest, listener := l.name } :: extra, ?_, by simp, ?_, ?_⟩
      · rw [h1]
        simp [World.called]
      · rw [h3]
        rfl
      · rw [h4]
        rfl

/-- C8: provided GetPairToken(false) succeeds with token tok, (a) if the presented
token differs from tok, ProcessPairRequest fails with the token-mismatch error
and the hook trace is what it was before the call; (b) if the presented token
equals tok, the outcome is that of the listener loop, so the call does not
fail with the token-mismatch error while leaving the hook trace untouched.
Hence ProcessPairRequest fails at the token check exactly when the tokens
differ, and no hook has run when it does. -/
theorem ProcessPairRequest_token_check (c : ClusterManager)
    (request : ClusterPairProcessRequest) (w : World) (tok : ClusterPairTokenGetResponse)
    (htok : (GetPairToken c false w).1 = .ok tok) :
    (tok.Token ≠ request.RemoteClusterToken →
        (ProcessPairRequest c request w).1
            = .error (.errorf "Token mismatch during pairing") ∧
          (ProcessPairRequest c request w).2.calls = w.calls) ∧
      (tok.Token = request.RemoteClusterToken →
        ProcessPairRequest c request w
            = (match processPairListeners c.selfNode c.listeners
                { RemoteClusterId := c.config.ClusterId
                  RemoteClusterName := c.config.ClusterId
                  Options := [] } (GetPairToken c false w).2 with
               | (some e, _, w2) => (.error e, w2)
               | (none, resp, w2) => (.ok resp, w2)) ∧
          ¬ ((ProcessPairRequest c request w).1
                = .error (.errorf "Token mismatch during pairing") ∧
              (ProcessPairRequest c request w).2.calls = w.calls)) := by
  have e1 : GetPairToken c false w = (.ok tok, (GetPairToken c false w).2) := by
    rw [← htok]
  obtain ⟨_, hcalls, _⟩ := GetPairToken_ok e1
  generalize (GetPairToken c false w).2 = w1 at e1 hcalls
  constructor
  · intro hne
    simp [ProcessPairRequest, e1, hne, hcalls]
  · intro heq
    have hrun : ProcessPairRequest c request w
        = (match processPairListeners c.selfNode c.listeners
            { RemoteClusterId := c.config.ClusterId
              RemoteClusterName := c.config.ClusterId
              Options := [] } w1 with
           | (some e, _, w2) => (.error e, w2)
           | (none, resp, w2) => (.ok resp, w2)) := by
      simp [ProcessPairRequest, e1, heq]
    refine ⟨hrun, ?_⟩
    rw [hrun]
    obtain ⟨extra, hx, hne, _⟩ := processPairListeners_calls c.selfNode c.listeners
      { RemoteClusterId := c.config.ClusterId
        RemoteClusterName := c.config.ClusterId
        Options := [] } w1
    rcases hp : processPairListeners c.selfNode c.listeners
      { RemoteClusterId := c.config.ClusterId
        RemoteClusterName := c.config.ClusterId
        Options := [] } w1 with ⟨e, resp, w2⟩
    rw [hp] at hx
    simp only at hx
    cases e with
    | none => simp
    | some e =>
      simp only [not_and]
      intro _ hc
      rw [hx, hcalls] at hc
      have hnil : extra = [] := by simpa using hc
      have hls : c.listeners = [] := by
        by_contra hcon
        exact hne hcon hnil
      rw [hls] at hp
      simp [processPairListeners] at hp

/-- C8 witness: with the stored token "secret", a request presenting "wrong"
fails with the token-mismatch error and none of L1, L2, L3 has been invoked. -/
theorem ProcessPairRequest_token_check_witness :
    (ProcessPairRequest listeningManager
        { SourceClusterId := "peer", RemoteClusterToken := "wrong" } tokenWorld).1
        = .error (.errorf "Token mismatch during pairing") ∧
      (ProcessPairRequest listeningManager
        { SourceClusterId := "peer", RemoteClusterToken := "wrong" } tokenWorld).2.calls
        = tokenWorld.calls :=
  (ProcessPairRequest_token_check listeningManager
      { SourceClusterId := "peer", RemoteClusterToken := "wrong" } tokenWorld
      { Token := "secret" } rfl).1 (by decide)

/-! ## The store calls when no failure is scheduled -/

theorem pairCreate_healthy (info : ClusterPairInfo) (sd : Bool) (w : World)
    (hf : w.faults = []) (hab : w.record info.Id = none) :
    (pairCreate info sd w).1 = none ∧ (pairCreate info sd w).2.faults = [] ∧
    (pairCreate info sd w).2.kv =
      (match Kvdb.find clusterPairDefaultKey
          (Kvdb.insert (ClusterPairKey ++ "/" ++ info.Id) (.json info) w.kv) with
       | none => Kvdb.insert clusterPairDefaultKey (.text info.Id)
           (Kvdb.insert (ClusterPairKey ++ "/" ++ info.Id) (.json info) w.kv)
       | some v => if sd = true ∨ v.asString = "" then
           Kvdb.insert clusterPairDefaultKey (.text info.Id)
             (Kvdb.insert (ClusterPairKey ++ "/" ++ info.Id) (.json info) w.kv)
         else Kvdb.insert (ClusterPairKey ++ "/" ++ info.Id) (.json info) w.kv) := by
  simp only [World.record] at hab
  simp [pairCreate, Kvdb.Lock, Kvdb.LockWithID, Kvdb.takeFault, hf, pairCreateLocked,
    Kvdb.Create, hab, Kvdb.Unlock, getDefaultPairId, Kvdb.Get, setDefaultPairId, Kvdb.Put]
  cases hp : Kvdb.find clusterPairDefaultKey
      (Kvdb.insert (ClusterPairKey ++ "/" ++ info.Id) (.json info) w.kv) with
  | none => simp
  | some v =>
    simp
    by_cases h : sd = true ∨ v.asString = ""
    · simp [h]
    · simp [h]

theorem pairCreate_healthy_existing (info : ClusterPairInfo) (sd : Bool) (w : World)
    (hf : w.faults = []) (v : Bytes) (hex : w.record info.Id = some v) :
    (pairCreate info sd w).1 = some Error.ErrExist ∧ (pairCreate info sd w).2.faults = [] ∧
      (pairCreate info sd w).2.kv = w.kv := by
  simp only [World.record] at hex
  simp [pairCreate, Kvdb.Lock, Kvdb.LockWithID, Kvdb.takeFault, hf, pairCreateLocked,
    Kvdb.Create, hex, Kvdb.Unlock]

theorem pairDelete_healthy (id : String) (w : World) (hf : w.faults = []) :
    (pairDelete id w).2.faults = [] ∧
    ((pairDelete id w).1, (pairDelete id w).2.kv) =
      (match Kvdb.find clusterPairDefaultKey w.kv with
       | none =>
         (match Kvdb.find (ClusterPairKey ++ "/" ++ id) w.kv with
          | none => (some Error.ErrNotFound, w.kv)
          | some _ => (none, Kvdb.erase (ClusterPairKey ++ "/" ++ id) w.kv))
       | some v =>
         if v.asString = id then
           (match Kvdb.find (ClusterPairKey ++ "/" ++ id)
              (Kvdb.erase clusterPairDefaultKey w.kv) with
            | none => (some Error.ErrNotFound, Kvdb.erase clusterPairDefaultKey w.kv)
            | some _ => (none, Kvdb.erase (ClusterPairKey ++ "/" ++ id)
                (Kvdb.erase clusterPairDefaultKey w.kv)))
         else
           (match Kvdb.find (ClusterPairKey ++ "/" ++ id) w.kv with
            | none => (some Error.ErrNotFound, w.kv)
            | some _ => (none, Kvdb.erase (ClusterPairKey ++ "/" ++ id) w.kv))) := by
  simp only [pairDelete, Kvdb.Lock, Kvdb.LockWithID, Kvdb.takeFault, hf, pairDeleteLocked,
    getDefaultPairId, Kvdb.Get, Kvdb.Unlock]
  cases hp : Kvdb.find clusterPairDefaultKey w.kv with
  | none =>
    cases hr : Kvdb.find (ClusterPairKey ++ "/" ++ id) w.kv <;>
      simp [pairDeleteRecord, Kvdb.Delete, Kvdb.takeFault, hr]
  | some v =>
    by_cases h : v.asString = id
    · cases hr : Kvdb.find (ClusterPairKey ++ "/" ++ id)
          (Kvdb.erase clusterPairDefaultKey w.kv) <;>
        simp [pairDeleteRecord, Kvdb.Delete, Kvdb.takeFault, deleteDefaultPairId, hp, h, hr]
    · cases hr : Kvdb.find (ClusterPairKey ++ "/" ++ id) w.kv <;>
        simp [pairDeleteRecord, Kvdb.Delete, Kvdb.takeFault, h, hr]

theorem pairGet_healthy (id : String) (w : World) (hf : w.faults = []) :
    (pairGet id w).1 =
      (match w.record id with
       | none => .error Error.ErrNotFound
       | some v => jsonUnmarshal v) ∧
      (pairGet id w).2.kv = w.kv ∧ (pairGet id w).2.faults = [] := by
  simp only [pairGet, Kvdb.Lock, Kvdb.LockWithID, Kvdb.takeFault, hf, pairGetLocked,
    Kvdb.Get, Kvdb.Unlock, World.record]
  cases hr : Kvdb.find (ClusterPairKey ++ "/" ++ id) w.kv with
  | none => simp
  | some v =>
    cases hj : jsonUnmarshal v <;> simp [hj]

/-! ## The reserved id "default" and the unset default pointer -/

/-- C1, evaluated at the sequence that consists of the single call
Create(info, false) with info.Id = "default" on the empty store: the call
succeeds, the record lands on the default-pointer key, the default pointer then
reads as the text of that JSON document, no record is stored under that value,
and the default pointer is neither absent, nor empty, nor the id of a stored
record. -/
theorem default_pointer_dangles_for_reserved_id :
    (pairCreate defaultNamedPair false World.empty).1 = none ∧
      (runOps [StoreOp.create defaultNamedPair false] World.empty).defaultPointer
        = some (.json defaultNamedPair) ∧
      (getDefaultPairId (runOps [StoreOp.create defaultNamedPair false] World.empty)).1
        = (jsonText defaultNamedPair, none) ∧
      (runOps [StoreOp.create defaultNamedPair false] World.empty).record
        (jsonText defaultNamedPair) = none ∧
      defaultConsistent (runOps [StoreOp.create defaultNamedPair false] World.empty)
        = false := by
  decide

/-- C4, evaluated at info.Id = "default" with setDefault true on the empty store:
pairCreate succeeds, then writes the default pointer over the record it has
just stored, and pairGet("default") fails to decode the pointer text. -/
theorem roundtrip_fails_for_reserved_id :
    (World.empty.record defaultNamedPair.Id) = none ∧
      (pairCreate defaultNamedPair true World.empty).1 = none ∧
      (pairCreate defaultNamedPair true World.empty).2.record "default"
        = some (.text "default") ∧
      (pairGet defaultNamedPair.Id (pairCreate defaultNamedPair true World.empty).2).1
        = .error (.jsonSyntax "default") :=
  ⟨by decide, by decide, by decide, rfl⟩

/-- C5, evaluated at the pairs "default" and "c2" created in that order on the
empty store: both calls succeed, yet EnumeratePairs returns only "c2" and a
DefaultId that is the JSON text of the record of "default". -/
theorem enumerate_misses_reserved_id :
    (pairCreate defaultNamedPair false World.empty).1 = none ∧
      (pairCreate westPair false (pairCreate defaultNamedPair false World.empty).2).1
        = none ∧
      (EnumeratePairs plainManager (createAll [defaultNamedPair, westPair] World.empty)).1
        = .ok { Pairs := [("c2", westPair)], DefaultId := jsonText defaultNamedPair } :=
  ⟨by decide, by decide, rfl⟩

/-- C6, evaluated after creating "c1" (which becomes the default) and "c2" and
then deleting "c1" through DeletePair: every call succeeds, pairList reads the
remaining pair, but EnumeratePairs fails with kvdb.ErrNotFound because the
default pointer is not set. -/
theorem enumerate_fails_without_default :
    (DeletePair plainManager "c1" (createAll [eastPair, westPair] World.empty)).1 = none ∧
      (DeletePair plainManager "c1"
        (createAll [eastPair, westPair] World.empty)).2.defaultPointer = none ∧
      (pairList (DeletePair plainManager "c1"
        (createAll [eastPair, westPair] World.empty)).2).1 = .ok [("c2", westPair)] ∧
      (EnumeratePairs plainManager (DeletePair plainManager "c1"
        (createAll [eastPair, westPair] World.empty)).2).1 = .error Error.ErrNotFound ∧
      (EnumeratePairs plainManager World.empty).1 = .error Error.ErrNotFound :=
  ⟨by decide, by decide, rfl, rfl, rfl⟩

/-- C7, evaluated on the store reached by creating the pairs "default" and
shadowPair (whose id is the JSON text of the first record), both with
setDefault false: the default pointer reads as shadowPair.Id, a stored pair
other than "default".  pairDelete("default") succeeds and the default pointer
is gone although it named a different pair; pairDelete(shadowPair.Id) succeeds
and removes the record of "default" as well. -/
theorem pairDelete_frame_fails_for_reserved_id :
    (pairCreate defaultNamedPair false World.empty).1 = none ∧
      (pairCreate shadowPair false (pairCreate defaultNamedPair false World.empty).2).1
        = none ∧
      (createAll [defaultNamedPair, shadowPair] World.empty).record "default"
        = some (.json defaultNamedPair) ∧
      (createAll [defaultNamedPair, shadowPair] World.empty).record shadowPair.Id
        = some (.json shadowPair) ∧
      (getDefaultPairId (createAll [defaultNamedPair, shadowPair] World.empty)).1
        = (shadowPair.Id, none) ∧
      shadowPair.Id ≠ "default" ∧
      (pairDelete "default" (createAll [defaultNamedPair, shadowPair] World.empty)).1
        = none ∧
      (getDefaultPairId
        (pairDelete "default" (createAll [defaultNamedPair, shadowPair] World.empty)).2).1
        = ("", some Error.ErrNotFound) ∧
      (pairDelete shadowPair.Id (createAll [defaultNamedPair, shadowPair] World.empty)).1
        = none ∧
      (pairDelete shadowPair.Id
        (createAll [defaultNamedPair, shadowPair] World.empty)).2.record "default"
        = none := by
  decide

/-- C2 as stated fails on the store that holds the pair with the empty id as its
default (the pointer exists and holds the empty string): "c2" has no stored
record, pairCreate("c2", setDefault false) succeeds, and the default pointer
changes from "" to "c2". -/
theorem pairCreate_default_selection_counterexample :
    (pairCreate emptyIdPair false World.empty).1 = none ∧
      (pairCreate emptyIdPair false World.empty).2.record "" = some (.json emptyIdPair) ∧
      (pairCreate emptyIdPair false World.empty).2.defaultPointer = some (.text "") ∧
      (pairCreate emptyIdPair false World.empty).2.record westPair.Id = none ∧
      (pairCreate westPair false (pairCreate emptyIdPair false World.empty).2).1 = none ∧
      (pairCreate westPair false (pairCreate emptyIdPair false World.empty).2).2.defaultPointer
        = some (.text "c2") ∧
      (pairCreate westPair false (pairCreate emptyIdPair false World.empty).2).2.defaultPointer
        ≠ (pairCreate emptyIdPair false World.empty).2.defaultPointer := by
  decide

/-- C2 amended: with the store answering every call, for every info whose Id is
not the reserved word "default" and has no stored record, pairCreate succeeds;
it leaves the default pointer equal to info.Id when setDefault is true or the
pointer was absent or held the empty string, and it leaves the pointer as it
was when setDefault is false and the pointer held a non-empty value. -/
theorem pairCreate_default_selection (info : ClusterPairInfo) (setDefault : Bool) (w : World)
    (hf : w.faults = []) (hid : info.Id ≠ "default") (hab : w.record info.Id = none) :
    (pairCreate info setDefault w).1 = none ∧
      ((setDefault = true ∨ w.defaultPointer = none ∨
          (∃ v, w.defaultPointer = some v ∧ v.asString = "")) →
        (pairCreate info setDefault w).2.defaultPointer = some (.text info.Id)) ∧
      (setDefault = false →
        ∀ v, w.defaultPointer = some v → v.asString ≠ "" →
          (pairCreate info setDefault w).2.defaultPointer = some v) := by
  obtain ⟨hres, _, hkv⟩ := pairCreate_healthy info setDefault w hf hab
  have hne : clusterPairDefaultKey ≠ ClusterPairKey ++ "/" ++ info.Id := by
    intro h
    exact hid ((pairKey_eq_default info.Id).mp h.symm)
  have hptr : Kvdb.find clusterPairDefaultKey
      (Kvdb.insert (ClusterPairKey ++ "/" ++ info.Id) (.json info) w.kv)
        = w.defaultPointer := Kvdb.find_insert_ne hne _ _
  rw [hptr] at hkv
  refine ⟨hres, ?_, ?_⟩
  · intro hcase
    unfold World.defaultPointer at hcase ⊢
    rw [hkv]
    cases hp : Kvdb.find clusterPairDefaultKey w.kv with
    | none => simp [World.defaultPointer, hp, Kvdb.find_insert_self]
    | some v =>
      have hc : setDefault = true ∨ v.asString = "" := by
        rcases hcase with h | h | ⟨v2, h1, h2⟩
        · exact Or.inl h
        · rw [hp] at h
          cases h
        · rw [hp] at h1
          cases h1
          exact Or.inr h2
      simp [World.defaultPointer, hp, hc, Kvdb.find_insert_self]
  · intro hsd v hv hnon
    unfold World.defaultPointer at hv ⊢
    rw [hkv]
    have hc : ¬ (setDefault = true ∨ v.asString = "") := by
      rw [hsd]
      simp [hnon]
    simp only [World.defaultPointer, hv, hc, if_false]
    rw [Kvdb.find_insert_ne hne, hv]

/-- C2 amended, witness: on the empty store the first pair "c1" created with
setDefault false becomes the default, and the second pair "c2" created with
setDefault false leaves the default at "c1". -/
theorem pairCreate_default_selection_witness :
    (pairCreate eastPair false World.empty).2.defaultPointer = some (.text "c1") ∧
      (pairCreate westPair false (pairCreate eastPair false World.empty).2).2.defaultPointer
        = some (.text "c1") :=
  ⟨(pairCreate_default_selection eastPair false World.empty rfl (by decide) (by decide)).2.1
      (Or.inr (Or.inl (by decide))),
   (pairCreate_default_selection westPair false (pairCreate eastPair false World.empty).2
      (by decide) (by decide) (by decide)).2.2 rfl (.text "c1") (by decide) (by decide)⟩

/-! ## What holds for every id other than "default" -/

theorem defaultConsistent_iff (w : World) :
    defaultConsistent w = true ↔
      ∀ v, Kvdb.find clusterPairDefaultKey w.kv = some v →
        v.asString = "" ∨
          ∃ info, Kvdb.find (ClusterPairKey ++ "/" ++ v.asString) w.kv = some (.json info) ∧
            info.Id = v.asString := by
  unfold defaultConsistent World.defaultPointer World.record
  cases hp : Kvdb.find clusterPairDefaultKey w.kv with
  | none => simp
  | some v =>
    cases hr : Kvdb.find (ClusterPairKey ++ "/" ++ v.asString) w.kv with
    | none => simp [hr]
    | some b =>
      cases b with
      | text s => simp [hr]
      | json info => simp [hr]

theorem pairKey_ne_default {id : String} (h : id ≠ "default") :
    clusterPairDefaultKey ≠ ClusterPairKey ++ "/" ++ id := by
  intro h1
  exact h ((pairKey_eq_default id).mp h1.symm)

theorem pairCreate_keeps_consistency (info : ClusterPairInfo) (sd : Bool) (w : World)
    (hid : info.Id ≠ "default") (hf : w.faults = []) (hc : defaultConsistent w = true) :
    (pairCreate info sd w).2.faults = [] ∧ defaultConsistent (pairCreate info sd w).2 = true := by
  have hne := pairKey_ne_default hid
  cases hrec : w.record info.Id with
  | some b =>
    obtain ⟨_, hf2, hkv⟩ := pairCreate_healthy_existing info sd w hf b hrec
    refine ⟨hf2, ?_⟩
    rw [defaultConsistent_iff] at hc ⊢
    rw [hkv]
    exact hc
  | none =>
    obtain ⟨_, hf2, hkv⟩ := pairCreate_healthy info sd w hf hrec
    refine ⟨hf2, ?_⟩
    rw [defaultConsistent_iff] at hc ⊢
    rw [hkv, Kvdb.find_insert_ne hne]
    have hset : ∀ v, Kvdb.find clusterPairDefaultKey
        (Kvdb.insert clusterPairDefaultKey (.text info.Id)
          (Kvdb.insert (ClusterPairKey ++ "/" ++ info.Id) (.json info) w.kv)) = some v →
        v.asString = "" ∨
          ∃ info2, Kvdb.find (ClusterPairKey ++ "/" ++ v.asString)
            (Kvdb.insert clusterPairDefaultKey (.text info.Id)
              (Kvdb.insert (ClusterPairKey ++ "/" ++ info.Id) (.json info) w.kv))
              = some (.json info2) ∧ info2.Id = v.asString := by
      intro v hv
      rw [Kvdb.find_insert_self] at hv
      cases hv
      right
      refine ⟨info, ?_, rfl⟩
      simp only [Bytes.asString]
      rw [Kvdb.find_insert_ne hne.symm, Kvdb.find_insert_self]
    cases hp : Kvdb.find clusterPairDefaultKey w.kv with
    | none => exact hset
    | some v0 =>
      by_cases hcase : sd = true ∨ v0.asString = ""
      · simp only [hcase, if_true]
        exact hset
      · simp only [hcase, if_false]
        intro v hv
        rw [Kvdb.find_insert_ne hne, hp] at hv
        cases hv
        rcases hc v0 hp with h0 | ⟨info2, h1, h2⟩
        · exact Or.inl h0
        · right
          refine ⟨info2, ?_, h2⟩
          have hk : ClusterPairKey ++ "/" ++ v0.asString ≠ ClusterPairKey ++ "/" ++ info.Id := by
            intro hk
            simp only [World.record] at hrec
            rw [← hk, h1] at hrec
            cases hrec
          rw [Kvdb.find_insert_ne hk, h1]

theorem pairDelete_keeps_consistency (id : String) (w : World)
    (hid : id ≠ "default") (hf : w.faults = []) (hc : defaultConsistent w = true) :
    (pairDelete id w).2.faults = [] ∧ defaultConsistent (pairDelete id w).2 = true := by
  have hne := pairKey_ne_default hid
  obtain ⟨hf2, hkv⟩ := pairDelete_healthy id w hf
  refine ⟨hf2, ?_⟩
  have hkv2 := congrArg Prod.snd hkv
  simp only at hkv2
  rw [defaultConsistent_iff] at hc ⊢
  rw [hkv2]
  cases hp : Kvdb.find clusterPairDefaultKey w.kv with
  | none =>
    simp only
    cases hr : Kvdb.find (ClusterPairKey ++ "/" ++ id) w.kv with
    | none =>
      simp only
      exact hc
    | some b =>
      simp only
      intro v hv
      rw [Kvdb.find_erase_ne hne, hp] at hv
      cases hv
  | some v0 =>
    simp only
    by_cases hcase : v0.asString = id
    · simp only [hcase, if_true]
      cases hr : Kvdb.find (ClusterPairKey ++ "/" ++ id)
          (Kvdb.erase clusterPairDefaultKey w.kv) with
      | none =>
        simp only
        intro v hv
        rw [Kvdb.find_erase_self] at hv
        cases hv
      | some b =>
        simp only
        intro v hv
        rw [Kvdb.find_erase_ne hne, Kvdb.find_erase_self] at hv
        cases hv
    · simp only [hcase, if_false]
      cases hr : Kvdb.find (ClusterPairKey ++ "/" ++ id) w.kv with
      | none =>
        simp only
        exact hc
      | some b =>
        simp only
        intro v hv
        rw [Kvdb.find_erase_ne hne, hp] at hv
        cases hv
        rcases hc v0 hp with h0 | ⟨info2, h1, h2⟩
        · exact Or.inl h0
        · right
          refine ⟨info2, ?_, h2⟩
          have hk : ClusterPairKey ++ "/" ++ v0.asString ≠ ClusterPairKey ++ "/" ++ id := by
            intro hk
            exact hcase ((pairKey_inj _ _).mp hk)
          rw [Kvdb.find_erase_ne hk, h1]

theorem runOps_keeps_consistency (ops : List StoreOp) :
    ∀ w : World, (∀ op ∈ ops, op.id ≠ "default") → w.faults = [] →
      defaultConsistent w = true →
      (runOps ops w).faults = [] ∧ defaultConsistent (runOps ops w) = true := by
  induction ops with
  | nil =>
    intro w _ hf hc
    exact ⟨hf, hc⟩
  | cons op rest ih =>
    intro w hids hf hc
    have hop : op.id ≠ "default" := hids op (List.mem_cons_self _ _)
    have hstep : (op.run w).faults = [] ∧ defaultConsistent (op.run w) = true := by
      cases op with
      | create info sd => exact pairCreate_keeps_consistency info sd w hop hf hc
      | delete id => exact pairDelete_keeps_consistency id w hop hf hc
    have hrest := ih (op.run w) (fun o ho => hids o (List.mem_cons_of_mem _ ho))
      hstep.1 hstep.2
    simpa [runOps] using hrest

/-- The default pointer stays consistent along every sequence of Create and
Delete calls from the empty store, as long as no call names the id "default". -/
theorem default_pointer_consistent_without_reserved_id (ops : List StoreOp)
    (h : ∀ op ∈ ops, op.id ≠ "default") :
    defaultConsistent (runOps ops World.empty) = true :=
  (runOps_keeps_consistency ops World.empty h rfl (by decide)).2

/-- Create followed by Get returns the record, for every id other than "default"
that has no stored record, when the store answers every call. -/
theorem pairCreate_then_pairGet_without_reserved_id (info : ClusterPairInfo)
    (setDefault : Bool) (w : World) (hf : w.faults = []) (hid : info.Id ≠ "default")
    (hab : w.record info.Id = none) :
    (pairCreate info setDefault w).1 = none ∧
      (pairGet info.Id (pairCreate info setDefault w).2).1 = .ok info := by
  have hne := pairKey_ne_default hid
  obtain ⟨hres, hf2, hkv⟩ := pairCreate_healthy info setDefault w hf hab
  refine ⟨hres, ?_⟩
  rw [(pairGet_healthy info.Id _ hf2).1]
  have hrec : (pairCreate info setDefault w).2.record info.Id = some (.json info) := by
    unfold World.record
    rw [hkv]
    cases hp : Kvdb.find clusterPairDefaultKey
        (Kvdb.insert (ClusterPairKey ++ "/" ++ info.Id) (.json info) w.kv) with
    | none =>
      simp only
      rw [Kvdb.find_insert_ne hne.symm, Kvdb.find_insert_self]
    | some v =>
      simp only
      by_cases hc : setDefault = true ∨ v.asString = ""
      · simp only [hc, if_true]
        rw [Kvdb.find_insert_ne hne.symm, Kvdb.find_insert_self]
      · simp only [hc, if_false]
        rw [Kvdb.find_insert_self]
  rw [hrec]
  rfl

/-- The frame of a successful Delete, for every id other than "default" that has
a stored record, when the store answers every call: the call succeeds, that
record is gone, every other record is as it was, and the default pointer is
removed if it read as id and untouched otherwise. -/
theorem pairDelete_frame_without_reserved_id (id : String) (w : World) (b : Bytes)
    (hf : w.faults = []) (hid : id ≠ "default") (hrec : w.record id = some b) :
    (pairDelete id w).1 = none ∧
      (pairDelete id w).2.record id = none ∧
      (∀ id2, id2 ≠ id → id2 ≠ "default" → (pairDelete id w).2.record id2 = w.record id2) ∧
      (∀ v, w.defaultPointer = some v → v.asString = id →
        (pairDelete id w).2.defaultPointer = none) ∧
      (∀ v, w.defaultPointer = some v → v.asString ≠ id →
        (pairDelete id w).2.defaultPointer = some v) ∧
      (w.defaultPointer = none → (pairDelete id w).2.defaultPointer = none) := by
  have hne := pairKey_ne_default hid
  obtain ⟨_, hpair⟩ := pairDelete_healthy id w hf
  have hres := congrArg Prod.fst hpair
  have hkv := congrArg Prod.snd hpair
  simp only at hres hkv
  simp only [World.record] at hrec
  have hother : ∀ id2 : String, id2 ≠ id →
      ClusterPairKey ++ "/" ++ id2 ≠ ClusterPairKey ++ "/" ++ id :=
    fun id2 h2 hk => h2 ((pairKey_inj _ _).mp hk)
  have hrec2 : Kvdb.find (ClusterPairKey ++ "/" ++ id)
      (Kvdb.erase clusterPairDefaultKey w.kv) = some b := by
    rw [Kvdb.find_erase_ne hne.symm, hrec]
  unfold World.record World.defaultPointer
  rw [hres, hkv]
  cases hp : Kvdb.find clusterPairDefaultKey w.kv with
  | none =>
    simp only [hrec]
    refine ⟨trivial, Kvdb.find_erase_self _ _, ?_, ?_, ?_, ?_⟩
    · intro id2 h2 _
      exact Kvdb.find_erase_ne (hother id2 h2) _
    · intro v hv
      cases hv
    · intro v hv
      cases hv
    · intro _
      rw [Kvdb.find_erase_ne hne, hp]
  | some v0 =>
    by_cases hcase : v0.asString = id
    · simp only [hcase, if_true, hrec2]
      refine ⟨trivial, Kvdb.find_erase_self _ _, ?_, ?_, ?_, ?_⟩
      · intro id2 h2 hd
        rw [Kvdb.find_erase_ne (hother id2 h2),
          Kvdb.find_erase_ne (pairKey_ne_default hd).symm]
      · intro v _ _
        rw [Kvdb.find_erase_ne hne, Kvdb.find_erase_self]
      · intro v hv hv2
        cases hv
        exact absurd hcase hv2
      · intro h
        cases h
    · simp only [hcase, if_false, hrec]
      refine ⟨trivial, Kvdb.find_erase_self _ _, ?_, ?_, ?_, ?_⟩
      · intro id2 h2 _
        exact Kvdb.find_erase_ne (hother id2 h2) _
      · intro v hv hv2
        cases hv
        exact absurd hv2 hcase
      · intro v hv _
        cases hv
        rw [Kvdb.find_erase_ne hne, hp]
      · intro h
        cases h

/-! ## Enumeration of a store written through pairCreate -/

theorem Kvdb.mem_erase (k : String) (p : KVPair) (l : List KVPair) :
    p ∈ Kvdb.erase k l ↔ p ∈ l ∧ p.Key ≠ k := by
  induction l with
  | nil => simp [Kvdb.erase]
  | cons q rest ih =>
    by_cases h : q.Key = k
    · rw [Kvdb.erase, if_pos h, ih]
      constructor
      · intro ⟨h1, h2⟩
        exact ⟨List.mem_cons_of_mem _ h1, h2⟩
      · intro ⟨h1, h2⟩
        rcases List.mem_cons.mp h1 with h3 | h3
        · rw [h3] at h2
          exact absurd h h2
        · exact ⟨h3, h2⟩
    · rw [Kvdb.erase, if_neg h, List.mem_cons, ih, List.mem_cons]
      constructor
      · rintro (h1 | ⟨h1, h2⟩)
        · rw [h1]
          exact ⟨Or.inl rfl, h⟩
        · exact ⟨Or.inr h1, h2⟩
      · rintro ⟨h1 | h1, h2⟩
        · exact Or.inl h1
        · exact Or.inr ⟨h1, h2⟩

theorem Kvdb.erase_keys_sublist (k : String) (l : List KVPair) :
    ((Kvdb.erase k l).map KVPair.Key).Sublist (l.map KVPair.Key) := by
  induction l with
  | nil => simp [Kvdb.erase]
  | cons q rest ih =>
    by_cases h : q.Key = k
    · rw [Kvdb.erase, if_pos h, List.map_cons]
      exact List.Sublist.cons _ ih
    · rw [Kvdb.erase, if_neg h, List.map_cons, List.map_cons]
      exact List.Sublist.cons₂ _ ih

theorem Kvdb.find_eq_none_of_not_mem (k : String) (l : List KVPair)
    (h : k ∉ l.map KVPair.Key) : Kvdb.find k l = none := by
  induction l with
  | nil => rfl
  | cons q rest ih =>
    simp only [List.map_cons, List.mem_cons, not_or] at h
    have hq : ¬ q.Key = k := fun h1 => h.1 h1.symm
    rw [Kvdb.find, if_neg hq]
    exact ih h.2

theorem pairShaped_nil : pairShaped [] := by
  simp [pairShaped]

theorem pairShaped_erase (k : String) (l : List KVPair) (h : pairShaped l) :
    pairShaped (Kvdb.erase k l) := by
  refine ⟨h.1.sublist (Kvdb.erase_keys_sublist k l), ?_⟩
  intro p hp
  exact h.2 p ((Kvdb.mem_erase k p l).mp hp).1

theorem pairShaped_insert (k : String) (v : Bytes) (l : List KVPair) (h : pairShaped l)
    (hv : k = clusterPairDefaultKey ∨
      ∃ info : ClusterPairInfo, v = .json info ∧ k = ClusterPairKey ++ "/" ++ info.Id) :
    pairShaped (Kvdb.insert k v l) := by
  have he := pairShaped_erase k l h
  unfold Kvdb.insert
  refine ⟨?_, ?_⟩
  · rw [List.map_append, List.nodup_append]
    refine ⟨he.1, by simp, ?_⟩
    intro a ha hb
    simp only [List.map_cons, List.map_nil, List.mem_singleton] at hb
    rw [List.mem_map] at ha
    obtain ⟨p, hp, hpk⟩ := ha
    exact ((Kvdb.mem_erase k p l).mp hp).2 (hpk.trans hb)
  · intro p hp
    rcases List.mem_append.mp hp with h1 | h1
    · exact he.2 p h1
    · simp only [List.mem_singleton] at h1
      rw [h1]
      exact hv

theorem PairMap.get_append_singleton (m : PairMap) (k : String) (v : ClusterPairInfo)
    (id : String) :
    PairMap.get (m ++ [(k, v)]) id
      = (PairMap.get m id).orElse fun _ => if k = id then some v else none := by
  induction m with
  | nil => simp [PairMap.get]
  | cons e rest ih =>
    obtain ⟨k2, v2⟩ := e
    by_cases h : k2 = id
    · simp [PairMap.get, h]
    · simp only [List.cons_append, PairMap.get, h, if_false]
      exact ih

theorem PairMap.get_filter_ne (m : PairMap) (k id : String) :
    PairMap.get (m.filter fun e => e.1 ≠ k) id = if id = k then none else PairMap.get m id := by
  induction m with
  | nil => simp [PairMap.get]
  | cons e rest ih =>
    obtain ⟨k2, v2⟩ := e
    by_cases h : k2 = k
    · have hf : (((k2, v2) :: rest).filter fun e => e.1 ≠ k)
          = rest.filter fun e => e.1 ≠ k := by
        simp [List.filter, h]
      rw [hf, ih]
      by_cases h2 : id = k
      · simp [h2]
      · have h3 : ¬ k2 = id := fun h4 => h2 (h4.symm.trans h)
        simp [PairMap.get, h2, h3]
    · have hf : (((k2, v2) :: rest).filter fun e => e.1 ≠ k)
          = (k2, v2) :: rest.filter fun e => e.1 ≠ k := by
        simp [List.filter, h]
      rw [hf]
      by_cases h2 : k2 = id
      · have h3 : ¬ id = k := fun h4 => h (h2.trans h4)
        simp [PairMap.get, h2, h3]
      · simp only [PairMap.get, h2, if_false]
        exact ih

theorem PairMap.get_set_self (m : PairMap) (k : String) (v : ClusterPairInfo) :
    PairMap.get (PairMap.set m k v) k = some v := by
  unfold PairMap.set
  rw [PairMap.get_append_singleton, PairMap.get_filter_ne]
  simp

theorem PairMap.get_set_ne (m : PairMap) (k id : String) (v : ClusterPairInfo) (h : id ≠ k) :
    PairMap.get (PairMap.set m k v) id = PairMap.get m id := by
  unfold PairMap.set
  rw [PairMap.get_append_singleton, PairMap.get_filter_ne]
  have h2 : ¬ k = id := fun h3 => h h3.symm
  cases hg : PairMap.get m id <;> simp [h, h2]

theorem pairShaped_tail {p : KVPair} {rest : List KVPair} (h : pairShaped (p :: rest)) :
    pairShaped rest ∧ p.Key ∉ rest.map KVPair.Key := by
  obtain ⟨hnd, hall⟩ := h
  rw [List.map_cons, List.nodup_cons] at hnd
  exact ⟨⟨hnd.2, fun q hq => hall q (List.mem_cons_of_mem _ hq)⟩, hnd.1⟩

theorem pairListLoop_spec : ∀ (kv : List KVPair) (acc : PairMap), pairShaped kv →
    ∃ m, pairListLoop kv acc = .ok m ∧
      ∀ id, PairMap.get m id =
        (match (if id = "default" then none
                else Kvdb.find (ClusterPairKey ++ "/" ++ id) kv) with
         | some (.json info) => some info
         | _ => PairMap.get acc id) := by
  intro kv
  induction kv with
  | nil =>
    intro acc _
    refine ⟨acc, rfl, ?_⟩
    intro id
    by_cases h : id = "default" <;> simp [h, Kvdb.find]
  | cons p rest ih =>
    intro acc hshape
    obtain ⟨hrest, hfresh⟩ := pairShaped_tail hshape
    by_cases hk : p.Key = clusterPairDefaultKey
    · obtain ⟨m, hm, hget⟩ := ih acc hrest
      refine ⟨m, ?_, ?_⟩
      · rw [pairListLoop, if_pos hk, hm]
      · intro id
        rw [hget id]
        by_cases h : id = "default"
        · simp [h]
        · have hne : ¬ p.Key = ClusterPairKey ++ "/" ++ id := by
            rw [hk]
            exact pairKey_ne_default h
          simp only [h, if_false, Kvdb.find, hne]
    · rcases hshape.2 p (List.mem_cons_self _ _) with hd | ⟨info, hval, hkey⟩
      · exact absurd hd hk
      · have hidd : info.Id ≠ "default" := by
          intro h0
          apply hk
          rw [hkey]
          exact (pairKey_eq_default info.Id).mpr h0
        obtain ⟨m, hm, hget⟩ := ih (PairMap.set acc info.Id info) hrest
        refine ⟨m, ?_, ?_⟩
        · rw [pairListLoop, if_neg hk, hval]
          simp only [jsonUnmarshal]
          exact hm
        · intro id
          rw [hget id]
          by_cases h : id = "default"
          · have h2 : id ≠ info.Id := fun h3 => hidd (h3.symm.trans h)
            simp only [h, if_true]
            rw [← h]
            exact PairMap.get_set_ne acc info.Id id info h2
          · simp only [h, if_false]
            by_cases h2 : id = info.Id
            · have hnone : Kvdb.find (ClusterPairKey ++ "/" ++ id) rest = none := by
                apply Kvdb.find_eq_none_of_not_mem
                rw [h2, ← hkey]
                exact hfresh
              have hhead : Kvdb.find (ClusterPairKey ++ "/" ++ id) (p :: rest)
                  = some (.json info) := by
                rw [Kvdb.find, if_pos (by rw [hkey, h2]), hval]
              rw [hnone, hhead, h2]
              exact PairMap.get_set_self acc info.Id info
            · have hne : ¬ p.Key = ClusterPairKey ++ "/" ++ id := by
                rw [hkey]
                intro h3
                exact h2 ((pairKey_inj _ _).mp h3).symm
              have hsame : Kvdb.find (ClusterPairKey ++ "/" ++ id) (p :: rest)
                  = Kvdb.find (ClusterPairKey ++ "/" ++ id) rest := by
                rw [Kvdb.find, if_neg hne]
              rw [hsame, PairMap.get_set_ne acc info.Id id info h2]

theorem pairKey_has_base (id : String) :
    ClusterPairKey.data.isPrefixOf (ClusterPairKey ++ "/" ++ id).data = true := by
  rw [List.isPrefixOf_iff_prefix]
  simp only [String.data_append, List.append_assoc]
  exact List.prefix_append _ _

theorem enumerate_pairShaped (kv : List KVPair) (h : pairShaped kv) :
    kv.filter (fun p => ClusterPairKey.data.isPrefixOf p.Key.data) = kv := by
  rw [List.filter_eq_self]
  intro p hp
  rcases h.2 p hp with hd | ⟨info, _, hkey⟩
  · rw [hd]
    decide
  · rw [hkey]
    exact pairKey_has_base info.Id

theorem createdExactly_empty : createdExactly World.empty [] := by
  refine ⟨rfl, pairShaped_nil, ?_, ?_, ?_⟩
  · intro id _
    rfl
  · intro b hb
    cases hb
  · intro h
    exact absurd rfl h

theorem createdExactly_step (info : ClusterPairInfo) (w : World)
    (done : List ClusterPairInfo) (hid : info.Id ≠ "default")
    (hnew : ∀ i ∈ done, i.Id ≠ info.Id) (h : createdExactly w done) :
    createdExactly (pairCreate info false w).2 (done ++ [info]) := by
  obtain ⟨hf, hshape, hrec, hptr, _⟩ := h
  have hne := pairKey_ne_default hid
  have hab : w.record info.Id = none := by
    rw [hrec info.Id hid]
    have hnone : (done.find? fun i => i.Id = info.Id) = none := by
      rw [List.find?_eq_none]
      intro i hi
      simpa using hnew i hi
    rw [hnone]
    rfl
  obtain ⟨_, hf2, hkv⟩ := pairCreate_healthy info false w hf hab
  rw [Kvdb.find_insert_ne hne] at hkv
  have hshape1 : pairShaped
      (Kvdb.insert (ClusterPairKey ++ "/" ++ info.Id) (.json info) w.kv) :=
    pairShaped_insert _ _ _ hshape (Or.inr ⟨info, rfl, rfl⟩)
  have hshape2 : pairShaped (Kvdb.insert clusterPairDefaultKey (.text info.Id)
      (Kvdb.insert (ClusterPairKey ++ "/" ++ info.Id) (.json info) w.kv)) :=
    pairShaped_insert _ _ _ hshape1 (Or.inl rfl)
  have hrec1 : ∀ id, id ≠ "default" →
      Kvdb.find (ClusterPairKey ++ "/" ++ id)
        (Kvdb.insert (ClusterPairKey ++ "/" ++ info.Id) (.json info) w.kv)
        = ((done ++ [info]).find? fun i => i.Id = id).map Bytes.json := by
    intro id hidd
    rw [List.find?_append]
    by_cases h2 : id = info.Id
    · have hnone : (done.find? fun i => i.Id = id) = none := by
        rw [List.find?_eq_none]
        intro i hi
        rw [h2]
        simpa using hnew i hi
      rw [hnone, h2, Kvdb.find_insert_self]
      simp
    · have hk : ClusterPairKey ++ "/" ++ id ≠ ClusterPairKey ++ "/" ++ info.Id :=
        fun hk => h2 ((pairKey_inj _ _).mp hk)
      have h3 : ¬ info.Id = id := fun h4 => h2 h4.symm
      rw [Kvdb.find_insert_ne hk]
      have := hrec id hidd
      simp only [World.record] at this
      rw [this]
      cases hd : done.find? fun i => i.Id = id <;> simp [h3]
  have hrec2 : ∀ id, id ≠ "default" →
      Kvdb.find (ClusterPairKey ++ "/" ++ id)
        (Kvdb.insert clusterPairDefaultKey (.text info.Id)
          (Kvdb.insert (ClusterPairKey ++ "/" ++ info.Id) (.json info) w.kv))
        = ((done ++ [info]).find? fun i => i.Id = id).map Bytes.json := by
    intro id hidd
    rw [Kvdb.find_insert_ne (pairKey_ne_default hidd).symm]
    exact hrec1 id hidd
  have hset : createdExactly
      { (pairCreate info false w).2 with
        kv := Kvdb.insert clusterPairDefaultKey (.text info.Id)
          (Kvdb.insert (ClusterPairKey ++ "/" ++ info.Id) (.json info) w.kv) }
      (done ++ [info]) := by
    refine ⟨hf2, hshape2, hrec2, ?_, ?_⟩
    · intro b hb
      simp only [World.defaultPointer] at hb
      rw [Kvdb.find_insert_self] at hb
      cases hb
      exact ⟨info.Id, rfl⟩
    · intro _
      simp only [World.defaultPointer]
      rw [Kvdb.find_insert_self]
      simp
  have hworld : ∀ kv2, (pairCreate info false w).2.kv = kv2 →
      (pairCreate info false w).2 = { (pairCreate info false w).2 with kv := kv2 } := by
    intro kv2 h2
    rw [← h2]
  cases hp : Kvdb.find clusterPairDefaultKey w.kv with
  | none =>
    rw [hp] at hkv
    simp only at hkv
    rw [hworld _ hkv]
    exact hset
  | some v0 =>
    rw [hp] at hkv
    simp only at hkv
    by_cases hcase : v0.asString = ""
    · simp only [hcase, or_true, if_true] at hkv
      rw [hworld _ hkv]
      exact hset
    · simp only [hcase, or_false, Bool.false_eq_true, if_false] at hkv
      rw [hworld _ hkv]
      refine ⟨hf2, hshape1, hrec1, ?_, ?_⟩
      · intro b hb
        simp only [World.defaultPointer] at hb
        rw [Kvdb.find_insert_ne hne] at hb
        exact hptr b hb
      · intro _
        simp only [World.defaultPointer]
        rw [Kvdb.find_insert_ne hne, hp]
        simp

theorem createdExactly_createAll : ∀ (rest done : List ClusterPairInfo) (w : World),
    createdExactly w done →
    ((done ++ rest).map fun i => i.Id).Nodup →
    (∀ i ∈ rest, i.Id ≠ "default") →
    createdExactly (createAll rest w) (done ++ rest) := by
  intro rest
  induction rest with
  | nil =>
    intro done w h _ _
    simpa [createAll, runOps] using h
  | cons info rest ih =>
    intro done w h hnd hids
    have hnew : ∀ i ∈ done, i.Id ≠ info.Id := by
      intro i hi heq
      rw [List.map_append, List.nodup_append] at hnd
      apply hnd.2.2 (List.mem_map_of_mem _ hi)
      rw [heq]
      exact List.mem_map_of_mem (fun i : ClusterPairInfo => i.Id) (List.mem_cons_self info rest)
    have hstep := createdExactly_step info w done
      (hids info (List.mem_cons_self _ _)) hnew h
    have hnd2 : (((done ++ [info]) ++ rest).map fun i => i.Id).Nodup := by
      simpa using hnd
    have hrest := ih (done ++ [info]) (pairCreate info false w).2 hstep hnd2
      (fun i hi => hids i (List.mem_cons_of_mem _ hi))
    have hrun : createAll (info :: rest) w = createAll rest (pairCreate info false w).2 := by
      simp [createAll, runOps, StoreOp.run]
    rw [hrun]
    simpa using hrest

/-- Enumeration after creating pairs with distinct ids, none of them "default",
on the empty store (at least one pair): EnumeratePairs succeeds, the Pairs map
holds exactly the created records under their ids, and DefaultId is the value
of the stored default pointer. -/
theorem EnumeratePairs_after_creates_without_reserved_id (c : ClusterManager)
    (infos : List ClusterPairInfo) (hne : infos ≠ [])
    (hnd : (infos.map fun i => i.Id).Nodup) (hids : ∀ i ∈ infos, i.Id ≠ "default") :
    ∃ pairs d,
      (EnumeratePairs c (createAll infos World.empty)).1
          = .ok { Pairs := pairs, DefaultId := d } ∧
        (∀ id, PairMap.get pairs id = infos.find? fun i => i.Id = id) ∧
        (createAll infos World.empty).defaultPointer = some (.text d) := by
  have hJ := createdExactly_createAll infos [] World.empty createdExactly_empty
    (by simpa using hnd) hids
  rw [List.nil_append] at hJ
  obtain ⟨hf, hshape, hrec, hptr, hsome⟩ := hJ
  generalize createAll infos World.empty = w at hf hshape hrec hptr hsome
  obtain ⟨m, hm, hget⟩ := pairListLoop_spec w.kv [] hshape
  cases hp : w.defaultPointer with
  | none => exact absurd hp (hsome hne)
  | some b =>
    obtain ⟨d, hd⟩ := hptr b hp
    subst hd
    refine ⟨m, d, ?_, ?_, rfl⟩
    · simp only [World.defaultPointer] at hp
      simp [EnumeratePairs, pairList, Kvdb.Enumerate, Kvdb.takeFault, hf,
        enumerate_pairShaped w.kv hshape, hm, getDefaultPairId, Kvdb.Get, hp, Bytes.asString]
    · intro id
      rw [hget id]
      by_cases h : id = "default"
      · have hnone : (infos.find? fun i => i.Id = id) = none := by
          rw [List.find?_eq_none]
          intro i hi
          rw [h]
          simpa using hids i hi
        simp [h, hnone, PairMap.get]
        rw [← h, hnone]
      · have := hrec id h
        simp only [World.record] at this
        simp only [h, if_false, this]
        cases hfind : infos.find? fun i => i.Id = id <;> simp [PairMap.get]

/-! ## The listener loops: order and first failure -/

theorem createPairListeners_ok_world (self : Node) :
    ∀ (ls : List ClusterListener) (resp : ClusterPairProcessResponse) (w : World),
      (createPairListeners self ls resp w).1 = none →
      (createPairListeners self ls resp w).2.2
        = { w with calls := w.calls ++ hookTrace .CreatePair ls } := by
  intro ls
  induction ls with
  | nil =>
    intro resp w _
    simp [createPairListeners, hookTrace]
  | cons l rest ih =>
    intro resp w h
    rcases hl : l.CreatePair self resp with ⟨e, resp1⟩
    cases e with
    | some e => simp [createPairListeners, hl] at h
    | none =>
      have hstep : createPairListeners self (l :: rest) resp w
          = createPairListeners self rest resp1 (w.called .CreatePair l) := by
        simp only [createPairListeners, hl]
      rw [hstep] at h ⊢
      rw [ih resp1 _ h]
      simp [World.called, hookTrace]

theorem createPairListeners_first_failure (self : Node) (l : ClusterListener)
    (post : List ClusterListener) (e : Error) :
    ∀ (pre : List ClusterListener) (resp : ClusterPairProcessResponse) (w : World),
      (createPairListeners self pre resp w).1 = none →
      (l.CreatePair self (createPairListeners self pre resp w).2.1).1 = some e →
      (createPairListeners self (pre ++ l :: post) resp w).1 = some e ∧
        (createPairListeners self (pre ++ l :: post) resp w).2.2
          = { w with calls := w.calls ++ hookTrace .CreatePair (pre ++ [l]) } := by
  intro pre
  induction pre with
  | nil =>
    intro resp w _ hfail
    rcases hl : l.CreatePair self resp with ⟨e1, resp1⟩
    simp only [createPairListeners, hl] at hfail
    subst hfail
    simp [createPairListeners, hl, World.called, hookTrace]
  | cons p rest ih =>
    intro resp w hok hfail
    rcases hp : p.CreatePair self resp with ⟨e1, resp1⟩
    cases e1 with
    | some e1 => simp [createPairListeners, hp] at hok
    | none =>
      have hstep : ∀ tail, createPairListeners self (p :: tail) resp w
          = createPairListeners self tail resp1 (w.called .CreatePair p) := by
        intro tail
        simp only [createPairListeners, hp]
      rw [hstep] at hok hfail
      rw [List.cons_append, hstep]
      obtain ⟨h1, h2⟩ := ih resp1 _ hok hfail
      refine ⟨h1, ?_⟩
      rw [h2]
      simp [World.called, hookTrace]

theorem processPairListeners_ok_world (self : Node) :
    ∀ (ls : List ClusterListener) (resp : ClusterPairProcessResponse) (w : World),
      (processPairListeners self ls resp w).1 = none →
      (processPairListeners self ls resp w).2.2
        = { w with calls := w.calls ++ hookTrace .ProcessPairRequest ls } := by
  intro ls
  induction ls with
  | nil =>
    intro resp w _
    simp [processPairListeners, hookTrace]
  | cons l rest ih =>
    intro resp w h
    rcases hl : l.ProcessPairRequest self resp with ⟨e, resp1⟩
    cases e with
    | some e => simp [processPairListeners, hl] at h
    | none =>
      have hstep : processPairListeners self (l :: rest) resp w
          = processPairListeners self rest resp1 (w.called .ProcessPairRequest l) := by
        simp only [processPairListeners, hl]
      rw [hstep] at h ⊢
      rw [ih resp1 _ h]
      simp [World.called, hookTrace]

theorem processPairListeners_first_failure (self : Node) (l : ClusterListener)
    (post : List ClusterListener) (e : Error) :
    ∀ (pre : List ClusterListener) (resp : ClusterPairProcessResponse) (w : World),
      (processPairListeners self pre resp w).1 = none →
      (l.ProcessPairRequest self (processPairListeners self pre resp w).2.1).1 = some e →
      (processPairListeners self (pre ++ l :: post) resp w).1 = some e ∧
        (processPairListeners self (pre ++ l :: post) resp w).2.2
          = { w with calls := w.calls ++ hookTrace .ProcessPairRequest (pre ++ [l]) } := by
  intro pre
  induction pre with
  | nil =>
    intro resp w _ hfail
    rcases hl : l.ProcessPairRequest self resp with ⟨e1, resp1⟩
    simp only [processPairListeners, hl] at hfail
    subst hfail
    simp [processPairListeners, hl, World.called, hookTrace]
  | cons p rest ih =>
    intro resp w hok hfail
    rcases hp : p.ProcessPairRequest self resp with ⟨e1, resp1⟩
    cases e1 with
    | some e1 => simp [processPairListeners, hp] at hok
    | none =>
      have hstep : ∀ tail, processPairListeners self (p :: tail) resp w
          = processPairListeners self tail resp1 (w.called .ProcessPairRequest p) := by
        intro tail
        simp only [processPairListeners, hp]
      rw [hstep] at hok hfail
      rw [List.cons_append, hstep]
      obtain ⟨h1, h2⟩ := ih resp1 _ hok hfail
      refine ⟨h1, ?_⟩
      rw [h2]
      simp [World.called, hookTrace]

theorem listeners_result_world_free (self : Node) :
    ∀ (ls : List ClusterListener) (resp : ClusterPairProcessResponse) (w w2 : World),
      (createPairListeners self ls resp w).1 = (createPairListeners self ls resp w2).1 ∧
        (createPairListeners self ls resp w).2.1 = (createPairListeners self ls resp w2).2.1 ∧
        (processPairListeners self ls resp w).1 = (processPairListeners self ls resp w2).1 ∧
        (processPairListeners self ls resp w).2.1
          = (processPairListeners self ls resp w2).2.1 := by
  intro ls
  induction ls with
  | nil =>
    intro resp w w2
    simp [createPairListeners, processPairListeners]
  | cons l rest ih =>
    intro resp w w2
    rcases hc : l.CreatePair self resp with ⟨e1, r1⟩
    rcases hp : l.ProcessPairRequest self resp with ⟨e2, r2⟩
    have i1 := ih r1 (w.called .CreatePair l) (w2.called .CreatePair l)
    have i2 := ih r2 (w.called .ProcessPairRequest l) (w2.called .ProcessPairRequest l)
    cases e1 <;> cases e2 <;>
      simp [createPairListeners, processPairListeners, hc, hp, i1.1, i1.2.1, i2.2.2.1,
        i2.2.2.2]

/-! ## What the store calls leave alone -/

theorem sameOutside_refl (w : World) : sameOutside w w := ⟨rfl, rfl, rfl, rfl⟩

theorem sameOutside_trans {a b c : World} (h1 : sameOutside a b) (h2 : sameOutside b c) :
    sameOutside a c :=
  ⟨h2.1.trans h1.1, h2.2.1.trans h1.2.1, h2.2.2.1.trans h1.2.2.1, h2.2.2.2.trans h1.2.2.2⟩

theorem takeFault_same (w : World) :
    sameOutside w (Kvdb.takeFault w).2 ∧ (Kvdb.takeFault w).2.kv = w.kv := by
  obtain ⟨h1, h2, h3, h4, h5⟩ := takeFault_fields w
  exact ⟨⟨h4, h2, h3, h5⟩, h1⟩

theorem Kvdb.Get_same (key : String) (w : World) :
    sameOutside w (Kvdb.Get key w).2 ∧ (Kvdb.Get key w).2.kv = w.kv := by
  have h := takeFault_same w
  unfold Kvdb.Get
  rcases htf : Kvdb.takeFault w with ⟨f, w1⟩
  rw [htf] at h
  cases f with
  | some m => exact h
  | none =>
    simp only
    cases Kvdb.find key w1.kv <;> exact h

theorem Kvdb.Put_same (key : String) (v : Bytes) (w : World) :
    sameOutside w (Kvdb.Put key v w).2 := by
  have h := (takeFault_same w).1
  unfold Kvdb.Put
  rcases htf : Kvdb.takeFault w with ⟨f, w1⟩
  rw [htf] at h
  cases f with
  | some m => exact h
  | none => exact h

theorem Kvdb.Create_same (key : String) (v : Bytes) (w : World) :
    sameOutside w (Kvdb.Create key v w).2 := by
  have h := (takeFault_same w).1
  unfold Kvdb.Create
  rcases htf : Kvdb.takeFault w with ⟨f, w1⟩
  rw [htf] at h
  cases f with
  | some m => exact h
  | none =>
    simp only
    cases Kvdb.find key w1.kv <;> exact h

theorem Kvdb.Update_same (key : String) (v : Bytes) (w : World) :
    sameOutside w (Kvdb.Update key v w).2 := by
  have h := (takeFault_same w).1
  unfold Kvdb.Update
  rcases htf : Kvdb.takeFault w with ⟨f, w1⟩
  rw [htf] at h
  cases f with
  | some m => exact h
  | none =>
    simp only
    cases Kvdb.find key w1.kv <;> exact h

theorem Kvdb.Delete_same (key : String) (w : World) :
    sameOutside w (Kvdb.Delete key w).2 := by
  have h := (takeFault_same w).1
  unfold Kvdb.Delete
  rcases htf : Kvdb.takeFault w with ⟨f, w1⟩
  rw [htf] at h
  cases f with
  | some m => exact h
  | none =>
    simp only
    cases Kvdb.find key w1.kv <;> exact h

theorem Kvdb.Enumerate_same (base : String) (w : World) :
    sameOutside w (Kvdb.Enumerate base w).2 ∧ (Kvdb.Enumerate base w).2.kv = w.kv := by
  have h := takeFault_same w
  unfold Kvdb.Enumerate
  rcases htf : Kvdb.takeFault w with ⟨f, w1⟩
  rw [htf] at h
  cases f with
  | some m => exact h
  | none => exact h

theorem getDefaultPairId_same (w : World) :
    sameOutside w (getDefaultPairId w).2 ∧ (getDefaultPairId w).2.kv = w.kv := by
  have h := Kvdb.Get_same clusterPairDefaultKey w
  unfold getDefaultPairId
  rcases hg : Kvdb.Get clusterPairDefaultKey w with ⟨r, w1⟩
  rw [hg] at h
  cases r <;> exact h

theorem setDefaultPairId_same (id : String) (w : World) :
    sameOutside w (setDefaultPairId id w).2 := by
  have h := Kvdb.Put_same clusterPairDefaultKey (.text id) w
  unfold setDefaultPairId
  rcases hg : Kvdb.Put clusterPairDefaultKey (.text id) w with ⟨r, w1⟩
  rw [hg] at h
  cases r <;> exact h

theorem deleteDefaultPairId_same (w : World) :
    sameOutside w (deleteDefaultPairId w).2 := by
  have h := Kvdb.Delete_same clusterPairDefaultKey w
  unfold deleteDefaultPairId
  rcases hg : Kvdb.Delete clusterPairDefaultKey w with ⟨r, w1⟩
  rw [hg] at h
  cases r <;> exact h

theorem pairCreateLocked_same (info : ClusterPairInfo) (sd : Bool) (w : World) :
    sameOutside w (pairCreateLocked info sd w).2 := by
  have h1 := Kvdb.Create_same (ClusterPairKey ++ "/" ++ info.Id) (.json info) w
  unfold pairCreateLocked
  simp only
  rcases hc : Kvdb.Create (ClusterPairKey ++ "/" ++ info.Id) (.json info) w with ⟨r, w1⟩
  rw [hc] at h1
  cases r with
  | error e => exact h1
  | ok p =>
    simp only
    have h2 := (getDefaultPairId_same w1).1
    rcases hg : getDefaultPairId w1 with ⟨⟨d, err⟩, w2⟩
    rw [hg] at h2
    simp only
    split
    · have h3 := setDefaultPairId_same info.Id w2
      rcases hs : setDefaultPairId info.Id w2 with ⟨r3, w3⟩
      rw [hs] at h3
      cases r3 <;> exact sameOutside_trans h1 (sameOutside_trans h2 h3)
    · exact sameOutside_trans h1 h2

theorem pairUpdateLocked_same (info : ClusterPairInfo) (w : World) :
    sameOutside w (pairUpdateLocked info w).2 := by
  have h1 := Kvdb.Update_same (ClusterPairKey ++ "/" ++ info.Id) (.json info) w
  unfold pairUpdateLocked
  simp only
  rcases hc : Kvdb.Update (ClusterPairKey ++ "/" ++ info.Id) (.json info) w with ⟨r, w1⟩
  rw [hc] at h1
  cases r <;> exact h1

theorem pairDeleteRecord_same (id : String) (w : World) :
    sameOutside w (pairDeleteRecord id w).2 := by
  have h1 := Kvdb.Delete_same (ClusterPairKey ++ "/" ++ id) w
  unfold pairDeleteRecord
  simp only
  rcases hc : Kvdb.Delete (ClusterPairKey ++ "/" ++ id) w with ⟨r, w1⟩
  rw [hc] at h1
  cases r <;> exact h1

theorem pairDeleteLocked_same (id : String) (w : World) :
    sameOutside w (pairDeleteLocked id w).2 := by
  have h1 := (getDefaultPairId_same w).1
  unfold pairDeleteLocked
  rcases hg : getDefaultPairId w with ⟨⟨d, err⟩, w1⟩
  rw [hg] at h1
  simp only
  split
  · have h2 := deleteDefaultPairId_same w1
    rcases hd : deleteDefaultPairId w1 with ⟨r2, w2⟩
    rw [hd] at h2
    cases r2 with
    | some e => exact sameOutside_trans h1 h2
    | none =>
      exact sameOutside_trans h1 (sameOutside_trans h2 (pairDeleteRecord_same id w2))
  · exact sameOutside_trans h1 (pairDeleteRecord_same id w1)

theorem pairGetLocked_same (id : String) (w : World) :
    sameOutside w (pairGetLocked id w).2 ∧ (pairGetLocked id w).2.kv = w.kv := by
  have h1 := Kvdb.Get_same (ClusterPairKey ++ "/" ++ id) w
  unfold pairGetLocked
  simp only
  rcases hc : Kvdb.Get (ClusterPairKey ++ "/" ++ id) w with ⟨r, w1⟩
  rw [hc] at h1
  cases r with
  | error e => exact h1
  | ok p =>
    simp only
    cases jsonUnmarshal p.Value <;> exact h1

/-! ## Locks -/

theorem Kvdb.LockWithID_ok {key id : String} {w w1 : World} {kvp : KVPair}
    (h : Kvdb.LockWithID key id w = (.ok kvp, w1)) :
    kvp.Key = key ∧ w1.lockLog = w.lockLog ++ [.acquire key id] ∧ w1.kv = w.kv ∧
      w1.calls = w.calls ∧ w1.db = w.db ∧ w1.entropy = w.entropy ∧
      (Kvdb.takeFault w).1 = none := by
  obtain ⟨h1, h2, h3, h4, h5⟩ := takeFault_fields w
  unfold Kvdb.LockWithID at h
  rcases htf : Kvdb.takeFault w with ⟨f, w0⟩
  rw [htf] at h h1 h2 h3 h4 h5
  simp only at h1 h2 h3 h4 h5
  cases f with
  | some m => simp at h
  | none =>
    simp only [Prod.mk.injEq, Except.ok.injEq] at h
    obtain ⟨hk, hw⟩ := h
    subst hk
    subst hw
    simp [h1, h2, h3, h4, h5]

theorem Kvdb.LockWithID_error {key id : String} {w w1 : World} {e : Error}
    (h : Kvdb.LockWithID key id w = (.error e, w1)) :
    w1 = (Kvdb.takeFault w).2 ∧ ∃ m, e = .store m ∧ (Kvdb.takeFault w).1 = some m := by
  unfold Kvdb.LockWithID at h
  rcases htf : Kvdb.takeFault w with ⟨f, w0⟩
  rw [htf] at h
  cases f with
  | none => simp at h
  | some m =>
    simp only [Prod.mk.injEq, Except.error.injEq] at h
    exact ⟨h.2.symm, m, h.1.symm, rfl⟩

theorem pairCreate_locked_run {info : ClusterPairInfo} {sd : Bool} {w w1 : World}
    {kvp : KVPair} (h : Kvdb.Lock ClusterPairKey w = (.ok kvp, w1)) :
    pairCreate info sd w
      = ((pairCreateLocked info sd w1).1, Kvdb.Unlock kvp (pairCreateLocked info sd w1).2) := by
  simp only [pairCreate, h]

theorem pairUpdate_locked_run {info : ClusterPairInfo} {w w1 : World}
    {kvp : KVPair} (h : Kvdb.Lock ClusterPairKey w = (.ok kvp, w1)) :
    pairUpdate info w
      = ((pairUpdateLocked info w1).1, Kvdb.Unlock kvp (pairUpdateLocked info w1).2) := by
  simp only [pairUpdate, h]

theorem pairDelete_locked_run {id : String} {w w1 : World}
    {kvp : KVPair} (h : Kvdb.Lock ClusterPairKey w = (.ok kvp, w1)) :
    pairDelete id w
      = ((pairDeleteLocked id w1).1, Kvdb.Unlock kvp (pairDeleteLocked id w1).2) := by
  simp only [pairDelete, h]

theorem pairGet_locked_run {id : String} {w w1 : World}
    {kvp : KVPair} (h : Kvdb.Lock ClusterPairKey w = (.ok kvp, w1)) :
    pairGet id w
      = ((pairGetLocked id w1).1, Kvdb.Unlock kvp (pairGetLocked id w1).2) := by
  simp only [pairGet, h]

theorem GetPairToken_locked_run {c : ClusterManager} {reset : Bool} {w w1 : World}
    {kvp : KVPair} (h : Kvdb.LockWithID clusterLockKey c.config.NodeId w = (.ok kvp, w1)) :
    GetPairToken c reset w
      = ((GetPairTokenLocked reset w1).1, Kvdb.Unlock kvp (GetPairTokenLocked reset w1).2) := by
  simp only [GetPairToken, h]

theorem GetPairTokenLocked_frame (reset : Bool) (w : World) :
    (GetPairTokenLocked reset w).2.kv = w.kv ∧
      (GetPairTokenLocked reset w).2.calls = w.calls ∧
      (GetPairTokenLocked reset w).2.lockLog = w.lockLog := by
  obtain ⟨h1, _, _, h4, h5⟩ := takeFault_fields w
  unfold GetPairTokenLocked readClusterInfo
  rcases htf : Kvdb.takeFault w with ⟨f, w1⟩
  rw [htf] at h1 h4 h5
  simp only at h1 h4 h5
  cases f with
  | some m => exact ⟨h1, h4, h5⟩
  | none =>
    simp only
    split
    · obtain ⟨g1, _, _, g4, g5⟩ := takeFault_fields (randRead 64 w1).2
      unfold writeClusterInfo
      rcases htf2 : Kvdb.takeFault (randRead 64 w1).2 with ⟨f2, w3⟩
      rw [htf2] at g1 g4 g5
      simp only [randRead] at g1 g4 g5
      cases f2 with
      | some m => exact ⟨g1.trans h1, g4.trans h4, g5.trans h5⟩
      | none => exact ⟨g1.trans h1, g4.trans h4, g5.trans h5⟩
    · exact ⟨h1, h4, h5⟩

theorem GetPairToken_frame (c : ClusterManager) (reset : Bool) (w : World) :
    (GetPairToken c reset w).2.kv = w.kv ∧ (GetPairToken c reset w).2.calls = w.calls := by
  rcases hl : Kvdb.LockWithID clusterLockKey c.config.NodeId w with ⟨r, w1⟩
  cases r with
  | error e =>
    obtain ⟨hw, _⟩ := Kvdb.LockWithID_error hl
    obtain ⟨h1, _, _, h4, _⟩ := takeFault_fields w
    simp only [GetPairToken, hl, hw]
    exact ⟨h1, h4⟩
  | ok kvp =>
    obtain ⟨_, _, hkv, hcalls, _⟩ := Kvdb.LockWithID_ok hl
    obtain ⟨g1, g2, _⟩ := GetPairTokenLocked_frame reset w1
    rw [GetPairToken_locked_run hl]
    simp only [Kvdb.Unlock]
    exact ⟨g1.trans hkv, g2.trans hcalls⟩

theorem pairCreate_frame (info : ClusterPairInfo) (sd : Bool) (w : World) :
    (pairCreate info sd w).2.calls = w.calls ∧ (pairCreate info sd w).2.db = w.db := by
  rcases hl : Kvdb.Lock ClusterPairKey w with ⟨r, w1⟩
  cases r with
  | error e =>
    obtain ⟨hw, _⟩ := Kvdb.LockWithID_error hl
    obtain ⟨_, h2, _, h4, _⟩ := takeFault_fields w
    have hrun : pairCreate info sd w = (some e, w1) := by
      simp only [pairCreate, hl]
    rw [hrun, hw]
    exact ⟨h4, h2⟩
  | ok kvp =>
    obtain ⟨_, _, _, hcalls, hdb, _⟩ := Kvdb.LockWithID_ok hl
    obtain ⟨g1, g2, _⟩ := pairCreateLocked_same info sd w1
    rw [pairCreate_locked_run hl]
    simp only [Kvdb.Unlock]
    exact ⟨g1.trans hcalls, g2.trans hdb⟩

/-- C20: for pairCreate, pairUpdate, pairDelete and pairGet, once kv.Lock has
granted the lock, and for GetPairToken, once kv.LockWithID has granted it, the
lock trace after the call is the trace before it followed by that one
acquisition and one release of the same lock, whatever the outcome of the
call and whatever store calls fail under the lock. -/
theorem lock_released_exactly_once (c : ClusterManager) (info : ClusterPairInfo)
    (setDefault reset : Bool) (id : String) (w w1 : World) (kvp : KVPair) :
    (Kvdb.Lock ClusterPairKey w = (.ok kvp, w1) →
      (pairCreate info setDefault w).2.lockLog
          = w.lockLog ++ [.acquire ClusterPairKey "locked", .release ClusterPairKey] ∧
        (pairUpdate info w).2.lockLog
          = w.lockLog ++ [.acquire ClusterPairKey "locked", .release ClusterPairKey] ∧
        (pairDelete id w).2.lockLog
          = w.lockLog ++ [.acquire ClusterPairKey "locked", .release ClusterPairKey] ∧
        (pairGet id w).2.lockLog
          = w.lockLog ++ [.acquire ClusterPairKey "locked", .release ClusterPairKey]) ∧
      (Kvdb.LockWithID clusterLockKey c.config.NodeId w = (.ok kvp, w1) →
        (GetPairToken c reset w).2.lockLog
          = w.lockLog ++ [.acquire clusterLockKey c.config.NodeId,
              .release clusterLockKey]) := by
  constructor
  · intro hl
    obtain ⟨hk, hlog, _⟩ := Kvdb.LockWithID_ok hl
    refine ⟨?_, ?_, ?_, ?_⟩
    · rw [pairCreate_locked_run hl]
      simp only [Kvdb.Unlock, (pairCreateLocked_same info setDefault w1).2.2.2, hlog, hk,
        List.append_assoc, List.singleton_append]
    · rw [pairUpdate_locked_run hl]
      simp only [Kvdb.Unlock, (pairUpdateLocked_same info w1).2.2.2, hlog, hk,
        List.append_assoc, List.singleton_append]
    · rw [pairDelete_locked_run hl]
      simp only [Kvdb.Unlock, (pairDeleteLocked_same id w1).2.2.2, hlog, hk,
        List.append_assoc, List.singleton_append]
    · rw [pairGet_locked_run hl]
      simp only [Kvdb.Unlock, (pairGetLocked_same id w1).1.2.2.2, hlog, hk,
        List.append_assoc, List.singleton_append]
  · intro hl
    obtain ⟨hk, hlog, _⟩ := Kvdb.LockWithID_ok hl
    rw [GetPairToken_locked_run hl]
    simp only [Kvdb.Unlock, (GetPairTokenLocked_frame reset w1).2.2, hlog, hk,
      List.append_assoc, List.singleton_append]

/-- C20 witness: on a store that grants the lock and refuses the next call,
pairCreate fails with the store's error and GetPairToken fails with the store's
error, and each has released the lock it took. -/
theorem lock_released_exactly_once_witness :
    (pairCreate westPair false flakyWorld).1 = some (.store "etcd unavailable") ∧
      (pairCreate westPair false flakyWorld).2.lockLog
        = [.acquire ClusterPairKey "locked", .release ClusterPairKey] ∧
      (GetPairToken plainManager true flakyWorld).2.lockLog
        = [.acquire clusterLockKey "node-1", .release clusterLockKey] :=
  ⟨by decide,
   ((lock_released_exactly_once plainManager westPair false true "c2" flakyWorld
      { flakyWorld with faults := [some "etcd unavailable"],
                        lockLog := [.acquire ClusterPairKey "locked"] }
      { Key := ClusterPairKey, Value := .text "locked" }).1 rfl).1,
   (lock_released_exactly_once plainManager westPair false true "c2" flakyWorld
      { flakyWorld with faults := [some "etcd unavailable"],
                        lockLog := [.acquire clusterLockKey "node-1"] }
      { Key := clusterLockKey, Value := .text "node-1" }).2 rfl⟩

/-! ## The pairing flows -/

theorem CreatePair_after_handshake {c : ClusterManager} {remote : RemoteCluster}
    {request : ClusterPairCreateRequest} {resp0 : ClusterPairProcessResponse} (w : World)
    (hd : remote.NewClusterClient (dialUrl request) APIVersion = none)
    (hh : remote.ProcessPairRequest (dialUrl request) (processRequestOf c request)
      = .ok resp0) :
    CreatePair c remote request w =
      (match createPairListeners c.selfNode c.listeners resp0 w with
       | (some e, _, w1) => (.error e, w1)
       | (none, resp, w1) =>
         match pairCreate (pairInfoOf resp request) request.SetDefault w1 with
         | (some e, w2) => (.error e, w2)
         | (none, w2) =>
           (.ok { RemoteClusterId := resp.RemoteClusterId,
                  RemoteClusterName := resp.RemoteClusterName }, w2)) := by
  unfold dialUrl processRequestOf at *
  simp only [CreatePair, hd, hh, pairInfoOf]

theorem ProcessPairRequest_after_token {c : ClusterManager}
    {request : ClusterPairProcessRequest} {w : World} {tok : ClusterPairTokenGetResponse}
    (htok : (GetPairToken c false w).1 = .ok tok)
    (heq : tok.Token = request.RemoteClusterToken) :
    ProcessPairRequest c request w =
      (match processPairListeners c.selfNode c.listeners (initialResponse c)
          (GetPairToken c false w).2 with
       | (some e, _, w2) => (.error e, w2)
       | (none, resp, w2) => (.ok resp, w2)) := by
  have e1 : GetPairToken c false w = (.ok tok, (GetPairToken c false w).2) := by
    rw [← htok]
  generalize (GetPairToken c false w).2 = w1 at e1
  simp [ProcessPairRequest, e1, heq, initialResponse]

/-- C11: let the listener list be pre ++ l :: post.  In CreatePair, after a
successful dial and remote handshake, and in ProcessPairRequest, after a
successful token check, if the hooks of pre succeed (each on the response as
its predecessors left it) and the hook of l returns the error e, then the call
returns e and the hook trace has grown by exactly the listeners pre then l, in
that order: nothing of post has been invoked.  If every hook succeeds the
trace has grown by the whole list in registration order. -/
theorem listener_fan_out_order (c : ClusterManager) (remote : RemoteCluster)
    (request : ClusterPairCreateRequest) (prequest : ClusterPairProcessRequest) (w : World)
    (pre post : List ClusterListener) (l : ClusterListener) (e : Error)
    (resp0 : ClusterPairProcessResponse) (tok : ClusterPairTokenGetResponse)
    (hd : remote.NewClusterClient (dialUrl request) APIVersion = none)
    (hh : remote.ProcessPairRequest (dialUrl request) (processRequestOf c request)
      = .ok resp0)
    (htok : (GetPairToken c false w).1 = .ok tok)
    (heq : tok.Token = prequest.RemoteClusterToken) :
    (c.listeners = pre ++ l :: post →
      (createPairListeners c.selfNode pre resp0 w).1 = none →
      (l.CreatePair c.selfNode (createPairListeners c.selfNode pre resp0 w).2.1).1 = some e →
      (CreatePair c remote request w).1 = .error e ∧
        (CreatePair c remote request w).2.calls
          = w.calls ++ hookTrace .CreatePair (pre ++ [l])) ∧
    (c.listeners = pre ++ l :: post →
      (processPairListeners c.selfNode pre (initialResponse c) w).1 = none →
      (l.ProcessPairRequest c.selfNode
        (processPairListeners c.selfNode pre (initialResponse c) w).2.1).1 = some e →
      (ProcessPairRequest c prequest w).1 = .error e ∧
        (ProcessPairRequest c prequest w).2.calls
          = w.calls ++ hookTrace .ProcessPairRequest (pre ++ [l])) ∧
    ((createPairListeners c.selfNode c.listeners resp0 w).1 = none →
      (CreatePair c remote request w).2.calls
        = w.calls ++ hookTrace .CreatePair c.listeners) ∧
    ((processPairListeners c.selfNode c.listeners (initialResponse c) w).1 = none →
      (ProcessPairRequest c prequest w).2.calls
        = w.calls ++ hookTrace .ProcessPairRequest c.listeners) := by
  refine ⟨?_, ?_, ?_, ?_⟩
  · intro hls hok hfail
    obtain ⟨h1, h2⟩ := createPairListeners_first_failure c.selfNode l post e pre resp0 w
      hok hfail
    rw [CreatePair_after_handshake w hd hh, hls]
    rcases hloop : createPairListeners c.selfNode (pre ++ l :: post) resp0 w
      with ⟨r, resp, w1⟩
    rw [hloop] at h1 h2
    simp only at h1 h2
    subst h1
    subst h2
    simp
  · intro hls hok hfail
    have hfree := listeners_result_world_free c.selfNode pre (initialResponse c) w
      (GetPairToken c false w).2
    rw [hfree.2.2.1] at hok
    rw [hfree.2.2.2] at hfail
    obtain ⟨h1, h2⟩ := processPairListeners_first_failure c.selfNode l post e pre
      (initialResponse c) (GetPairToken c false w).2 hok hfail
    rw [ProcessPairRequest_after_token htok heq, hls]
    rcases hloop : processPairListeners c.selfNode (pre ++ l :: post) (initialResponse c)
      (GetPairToken c false w).2 with ⟨r, resp, w1⟩
    rw [hloop] at h1 h2
    simp only at h1 h2
    subst h1
    subst h2
    simp [(GetPairToken_frame c false w).2]
  · intro hok
    have hworld := createPairListeners_ok_world c.selfNode c.listeners resp0 w hok
    rw [CreatePair_after_handshake w hd hh]
    rcases hloop : createPairListeners c.selfNode c.listeners resp0 w with ⟨r, resp, w1⟩
    rw [hloop] at hok hworld
    simp only at hok hworld
    subst hok
    subst hworld
    simp only
    have hfr := (pairCreate_frame (pairInfoOf resp request) request.SetDefault
      { w with calls := w.calls ++ hookTrace .CreatePair c.listeners }).1
    rcases hpc : pairCreate (pairInfoOf resp request) request.SetDefault
      { w with calls := w.calls ++ hookTrace .CreatePair c.listeners } with ⟨r2, w2⟩
    rw [hpc] at hfr
    cases r2 <;> exact hfr
  · intro hok
    have hfree := listeners_result_world_free c.selfNode c.listeners (initialResponse c) w
      (GetPairToken c false w).2
    rw [hfree.2.2.1] at hok
    have hworld := processPairListeners_ok_world c.selfNode c.listeners (initialResponse c)
      (GetPairToken c false w).2 hok
    rw [ProcessPairRequest_after_token htok heq]
    rcases hloop : processPairListeners c.selfNode c.listeners (initialResponse c)
      (GetPairToken c false w).2 with ⟨r, resp, w1⟩
    rw [hloop] at hok hworld
    simp only at hok hworld
    subst hok
    subst hworld
    simp [(GetPairToken_frame c false w).2]

/-- C11 witness: with the listeners L1, L2, L3 of which L2 fails, CreatePair and
ProcessPairRequest both return the error of L2, and the trace holds L1 then L2
and nothing of L3. -/
theorem listener_fan_out_order_witness :
    ((CreatePair listeningManager friendlyRemote sampleCreateRequest tokenWorld).1
        = .error (.external "L2 refused") ∧
      (CreatePair listeningManager friendlyRemote sampleCreateRequest tokenWorld).2.calls
        = [{ kind := .CreatePair, listener := "L1" },
           { kind := .CreatePair, listener := "L2" }]) ∧
    ((ProcessPairRequest listeningManager
        { SourceClusterId := "peer", RemoteClusterToken := "secret" } tokenWorld).1
        = .error (.external "L2 refused") ∧
      (ProcessPairRequest listeningManager
        { SourceClusterId := "peer", RemoteClusterToken := "secret" } tokenWorld).2.calls
        = [{ kind := .ProcessPairRequest, listener := "L1" },
           { kind := .ProcessPairRequest, listener := "L2" }]) :=
  have key := listener_fan_out_order listeningManager friendlyRemote sampleCreateRequest
    { SourceClusterId := "peer", RemoteClusterToken := "secret" } tokenWorld
    [okListener "L1"] [okListener "L3"] (failingListener "L2") (.external "L2 refused")
    { RemoteClusterId := "remote-1", RemoteClusterName := "remote-one",
      Options := [("endpoint", "10.0.0.9:9001")] }
    { Token := "secret" } rfl rfl rfl rfl
  ⟨key.1 rfl rfl rfl, key.2.1 rfl rfl rfl⟩

theorem createPairListeners_frame (self : Node) :
    ∀ (ls : List ClusterListener) (resp : ClusterPairProcessResponse) (w : World),
      (createPairListeners self ls resp w).2.2.kv = w.kv ∧
        (createPairListeners self ls resp w).2.2.db = w.db ∧
        (createPairListeners self ls resp w).2.2.faults = w.faults ∧
        (createPairListeners self ls resp w).2.2.lockLog = w.lockLog := by
  intro ls
  induction ls with
  | nil =>
    intro resp w
    simp [createPairListeners]
  | cons l rest ih =>
    intro resp w
    rcases hl : l.CreatePair self resp with ⟨e, resp1⟩
    cases e with
    | some e => simp [createPairListeners, hl, World.called]
    | none =>
      have hstep : createPairListeners self (l :: rest) resp w
          = createPairListeners self rest resp1 (w.called .CreatePair l) := by
        simp only [createPairListeners, hl]
      rw [hstep]
      exact ih resp1 (w.called .CreatePair l)

/-- C13: a CreatePair call that fails at the dial step or at the remote
handshake returns the remote's error and the world exactly as it was (store
contents and hook trace included); a call that fails because a listener's
CreatePair hook returns an error leaves the store contents as they were. -/
theorem CreatePair_failure_leaves_store (c : ClusterManager) (remote : RemoteCluster)
    (request : ClusterPairCreateRequest) (w : World) (e : Error) :
    (remote.NewClusterClient (dialUrl request) APIVersion = some e →
      CreatePair c remote request w = (.error e, w)) ∧
    (remote.NewClusterClient (dialUrl request) APIVersion = none →
      remote.ProcessPairRequest (dialUrl request) (processRequestOf c request) = .error e →
      CreatePair c remote request w = (.error e, w)) ∧
    (∀ resp0, remote.NewClusterClient (dialUrl request) APIVersion = none →
      remote.ProcessPairRequest (dialUrl request) (processRequestOf c request) = .ok resp0 →
      (createPairListeners c.selfNode c.listeners resp0 w).1 = some e →
      (CreatePair c remote request w).1 = .error e ∧
        (CreatePair c remote request w).2.kv = w.kv) := by
  refine ⟨?_, ?_, ?_⟩
  · intro hd
    unfold dialUrl at hd
    simp only [CreatePair, hd]
  · intro hd hh
    unfold dialUrl processRequestOf at *
    simp only [CreatePair, hd, hh]
  · intro resp0 hd hh hfail
    have hfr := (createPairListeners_frame c.selfNode c.listeners resp0 w).1
    rw [CreatePair_after_handshake w hd hh]
    rcases hloop : createPairListeners c.selfNode c.listeners resp0 w with ⟨r, resp, w1⟩
    rw [hloop] at hfail hfr
    simp only at hfail hfr
    subst hfail
    exact ⟨rfl, hfr⟩

/-- C13 witness: a remote that cannot be dialed, a remote that rejects the
request, and a listener that refuses: each time the store is as before, and
in the first two cases no hook has run. -/
theorem CreatePair_failure_leaves_store_witness :
    CreatePair listeningManager unreachableRemote sampleCreateRequest tokenWorld
        = (.error (.external "connection refused"), tokenWorld) ∧
      CreatePair listeningManager rejectingRemote sampleCreateRequest tokenWorld
        = (.error (.external "Token mismatch during pairing"), tokenWorld) ∧
      (CreatePair listeningManager friendlyRemote sampleCreateRequest tokenWorld).2.kv
        = tokenWorld.kv :=
  ⟨(CreatePair_failure_leaves_store listeningManager unreachableRemote sampleCreateRequest
      tokenWorld (.external "connection refused")).1 rfl,
   (CreatePair_failure_leaves_store listeningManager rejectingRemote sampleCreateRequest
      tokenWorld (.external "Token mismatch during pairing")).2.1 rfl rfl,
   ((CreatePair_failure_leaves_store listeningManager friendlyRemote sampleCreateRequest
      tokenWorld (.external "L2 refused")).2.2
      { RemoteClusterId := "remote-1", RemoteClusterName := "remote-one",
        Options := [("endpoint", "10.0.0.9:9001")] } rfl rfl rfl).2⟩

/-- C15: for every request, every world and every outcome, ProcessPairRequest
leaves the store contents (every pair record and the default pointer) exactly
as they were. -/
theorem ProcessPairRequest_leaves_pair_store (c : ClusterManager)
    (request : ClusterPairProcessRequest) (w : World) :
    (ProcessPairRequest c request w).2.kv = w.kv := by
  have hkv := (GetPairToken_frame c false w).1
  unfold ProcessPairRequest
  simp only
  rcases htok : GetPairToken c false w with ⟨r, w1⟩
  rw [htok] at hkv
  simp only at hkv
  cases r with
  | error e => exact hkv
  | ok tokenResp =>
    simp only
    split
    · exact hkv
    · obtain ⟨_, _, _, h3, _⟩ := processPairListeners_calls c.selfNode c.listeners
        { RemoteClusterId := c.config.ClusterId
          RemoteClusterName := c.config.ClusterId
          Options := [] } w1
      rcases hloop : processPairListeners c.selfNode c.listeners
        { RemoteClusterId := c.config.ClusterId
          RemoteClusterName := c.config.ClusterId
          Options := [] } w1 with ⟨r2, resp, w2⟩
      rw [hloop] at h3
      simp only at h3
      cases r2 <;> exact h3.trans hkv

theorem createPairListeners_error_origin (self : Node) (e : Error) :
    ∀ (ls : List ClusterListener) (resp : ClusterPairProcessResponse) (w : World),
      (createPairListeners self ls resp w).1 = some e →
      ∃ l ∈ ls, ∃ r, (l.CreatePair self r).1 = some e := by
  intro ls
  induction ls with
  | nil =>
    intro resp w h
    simp [createPairListeners] at h
  | cons l rest ih =>
    intro resp w h
    rcases hl : l.CreatePair self resp with ⟨e1, resp1⟩
    cases e1 with
    | some e1 =>
      simp only [createPairListeners, hl, Option.some.injEq] at h
      exact ⟨l, List.mem_cons_self _ _, resp, by rw [hl, h]⟩
    | none =>
      simp only [createPairListeners, hl] at h
      obtain ⟨l2, hl2, r, hr⟩ := ih resp1 _ h
      exact ⟨l2, List.mem_cons_of_mem _ hl2, r, hr⟩

theorem processPairListeners_error_origin (self : Node) (e : Error) :
    ∀ (ls : List ClusterListener) (resp : ClusterPairProcessResponse) (w : World),
      (processPairListeners self ls resp w).1 = some e →
      ∃ l ∈ ls, ∃ r, (l.ProcessPairRequest self r).1 = some e := by
  intro ls
  induction ls with
  | nil =>
    intro resp w h
    simp [processPairListeners] at h
  | cons l rest ih =>
    intro resp w h
    rcases hl : l.ProcessPairRequest self resp with ⟨e1, resp1⟩
    cases e1 with
    | some e1 =>
      simp only [processPairListeners, hl, Option.some.injEq] at h
      exact ⟨l, List.mem_cons_self _ _, resp, by rw [hl, h]⟩
    | none =>
      simp only [processPairListeners, hl] at h
      obtain ⟨l2, hl2, r, hr⟩ := ih resp1 _ h
      exact ⟨l2, List.mem_cons_of_mem _ hl2, r, hr⟩

/-- C12 as stated fails for the listeners L1, L2, L3 where the hooks of L2 return
an error whose message is "disk full": CreatePair and ProcessPairRequest
return that very error, and its message does not contain the name L2. -/
theorem listener_error_is_not_annotated :
    (CreatePair quietManager friendlyRemote sampleCreateRequest tokenWorld).1
        = .error (.external "disk full") ∧
      (ProcessPairRequest quietManager
        { SourceClusterId := "peer", RemoteClusterToken := "secret" } tokenWorld).1
        = .error (.external "disk full") ∧
      ((refusingListener "L2" "disk full").CreatePair quietManager.selfNode
        { RemoteClusterId := "remote-1", RemoteClusterName := "remote-one",
          Options := [("endpoint", "10.0.0.9:9001")] }).1 = some (.external "disk full") ∧
      Error.mentions (.external "disk full") (refusingListener "L2" "disk full").name
        = false :=
  ⟨rfl, rfl, rfl, by decide⟩

/-- C12 amended: when the listener loop of CreatePair (after a successful dial
and handshake) or of ProcessPairRequest (after a successful token check) fails
with e, the caller receives exactly e, and e is the value that the hook of one
of the registered listeners returned: nothing is added to it. -/
theorem listener_error_returned_as_is (c : ClusterManager) (remote : RemoteCluster)
    (request : ClusterPairCreateRequest) (prequest : ClusterPairProcessRequest) (w : World)
    (e : Error) (resp0 : ClusterPairProcessResponse) (tok : ClusterPairTokenGetResponse)
    (hd : remote.NewClusterClient (dialUrl request) APIVersion = none)
    (hh : remote.ProcessPairRequest (dialUrl request) (processRequestOf c request)
      = .ok resp0)
    (htok : (GetPairToken c false w).1 = .ok tok)
    (heq : tok.Token = prequest.RemoteClusterToken) :
    ((createPairListeners c.selfNode c.listeners resp0 w).1 = some e →
      (CreatePair c remote request w).1 = .error e ∧
        ∃ l ∈ c.listeners, ∃ r, (l.CreatePair c.selfNode r).1 = some e) ∧
    ((processPairListeners c.selfNode c.listeners (initialResponse c) w).1 = some e →
      (ProcessPairRequest c prequest w).1 = .error e ∧
        ∃ l ∈ c.listeners, ∃ r, (l.ProcessPairRequest c.selfNode r).1 = some e) := by
  constructor
  · intro hfail
    refine ⟨?_, createPairListeners_error_origin c.selfNode e c.listeners resp0 w hfail⟩
    rw [CreatePair_after_handshake w hd hh]
    rcases hloop : createPairListeners c.selfNode c.listeners resp0 w with ⟨r, resp, w1⟩
    rw [hloop] at hfail
    simp only at hfail
    subst hfail
    rfl
  · intro hfail
    refine ⟨?_, processPairListeners_error_origin c.selfNode e c.listeners
      (initialResponse c) w hfail⟩
    have hfree := listeners_result_world_free c.selfNode c.listeners (initialResponse c) w
      (GetPairToken c false w).2
    rw [hfree.2.2.1] at hfail
    rw [ProcessPairRequest_after_token htok heq]
    rcases hloop : processPairListeners c.selfNode c.listeners (initialResponse c)
      (GetPairToken c false w).2 with ⟨r, resp, w1⟩
    rw [hloop] at hfail
    simp only at hfail
    subst hfail
    rfl

/-- C12 amended, witness: the error "disk full" of L2 reaches the caller of
CreatePair and of ProcessPairRequest as it is. -/
theorem listener_error_returned_as_is_witness :
    (CreatePair quietManager friendlyRemote sampleCreateRequest tokenWorld).1
        = .error (.external "disk full") ∧
      (ProcessPairRequest quietManager
        { SourceClusterId := "peer", RemoteClusterToken := "secret" } tokenWorld).1
        = .error (.external "disk full") :=
  have key := listener_error_returned_as_is quietManager friendlyRemote sampleCreateRequest
    { SourceClusterId := "peer", RemoteClusterToken := "secret" } tokenWorld
    (.external "disk full")
    { RemoteClusterId := "remote-1", RemoteClusterName := "remote-one",
      Options := [("endpoint", "10.0.0.9:9001")] }
    { Token := "secret" } rfl rfl rfl rfl
  ⟨(key.1 rfl).1, (key.2 rfl).1⟩

theorem Kvdb.Create_ok {key : String} {v : Bytes} {w w1 : World} {p : KVPair}
    (h : Kvdb.Create key v w = (.ok p, w1)) :
    w1.kv = Kvdb.insert key v w.kv ∧ Kvdb.find key w.kv = none := by
  obtain ⟨h1, _⟩ := takeFault_fields w
  unfold Kvdb.Create at h
  rcases htf : Kvdb.takeFault w with ⟨f, w0⟩
  rw [htf] at h h1
  simp only at h1
  cases f with
  | some m => simp at h
  | none =>
    simp only at h
    cases hf : Kvdb.find key w0.kv with
    | some b =>
      rw [hf] at h
      simp at h
    | none =>
      rw [hf] at h
      simp only [Prod.mk.injEq] at h
      rw [← h.2]
      rw [h1] at hf
      exact ⟨by simp [h1], hf⟩

theorem setDefaultPairId_ok {id : String} {w w1 : World}
    (h : setDefaultPairId id w = (none, w1)) :
    w1.kv = Kvdb.insert clusterPairDefaultKey (.text id) w.kv := by
  obtain ⟨h1, _⟩ := takeFault_fields w
  unfold setDefaultPairId Kvdb.Put at h
  rcases htf : Kvdb.takeFault w with ⟨f, w0⟩
  rw [htf] at h h1
  simp only at h1
  cases f with
  | some m => simp at h
  | none =>
    simp only [Prod.mk.injEq, true_and] at h
    rw [← h]
    simp [h1]

theorem pairCreateLocked_ok_record {info : ClusterPairInfo} {sd : Bool} {w : World}
    (hid : info.Id ≠ "default") (hok : (pairCreateLocked info sd w).1 = none) :
    (pairCreateLocked info sd w).2.record info.Id = some (.json info) := by
  have hne := pairKey_ne_default hid
  unfold pairCreateLocked at hok ⊢
  simp only at hok ⊢
  rcases hc : Kvdb.Create (ClusterPairKey ++ "/" ++ info.Id) (.json info) w with ⟨r, w1⟩
  rw [hc] at hok
  cases r with
  | error e => simp at hok
  | ok p =>
    obtain ⟨hkv1, _⟩ := Kvdb.Create_ok hc
    simp only at hok ⊢
    have hg2 := (getDefaultPairId_same w1).2
    rcases hg : getDefaultPairId w1 with ⟨⟨d, err⟩, w2⟩
    rw [hg] at hok hg2
    simp only at hok hg2 ⊢
    split at hok
    · rename_i hcond
      rw [if_pos hcond]
      rcases hs : setDefaultPairId info.Id w2 with ⟨r3, w3⟩
      rw [hs] at hok
      cases r3 with
      | some e => simp at hok
      | none =>
        have hkv3 := setDefaultPairId_ok hs
        simp only [World.record]
        rw [hkv3, Kvdb.find_insert_ne hne.symm, hg2, hkv1, Kvdb.find_insert_self]
    · rename_i hcond
      rw [if_neg hcond]
      simp only [World.record]
      rw [hg2, hkv1, Kvdb.find_insert_self]

theorem pairCreate_ok_record {info : ClusterPairInfo} {sd : Bool} {w : World}
    (hid : info.Id ≠ "default") (hok : (pairCreate info sd w).1 = none) :
    (pairCreate info sd w).2.record info.Id = some (.json info) := by
  rcases hl : Kvdb.Lock ClusterPairKey w with ⟨r, w1⟩
  cases r with
  | error e =>
    have hrun : pairCreate info sd w = (some e, w1) := by
      simp only [pairCreate, hl]
    rw [hrun] at hok
    cases hok
  | ok kvp =>
    rw [pairCreate_locked_run hl] at hok ⊢
    simp only at hok
    have := pairCreateLocked_ok_record hid hok
    simpa [World.record, Kvdb.Unlock] using this

/-- C14 as stated fails when a listener's CreatePair hook rewrites the response
object it is handed: the remote answers with the id "remote-1" and the name
"remote-one", every step succeeds, and yet no record is stored under
"remote-1"; the stored record and the response to the caller carry the id
"rewritten" and the name "renamed" that the hook wrote. -/
theorem CreatePair_record_follows_hooks :
    friendlyRemote.ProcessPairRequest (dialUrl sampleCreateRequest)
        (processRequestOf rewritingManager sampleCreateRequest)
        = .ok { RemoteClusterId := "remote-1", RemoteClusterName := "remote-one",
                Options := [("endpoint", "10.0.0.9:9001")] } ∧
      (CreatePair rewritingManager friendlyRemote sampleCreateRequest tokenWorld).1
        = .ok { RemoteClusterId := "rewritten", RemoteClusterName := "renamed" } ∧
      (CreatePair rewritingManager friendlyRemote sampleCreateRequest tokenWorld).2.record
        "remote-1" = none ∧
      (CreatePair rewritingManager friendlyRemote sampleCreateRequest tokenWorld).2.record
        "rewritten"
        = some (.json { Id := "rewritten", Name := "renamed", Ip := "10.0.0.9", Port := 9001,
                        Token := "secret", Options := [("endpoint", "10.0.0.9:9001")] }) :=
  ⟨rfl, rfl, by decide, by decide⟩

/-- C14 amended: when the dial, the remote handshake, every listener hook and the
store Create succeed, CreatePair has called pairCreate with the record built
from the response object as the hooks left it (Id, Name, Options) and from the
request (Ip, Port, Token) and with request.SetDefault; the response to the
caller carries the Id and Name of that record; for an id other than "default"
that record is what is stored under cluster/pair/<Id>; and when the hooks leave
the response as the remote sent it, these are the values of the remote. -/
theorem CreatePair_persists_record (c : ClusterManager) (remote : RemoteCluster)
    (request : ClusterPairCreateRequest) (w : World) (resp0 : ClusterPairProcessResponse)
    (hd : remote.NewClusterClient (dialUrl request) APIVersion = none)
    (hh : remote.ProcessPairRequest (dialUrl request) (processRequestOf c request)
      = .ok resp0)
    (hl : (createPairListeners c.selfNode c.listeners resp0 w).1 = none)
    (hp : (pairCreate
        (pairInfoOf (createPairListeners c.selfNode c.listeners resp0 w).2.1 request)
        request.SetDefault (createPairListeners c.selfNode c.listeners resp0 w).2.2).1
      = none) :
    CreatePair c remote request w
        = (.ok { RemoteClusterId :=
                   (createPairListeners c.selfNode c.listeners resp0 w).2.1.RemoteClusterId
                 RemoteClusterName :=
                   (createPairListeners c.selfNode c.listeners resp0 w).2.1.RemoteClusterName },
           (pairCreate
             (pairInfoOf (createPairListeners c.selfNode c.listeners resp0 w).2.1 request)
             request.SetDefault
             (createPairListeners c.selfNode c.listeners resp0 w).2.2).2) ∧
      ((createPairListeners c.selfNode c.listeners resp0 w).2.1.RemoteClusterId ≠ "default" →
        (CreatePair c remote request w).2.record
            (createPairListeners c.selfNode c.listeners resp0 w).2.1.RemoteClusterId
          = some (.json
              (pairInfoOf (createPairListeners c.selfNode c.listeners resp0 w).2.1 request))) ∧
      ((createPairListeners c.selfNode c.listeners resp0 w).2.1 = resp0 →
        resp0.RemoteClusterId ≠ "default" →
        (CreatePair c remote request w).1
            = .ok { RemoteClusterId := resp0.RemoteClusterId,
                    RemoteClusterName := resp0.RemoteClusterName } ∧
          (CreatePair c remote request w).2.record resp0.RemoteClusterId
            = some (.json { Id := resp0.RemoteClusterId, Name := resp0.RemoteClusterName,
                            Ip := request.RemoteClusterIp, Port := request.RemoteClusterPort,
                            Token := request.RemoteClusterToken,
                            Options := resp0.Options })) := by
  have hrun : CreatePair c remote request w
      = (.ok { RemoteClusterId :=
                 (createPairListeners c.selfNode c.listeners resp0 w).2.1.RemoteClusterId
               RemoteClusterName :=
                 (createPairListeners c.selfNode c.listeners resp0 w).2.1.RemoteClusterName },
         (pairCreate
           (pairInfoOf (createPairListeners c.selfNode c.listeners resp0 w).2.1 request)
           request.SetDefault
           (createPairListeners c.selfNode c.listeners resp0 w).2.2).2) := by
    rw [CreatePair_after_handshake w hd hh]
    rcases hloop : createPairListeners c.selfNode c.listeners resp0 w with ⟨r, resp, w1⟩
    rw [hloop] at hl hp
    simp only at hl hp
    subst hl
    simp only
    rcases hpc : pairCreate (pairInfoOf resp request) request.SetDefault w1 with ⟨r2, w2⟩
    rw [hpc] at hp
    simp only at hp
    subst hp
    rfl
  have hrec : (createPairListeners c.selfNode c.listeners resp0 w).2.1.RemoteClusterId
        ≠ "default" →
      (CreatePair c remote request w).2.record
          (createPairListeners c.selfNode c.listeners resp0 w).2.1.RemoteClusterId
        = some (.json
            (pairInfoOf (createPairListeners c.selfNode c.listeners resp0 w).2.1 request)) := by
    intro hid
    rw [hrun]
    exact pairCreate_ok_record hid hp
  refine ⟨hrun, hrec, ?_⟩
  intro hsame hid
  rw [hsame] at hrec
  refine ⟨?_, hrec hid⟩
  rw [hrun, hsame]

/-- C14 amended, witness: pairing through the listeners L1 (which add nothing in
CreatePair) stores the record of "remote-1" with the values of the remote and
of the request, and answers with the id and name of the remote. -/
theorem CreatePair_persists_record_witness :
    (CreatePair { plainManager with listeners := [okListener "L1"] } friendlyRemote
        sampleCreateRequest tokenWorld).1
        = .ok { RemoteClusterId := "remote-1", RemoteClusterName := "remote-one" } ∧
      (CreatePair { plainManager with listeners := [okListener "L1"] } friendlyRemote
        sampleCreateRequest tokenWorld).2.record "remote-1"
        = some (.json { Id := "remote-1", Name := "remote-one", Ip := "10.0.0.9",
                        Port := 9001, Token := "secret",
                        Options := [("endpoint", "10.0.0.9:9001")] }) :=
  (CreatePair_persists_record { plainManager with listeners := [okListener "L1"] }
    friendlyRemote sampleCreateRequest tokenWorld
    { RemoteClusterId := "remote-1", RemoteClusterName := "remote-one",
      Options := [("endpoint", "10.0.0.9:9001")] } rfl rfl rfl (by decide)).2.2 rfl
    (by decide)

theorem processPairListeners_keeps_identity (self : Node) :
    ∀ (ls : List ClusterListener) (resp : ClusterPairProcessResponse) (w : World),
      (∀ l ∈ ls, ∀ r,
        (l.ProcessPairRequest self r).2.RemoteClusterId = r.RemoteClusterId ∧
          (l.ProcessPairRequest self r).2.RemoteClusterName = r.RemoteClusterName) →
      (processPairListeners self ls resp w).2.1.RemoteClusterId = resp.RemoteClusterId ∧
        (processPairListeners self ls resp w).2.1.RemoteClusterName
          = resp.RemoteClusterName := by
  intro ls
  induction ls with
  | nil =>
    intro resp w _
    simp [processPairListeners]
  | cons l rest ih =>
    intro resp w hkeep
    have hl := hkeep l (List.mem_cons_self _ _) resp
    rcases hhook : l.ProcessPairRequest self resp with ⟨e, resp1⟩
    rw [hhook] at hl
    simp only at hl
    cases e with
    | some e =>
      simp only [processPairListeners, hhook]
      exact hl
    | none =>
      have hrest := ih resp1 (w.called .ProcessPairRequest l)
        (fun l2 h2 => hkeep l2 (List.mem_cons_of_mem _ h2))
      simp only [processPairListeners, hhook]
      exact ⟨hrest.1.trans hl.1, hrest.2.trans hl.2⟩

theorem ProcessPairRequest_ok_inv {c : ClusterManager} {request : ClusterPairProcessRequest}
    {w : World} {resp : ClusterPairProcessResponse}
    (h : (ProcessPairRequest c request w).1 = .ok resp) :
    ∃ tok, (GetPairToken c false w).1 = .ok tok ∧ tok.Token = request.RemoteClusterToken := by
  unfold ProcessPairRequest at h
  simp only at h
  rcases htok : GetPairToken c false w with ⟨r, w1⟩
  rw [htok] at h
  cases r with
  | error e => simp at h
  | ok tok =>
    refine ⟨tok, rfl, ?_⟩
    simp only at h
    by_contra hne
    have hb : (tok.Token != request.RemoteClusterToken) = true := by
      simpa using hne
    rw [if_pos hb] at h
    simp at h

/-- C16 as stated fails when a listener's ProcessPairRequest hook rewrites the
response object: the call succeeds for the cluster "local", and the response
carries the id "rewritten" and the name "renamed". -/
theorem ProcessPairRequest_response_follows_hooks :
    rewritingManager.config.ClusterId = "local" ∧
      (ProcessPairRequest rewritingManager
        { SourceClusterId := "peer", RemoteClusterToken := "secret" } tokenWorld).1
        = .ok { RemoteClusterId := "rewritten", RemoteClusterName := "renamed",
                Options := [] } :=
  ⟨rfl, rfl⟩

/-- C16 amended: on success ProcessPairRequest returns the response object that
started with this cluster's ClusterId in RemoteClusterId and in
RemoteClusterName and with no Options, as the listeners' hooks left it; when
the hooks leave id and name alone, the response carries the ClusterId in both
fields, and its Options are those the hooks accumulated. -/
theorem ProcessPairRequest_response (c : ClusterManager)
    (request : ClusterPairProcessRequest) (w : World) (resp : ClusterPairProcessResponse)
    (h : (ProcessPairRequest c request w).1 = .ok resp) :
    resp = (processPairListeners c.selfNode c.listeners
        { RemoteClusterId := c.config.ClusterId, RemoteClusterName := c.config.ClusterId,
          Options := [] } w).2.1 ∧
      ((∀ l ∈ c.listeners, ∀ r,
          (l.ProcessPairRequest c.selfNode r).2.RemoteClusterId = r.RemoteClusterId ∧
            (l.ProcessPairRequest c.selfNode r).2.RemoteClusterName = r.RemoteClusterName) →
        resp.RemoteClusterId = c.config.ClusterId ∧
          resp.RemoteClusterName = c.config.ClusterId) := by
  obtain ⟨tok, htok, heq⟩ := ProcessPairRequest_ok_inv h
  have hfree := listeners_result_world_free c.selfNode c.listeners (initialResponse c) w
    (GetPairToken c false w).2
  have hresp : resp = (processPairListeners c.selfNode c.listeners (initialResponse c)
      w).2.1 := by
    rw [hfree.2.2.2]
    rw [ProcessPairRequest_after_token htok heq] at h
    rcases hloop : processPairListeners c.selfNode c.listeners (initialResponse c)
      (GetPairToken c false w).2 with ⟨r, resp1, w1⟩
    rw [hloop] at h
    cases r with
    | some e => simp at h
    | none =>
      simp only [Except.ok.injEq] at h
      exact h.symm
  refine ⟨hresp, ?_⟩
  intro hkeep
  have := processPairListeners_keeps_identity c.selfNode c.listeners (initialResponse c) w
    hkeep
  rw [hresp]
  exact this

/-- C16 amended, witness: with the listeners L1 and L3, which only add options,
the response carries "local" as id and as name and the two options in
registration order. -/
theorem ProcessPairRequest_response_witness :
    (ProcessPairRequest { plainManager with listeners := [okListener "L1", okListener "L3"] }
        { SourceClusterId := "peer", RemoteClusterToken := "secret" } tokenWorld).1
        = .ok { RemoteClusterId := "local", RemoteClusterName := "local",
                Options := [("L1", "ok"), ("L3", "ok")] } ∧
      ("local" = plainManager.config.ClusterId ∧ "local" = plainManager.config.ClusterId) :=
  have key := ProcessPairRequest_response
    { plainManager with listeners := [okListener "L1", okListener "L3"] }
    { SourceClusterId := "peer", RemoteClusterToken := "secret" } tokenWorld
    { RemoteClusterId := "local", RemoteClusterName := "local",
      Options := [("L1", "ok"), ("L3", "ok")] } rfl
  ⟨rfl, key.2 (by
    intro l hl r
    simp only [List.mem_cons, List.mem_singleton, List.not_mem_nil, or_false] at hl
    rcases hl with h | h <;> rw [h] <;> exact ⟨rfl, rfl⟩)⟩

/-- C17: (a) when the store answers every call and the default pointer holds v,
GetPair("") is GetPair(d) for d the text of v; in any world, once
getDefaultPairId has returned d without error, GetPair("") is the envelope of
pairGet(d) run on the world that the read left; (b) when getDefaultPairId
fails with e, GetPair("") fails with that same e; (c) for a non-empty id,
GetPair(id) is the envelope of pairGet(id) run on the same world: no other
store call is made, the default pointer is not read. -/
theorem GetPair_resolves_default (c : ClusterManager) (w : World) :
    (∀ v, w.faults = [] → w.defaultPointer = some v →
        GetPair c "" w = GetPair c v.asString w) ∧
      (∀ d w1, getDefaultPairId w = ((d, none), w1) →
        GetPair c "" w =
          (match pairGet d w1 with
           | (.error e, w2) => (.error e, w2)
           | (.ok pair, w2) => (.ok { PairInfo := pair }, w2))) ∧
      (∀ e, (getDefaultPairId w).1.2 = some e → (GetPair c "" w).1 = .error e) ∧
      (∀ id, id ≠ "" →
        GetPair c id w =
          (match pairGet id w with
           | (.error e, w1) => (.error e, w1)
           | (.ok pair, w1) => (.ok { PairInfo := pair }, w1))) := by
  have hres : ∀ d w1, getDefaultPairId w = ((d, none), w1) →
      GetPair c "" w = GetPairResolved d w1 := by
    intro d w1 hg
    simp [GetPair, hg]
  refine ⟨?_, ?_, ?_, ?_⟩
  · intro v hf hp
    have hg : getDefaultPairId w = ((v.asString, none), w) := by
      simp only [World.defaultPointer] at hp
      simp [getDefaultPairId, Kvdb.Get, Kvdb.takeFault, hf, hp]
    by_cases h : v.asString = ""
    · rw [h]
    · rw [hres _ _ hg]
      simp [GetPair, h]
  · intro d w1 hg
    rw [hres d w1 hg]
    rfl
  · intro e he
    rcases hg : getDefaultPairId w with ⟨⟨d, err⟩, w1⟩
    rw [hg] at he
    simp only at he
    subst he
    simp [GetPair, hg]
  · intro id hid
    simp [GetPair, hid, GetPairResolved]

/-- C17 witness: on the store that holds "c1" as its default, GetPair("") and
GetPair("c1") both return the record of "c1"; on the empty store GetPair("")
fails with kvdb.ErrNotFound. -/
theorem GetPair_resolves_default_witness :
    GetPair plainManager "" (pairCreate eastPair false World.empty).2
        = GetPair plainManager "c1" (pairCreate eastPair false World.empty).2 ∧
      (GetPair plainManager "c1" (pairCreate eastPair false World.empty).2).1
        = .ok { PairInfo := eastPair } ∧
      (GetPair plainManager "" World.empty).1 = .error Error.ErrNotFound :=
  ⟨(GetPair_resolves_default plainManager (pairCreate eastPair false World.empty).2).1
      (.text "c1") (by decide) (by decide),
   rfl,
   (GetPair_resolves_default plainManager World.empty).2.2.1 Error.ErrNotFound rfl⟩

/-- C18, evaluated at the id "default" on the store that holds the single pair
"c1" as its default: no pair named "default" is stored (pairList returns only
"c1"), yet pairGet("default") fails with a decoding error instead of
kvdb.ErrNotFound, and pairDelete("default") returns nil and removes the
default pointer. -/
theorem not_found_fails_for_reserved_id :
    (pairList (pairCreate eastPair false World.empty).2).1 = .ok [("c1", eastPair)] ∧
      (pairCreate eastPair false World.empty).2.defaultPointer = some (.text "c1") ∧
      (pairGet "default" (pairCreate eastPair false World.empty).2).1
        = .error (.jsonSyntax "c1") ∧
      (pairDelete "default" (pairCreate eastPair false World.empty).2).1 = none ∧
      (pairDelete "default" (pairCreate eastPair false World.empty).2).2.defaultPointer
        = none ∧
      (pairList (pairDelete "default" (pairCreate eastPair false World.empty).2).2).1
        = .ok [("c1", eastPair)] :=
  ⟨rfl, by decide, rfl, by decide, by decide, rfl⟩

/-- The not-found behaviour for every id other than "default" with nothing stored
under its key, when the store answers every call: pairGet and pairDelete both
return kvdb.ErrNotFound, and pairDelete leaves every record as it was. -/
theorem not_found_without_reserved_id (id : String) (w : World) (hf : w.faults = [])
    (hid : id ≠ "default") (hab : w.record id = none) :
    (pairGet id w).1 = .error Error.ErrNotFound ∧
      (pairDelete id w).1 = some Error.ErrNotFound ∧
      (∀ id2, id2 ≠ "default" → (pairDelete id w).2.record id2 = w.record id2) := by
  have hne := pairKey_ne_default hid
  obtain ⟨_, hpair⟩ := pairDelete_healthy id w hf
  have hres := congrArg Prod.fst hpair
  have hkv := congrArg Prod.snd hpair
  simp only at hres hkv
  have hab1 : Kvdb.find (ClusterPairKey ++ "/" ++ id) w.kv = none := hab
  have hab2 : Kvdb.find (ClusterPairKey ++ "/" ++ id)
      (Kvdb.erase clusterPairDefaultKey w.kv) = none := by
    rw [Kvdb.find_erase_ne hne.symm, hab1]
  refine ⟨?_, ?_, ?_⟩
  · rw [(pairGet_healthy id w hf).1, hab]
  · rw [hres]
    cases hp : Kvdb.find clusterPairDefaultKey w.kv with
    | none => simp only [hab1]
    | some v0 =>
      by_cases hcase : v0.asString = id
      · simp only [hcase, if_true, hab2]
      · simp only [hcase, if_false, hab1]
  · intro id2 hd
    unfold World.record
    rw [hkv]
    cases hp : Kvdb.find clusterPairDefaultKey w.kv with
    | none => simp only [hab1]
    | some v0 =>
      by_cases hcase : v0.asString = id
      · simp only [hcase, if_true, hab2]
        exact Kvdb.find_erase_ne (pairKey_ne_default hd).symm _
      · simp only [hcase, if_false, hab1]

/-- C19 as stated fails twice.  On the store that holds "c1" as default, when
the store refuses the deletion of the default pointer with "etcd unavailable",
pairDelete("c1") returns the fixed error "error deleting default pair id".
When the store refuses the read of the configuration document, GetPairToken
returns the store's error and ProcessPairRequest returns a new error that wraps
its message. -/
theorem store_errors_are_replaced :
    (deleteDefaultPairId { pointerFailWorld with faults := [some "etcd unavailable"] }).1
        = some (.store "etcd unavailable") ∧
      (pairDelete "c1" pointerFailWorld).1
        = some (.errorf "error deleting default pair id") ∧
      (GetPairToken plainManager false flakyWorld).1
        = .error (.store "etcd unavailable") ∧
      (ProcessPairRequest plainManager
        { SourceClusterId := "peer", RemoteClusterToken := "secret" } flakyWorld).1
        = .error (.errorf "Error getting Cluster Token: etcd unavailable") :=
  ⟨by decide, by decide, rfl, rfl⟩

/-- C19 amended: the error of a failed lock acquisition, of kv.Create and of
setDefaultPairId in pairCreate, of kv.Get in pairGet, of the record's kv.Delete
in pairDelete, and of the read and the write of the configuration document in
GetPairToken reaches the caller as the identical value.  A failed
deleteDefaultPairId in pairDelete is replaced by the fixed error "error
deleting default pair id", and a failed GetPairToken in ProcessPairRequest by
an error that wraps its message.  The error of a failed read of the default
pointer is not returned: whatever getDefaultPairId reports, pairCreate goes on
to succeed when the remaining calls do, and so does pairDelete. -/
theorem store_errors_propagation (c : ClusterManager) (info : ClusterPairInfo)
    (setDefault reset : Bool) (id : String) (request : ClusterPairProcessRequest)
    (w w1 w2 w3 w4 : World) (kvp p : KVPair) (e : Error) (d : String) (err : Option Error)
    (db : ClusterInfo) :
    (Kvdb.Lock ClusterPairKey w = (.error e, w1) →
      (pairCreate info setDefault w).1 = some e ∧ (pairGet id w).1 = .error e ∧
        (pairDelete id w).1 = some e ∧ (pairUpdate info w).1 = some e) ∧
    (Kvdb.LockWithID clusterLockKey c.config.NodeId w = (.error e, w1) →
      (GetPairToken c reset w).1 = .error e) ∧
    (Kvdb.Lock ClusterPairKey w = (.ok kvp, w1) →
      Kvdb.Create (ClusterPairKey ++ "/" ++ info.Id) (.json info) w1 = (.error e, w2) →
      (pairCreate info setDefault w).1 = some e) ∧
    (Kvdb.Lock ClusterPairKey w = (.ok kvp, w1) →
      Kvdb.Create (ClusterPairKey ++ "/" ++ info.Id) (.json info) w1 = (.ok p, w2) →
      getDefaultPairId w2 = ((d, err), w3) →
      (setDefault || err == some Error.ErrNotFound || d == "") = true →
      setDefaultPairId info.Id w3 = (some e, w4) →
      (pairCreate info setDefault w).1 = some e) ∧
    (Kvdb.Lock ClusterPairKey w = (.ok kvp, w1) →
      Kvdb.Get (ClusterPairKey ++ "/" ++ id) w1 = (.error e, w2) →
      (pairGet id w).1 = .error e) ∧
    (Kvdb.Lock ClusterPairKey w = (.ok kvp, w1) →
      getDefaultPairId w1 = ((d, err), w2) →
      (err != some Error.ErrNotFound && d == id) = false →
      Kvdb.Delete (ClusterPairKey ++ "/" ++ id) w2 = (.error e, w3) →
      (pairDelete id w).1 = some e) ∧
    (Kvdb.Lock ClusterPairKey w = (.ok kvp, w1) →
      getDefaultPairId w1 = ((d, err), w2) →
      (err != some Error.ErrNotFound && d == id) = true →
      deleteDefaultPairId w2 = (none, w3) →
      Kvdb.Delete (ClusterPairKey ++ "/" ++ id) w3 = (.error e, w4) →
      (pairDelete id w).1 = some e) ∧
    (Kvdb.Lock ClusterPairKey w = (.ok kvp, w1) →
      getDefaultPairId w1 = ((d, err), w2) →
      (err != some Error.ErrNotFound && d == id) = true →
      deleteDefaultPairId w2 = (some e, w3) →
      (pairDelete id w).1 = some (.errorf "error deleting default pair id")) ∧
    (Kvdb.LockWithID clusterLockKey c.config.NodeId w = (.ok kvp, w1) →
      readClusterInfo w1 = (.error e, w2) →
      (GetPairToken c reset w).1 = .error e) ∧
    (Kvdb.LockWithID clusterLockKey c.config.NodeId w = (.ok kvp, w1) →
      readClusterInfo w1 = (.ok db, w2) →
      (db.PairToken == "" || reset) = true →
      writeClusterInfo { db with PairToken := hexEncode (randRead 64 w2).1 }
        (randRead 64 w2).2 = (some e, w3) →
      (GetPairToken c reset w).1 = .error e) ∧
    ((GetPairToken c false w).1 = .error e →
      (ProcessPairRequest c request w).1
        = .error (.errorf ("Error getting Cluster Token: " ++ e.message))) ∧
    (Kvdb.Lock ClusterPairKey w = (.ok kvp, w1) →
      Kvdb.Create (ClusterPairKey ++ "/" ++ info.Id) (.json info) w1 = (.ok p, w2) →
      getDefaultPairId w2 = ((d, err), w3) →
      (setDefault || err == some Error.ErrNotFound || d == "") = true →
      setDefaultPairId info.Id w3 = (none, w4) →
      (pairCreate info setDefault w).1 = none) ∧
    (Kvdb.Lock ClusterPairKey w = (.ok kvp, w1) →
      getDefaultPairId w1 = ((d, err), w2) →
      (err != some Error.ErrNotFound && d == id) = false →
      Kvdb.Delete (ClusterPairKey ++ "/" ++ id) w2 = (.ok p, w3) →
      (pairDelete id w).1 = none) := by
  refine ⟨?_, ?_, ?_, ?_, ?_, ?_, ?_, ?_, ?_, ?_, ?_, ?_, ?_⟩
  · intro hl
    simp [pairCreate, pairGet, pairDelete, pairUpdate, hl]
  · intro hl
    simp [GetPairToken, hl]
  · intro hl hc
    simp [pairCreate_locked_run hl, pairCreateLocked, hc]
  · intro hl hc hg hcond hs
    rw [pairCreate_locked_run hl]
    simp only [pairCreateLocked, hc, hg, hcond, if_true, hs]
  · intro hl hg
    simp [pairGet_locked_run hl, pairGetLocked, hg]
  · intro hl hg hcond hdel
    rw [pairDelete_locked_run hl]
    simp [pairDeleteLocked, hg, hcond, pairDeleteRecord, hdel]
  · intro hl hg hcond hdd hdel
    rw [pairDelete_locked_run hl]
    simp [pairDeleteLocked, hg, hcond, hdd, pairDeleteRecord, hdel]
  · intro hl hg hcond hdd
    rw [pairDelete_locked_run hl]
    simp [pairDeleteLocked, hg, hcond, hdd]
  · intro hl hr
    simp [GetPairToken_locked_run hl, GetPairTokenLocked, hr]
  · intro hl hr hcond hw
    rw [GetPairToken_locked_run hl]
    simp only [GetPairTokenLocked, hr, hcond, if_true]
    rw [hw]
  · intro hg
    have e1 : GetPairToken c false w = (.error e, (GetPairToken c false w).2) := by
      rw [← hg]
    generalize (GetPairToken c false w).2 = wx at e1
    simp [ProcessPairRequest, e1]
  · intro hl hc hg hcond hs
    rw [pairCreate_locked_run hl]
    simp only [pairCreateLocked, hc, hg, hcond, if_true, hs]
  · intro hl hg hcond hdel
    rw [pairDelete_locked_run hl]
    simp [pairDeleteLocked, hg, hcond, pairDeleteRecord, hdel]

/-- C19 amended, witness: the store's refusal of kv.Create reaches the caller of
pairCreate as it is, and its refusal to delete the default pointer reaches the
caller of pairDelete as the fixed error. -/
theorem store_errors_propagation_witness :
    (pairCreate westPair false flakyWorld).1 = some (.store "etcd unavailable") ∧
      (pairDelete "c1" pointerFailWorld).1
        = some (.errorf "error deleting default pair id") :=
  ⟨(store_errors_propagation plainManager westPair false false "c1"
      { SourceClusterId := "peer", RemoteClusterToken := "secret" }
      flakyWorld (Kvdb.Lock ClusterPairKey flakyWorld).2
      (Kvdb.Create (ClusterPairKey ++ "/" ++ westPair.Id) (.json westPair)
        (Kvdb.Lock ClusterPairKey flakyWorld).2).2
      flakyWorld flakyWorld
      { Key := ClusterPairKey, Value := .text "locked" }
      { Key := ClusterPairKey, Value := .text "locked" }
      (.store "etcd unavailable") "" none { Id := "", PairToken := "" }).2.2.1 rfl rfl,
   (store_errors_propagation plainManager westPair false false "c1"
      { SourceClusterId := "peer", RemoteClusterToken := "secret" }
      pointerFailWorld (Kvdb.Lock ClusterPairKey pointerFailWorld).2
      (getDefaultPairId (Kvdb.Lock ClusterPairKey pointerFailWorld).2).2
      (deleteDefaultPairId
        (getDefaultPairId (Kvdb.Lock ClusterPairKey pointerFailWorld).2).2).2
      pointerFailWorld
      { Key := ClusterPairKey, Value := .text "locked" }
      { Key := ClusterPairKey, Value := .text "locked" }
      (.store "etcd unavailable") "c1" none
      { Id := "", PairToken := "" }).2.2.2.2.2.2.2.1 rfl rfl rfl rfl⟩

/-! ## DeletePair and the empty token -/

theorem pairDelete_frame (id : String) (w : World) :
    (pairDelete id w).2.calls = w.calls ∧ (pairDelete id w).2.db = w.db := by
  rcases hl : Kvdb.Lock ClusterPairKey w with ⟨r, w1⟩
  cases r with
  | error e =>
    obtain ⟨hw, _⟩ := Kvdb.LockWithID_error hl
    obtain ⟨_, h2, _, h4, _⟩ := takeFault_fields w
    have hrun : pairDelete id w = (some e, w1) := by
      simp only [pairDelete, hl]
    rw [hrun, hw]
    exact ⟨h4, h2⟩
  | ok kvp =>
    obtain ⟨_, _, _, hcalls, hdb, _⟩ := Kvdb.LockWithID_ok hl
    obtain ⟨g1, g2, _⟩ := pairDeleteLocked_same id w1
    rw [pairDelete_locked_run hl]
    simp only [Kvdb.Unlock]
    exact ⟨g1.trans hcalls, g2.trans hdb⟩

/-- C21: for every manager (so every listener list), every id and every world,
DeletePair returns what pairDelete returns and leaves the world that pairDelete
leaves, and the hook trace after the call is the trace before it: no listener
hook is invoked, whatever the outcome. -/
theorem DeletePair_is_pairDelete (c : ClusterManager) (pairId : String) (w : World) :
    DeletePair c pairId w = pairDelete pairId w ∧
      (DeletePair c pairId w).2.calls = w.calls := by
  have hsame : DeletePair c pairId w = pairDelete pairId w := by
    unfold DeletePair
    rcases hp : pairDelete pairId w with ⟨r, w1⟩
    cases r <;> rfl
  refine ⟨hsame, ?_⟩
  rw [hsame]
  exact (pairDelete_frame pairId w).1

theorem GetPairToken_healthy (c : ClusterManager) (reset : Bool) (w : World)
    (hf : w.faults = []) :
    ∃ tok, (GetPairToken c reset w).1 = .ok tok := by
  have h1 : Kvdb.takeFault w = (none, w) := Kvdb.takeFault_healthy hf
  by_cases hb : (w.db.PairToken == "" || reset) = true
  · refine ⟨{ Token := hexEncode (randRead 64 w).1 }, ?_⟩
    simp only [GetPairToken, Kvdb.LockWithID, h1, GetPairTokenLocked, readClusterInfo,
      writeClusterInfo, Kvdb.takeFault, hf, randRead, hb, if_true]
  · refine ⟨{ Token := w.db.PairToken }, ?_⟩
    simp only [GetPairToken, Kvdb.LockWithID, h1, GetPairTokenLocked, readClusterInfo,
      writeClusterInfo, Kvdb.takeFault, hf, randRead, hb]
    simp

/-- C22: a request that presents the empty token never succeeds, in any world.
Whenever GetPairToken(false) succeeds its token is not empty (it is the stored
non-empty token, or a freshly generated one of 128 characters) and the request
fails with the token-mismatch error; this is the case for every configuration
document when no store failure is scheduled.  When GetPairToken(false) itself
fails, the request fails with the wrapped token error. -/
theorem ProcessPairRequest_rejects_empty_token (c : ClusterManager)
    (request : ClusterPairProcessRequest) (w : World)
    (hempty : request.RemoteClusterToken = "") :
    (∀ resp, (ProcessPairRequest c request w).1 ≠ .ok resp) ∧
      (∀ tok, (GetPairToken c false w).1 = .ok tok →
        tok.Token ≠ "" ∧
          ((w.db.PairToken ≠ "" ∧ tok.Token = w.db.PairToken) ∨
            (w.db.PairToken = "" ∧ tok.Token.length = 128)) ∧
          (ProcessPairRequest c request w).1
            = .error (.errorf "Token mismatch during pairing")) ∧
      (w.faults = [] →
        (ProcessPairRequest c request w).1
          = .error (.errorf "Token mismatch during pairing")) ∧
      (∀ e, (GetPairToken c false w).1 = .error e →
        (ProcessPairRequest c request w).1
          = .error (.errorf ("Error getting Cluster Token: " ++ e.message))) := by
  have hgen : ∀ tok, (GetPairToken c false w).1 = .ok tok →
      tok.Token ≠ "" ∧
        ((w.db.PairToken ≠ "" ∧ tok.Token = w.db.PairToken) ∨
          (w.db.PairToken = "" ∧ tok.Token.length = 128)) := by
    intro tok htok
    have e1 : GetPairToken c false w = (.ok tok, (GetPairToken c false w).2) := by
      rw [← htok]
    obtain ⟨_, _, _, _, hg, hkeep⟩ := GetPairToken_ok e1
    by_cases hs : w.db.PairToken = ""
    · have ht := hg (Or.inl hs)
      have hlen : tok.Token.length = 128 := by
        rw [ht, hexEncode_length, randRead_length]
      refine ⟨?_, Or.inr ⟨hs, hlen⟩⟩
      intro h0
      rw [h0] at hlen
      simp at hlen
    · have hn : ¬ (w.db.PairToken = "" ∨ false = true) := by
        simp [hs]
      have ht := (hkeep hn).1
      refine ⟨?_, Or.inl ⟨hs, ht⟩⟩
      rw [ht]
      exact hs
  have hmis : ∀ tok, (GetPairToken c false w).1 = .ok tok →
      (ProcessPairRequest c request w).1
        = .error (.errorf "Token mismatch during pairing") := by
    intro tok htok
    have hne : tok.Token ≠ request.RemoteClusterToken := by
      rw [hempty]
      exact (hgen tok htok).1
    have e1 : GetPairToken c false w = (.ok tok, (GetPairToken c false w).2) := by
      rw [← htok]
    generalize (GetPairToken c false w).2 = wx at e1
    simp [ProcessPairRequest, e1, hne]
  have hfail : ∀ e, (GetPairToken c false w).1 = .error e →
      (ProcessPairRequest c request w).1
        = .error (.errorf ("Error getting Cluster Token: " ++ e.message)) := by
    intro e he
    have e1 : GetPairToken c false w = (.error e, (GetPairToken c false w).2) := by
      rw [← he]
    generalize (GetPairToken c false w).2 = wx at e1
    simp [ProcessPairRequest, e1]
  refine ⟨?_, fun tok htok => ⟨(hgen tok htok).1, (hgen tok htok).2, hmis tok htok⟩,
    ?_, hfail⟩
  swap
  · intro hf
    obtain ⟨tok, htok⟩ := GetPairToken_healthy c false w hf
    exact hmis tok htok
  intro resp hok
  rcases hr : (GetPairToken c false w).1 with e | tok
  · rw [hfail e hr] at hok
    cases hok
  · rw [hmis tok hr] at hok
    cases hok


/-- C22 witness: on the empty world, whose configuration document holds no
token, a request presenting the empty token fails with the token-mismatch
error: the token it is compared with is freshly generated. -/
theorem ProcessPairRequest_rejects_empty_token_witness :
    ({ SourceClusterId := "peer", RemoteClusterToken := "" } :
        ClusterPairProcessRequest).RemoteClusterToken = "" ∧
      World.empty.faults = [] ∧
      (ProcessPairRequest listeningManager
        { SourceClusterId := "peer", RemoteClusterToken := "" } World.empty).1
        = .error (.errorf "Token mismatch during pairing") :=
  ⟨rfl, rfl,
    (ProcessPairRequest_rejects_empty_token listeningManager
      { SourceClusterId := "peer", RemoteClusterToken := "" } World.empty rfl).2.2.1 rfl⟩

/-! ## StateChange and Attach -/

theorem requestedStateName_some {names : CloudBackupStateNames}
    {st : SdkCloudBackupRequestedState} {rs : String}
    (h : requestedStateName names st = some rs) :
    (st = .SdkCloudBackupRequestedStatePause ∧ rs = names.CloudBackupRequestedStatePause) ∨
      (st = .SdkCloudBackupRequestedStateResume ∧
        rs = names.CloudBackupRequestedStateResume) ∨
      (st = .SdkCloudBackupRequestedStateStop ∧ rs = names.CloudBackupRequestedStateStop) := by
  cases st <;> simp [requestedStateName] at h <;> simp [h]

theorem requestedStateName_none {names : CloudBackupStateNames}
    {st : SdkCloudBackupRequestedState} :
    requestedStateName names st = none ↔
      (st ≠ .SdkCloudBackupRequestedStatePause ∧ st ≠ .SdkCloudBackupRequestedStateResume ∧
        st ≠ .SdkCloudBackupRequestedStateStop) := by
  cases st <;> simp [requestedStateName]

/-- C23: StateChange validates before it delegates.  If the source volume id
is empty (a nil request included), or the requested state is none of Pause,
Resume and Stop (so Unknown, or a number outside the enum), the result is an
InvalidArgument status and the driver has not been called.  Otherwise the
requested state is Pause, Resume or Stop, the driver has been called exactly
once, with the source volume id of the request and the state string of that
state; the result is an Internal status when that call fails and the empty
response when it succeeds. -/
theorem StateChange_validates_then_delegates (names : CloudBackupStateNames)
    (driver : VolumeDriver) (req : Option SdkCloudBackupStateChangeRequest) :
    ((GetSrcVolumeId req = "" ∨ requestedStateName names (GetRequestedState req) = none) →
      (∃ msg, (StateChange names driver req).1
          = .error { code := .InvalidArgument, message := msg }) ∧
        (StateChange names driver req).2 = []) ∧
      (∀ rs, GetSrcVolumeId req ≠ "" →
        requestedStateName names (GetRequestedState req) = some rs →
        (StateChange names driver req).2
            = [{ SrcVolumeID := GetSrcVolumeId req, RequestedState := rs }] ∧
          (∀ err, driver.CloudBackupStateChange
                { SrcVolumeID := GetSrcVolumeId req, RequestedState := rs } = some err →
            (StateChange names driver req).1
              = .error { code := .Internal,
                         message := "Failed to change state: " ++ err.message }) ∧
          (driver.CloudBackupStateChange
                { SrcVolumeID := GetSrcVolumeId req, RequestedState := rs } = none →
            (StateChange names driver req).1 = .ok {})) := by
  have hlen : ∀ s : String, (s.length == 0) = true ↔ s = "" := by
    intro s
    rw [beq_iff_eq]
    constructor
    · intro h
      exact String.ext (List.length_eq_zero.mp h)
    · intro h
      rw [h]
      rfl
  constructor
  · intro h
    by_cases hid : GetSrcVolumeId req = ""
    · have hb : ((GetSrcVolumeId req).length == 0) = true := (hlen _).2 hid
      simp only [StateChange, hb, if_true]
      simp
    · have hb : ¬ ((GetSrcVolumeId req).length == 0) = true := fun hb => hid ((hlen _).1 hb)
      have hn : requestedStateName names (GetRequestedState req) = none := by
        rcases h with h | h
        · exact absurd h hid
        · exact h
      rcases hst : GetRequestedState req with _ | _ | _ | _ | n
      · simp only [StateChange, hb, hst, if_false, if_true]
        simp
      · rw [hst] at hn
        simp [requestedStateName] at hn
      · rw [hst] at hn
        simp [requestedStateName] at hn
      · rw [hst] at hn
        simp [requestedStateName] at hn
      · simp only [StateChange, hb, hst, if_false]
        simp
  · intro rs hid hrs
    have hb : ¬ ((GetSrcVolumeId req).length == 0) = true := fun hb => hid ((hlen _).1 hb)
    rcases hst : GetRequestedState req with _ | _ | _ | _ | n <;> rw [hst] at hrs <;>
      simp only [requestedStateName, Option.some.injEq] at hrs
    all_goals try (exact absurd hrs (by simp))
    all_goals
      subst hrs
      simp only [StateChange, hb, hst, if_false]
      refine ⟨?_, ?_, ?_⟩
      · cases hd : driver.CloudBackupStateChange _ <;> simp [hd]
      · intro err hd
        simp [hd]
      · intro hd
        simp [hd]

/-- C23 witness: a nil request is refused with InvalidArgument and no driver
call; a Pause request for the volume "vol-1" reaches the failing driver once,
as ("vol-1", "pause"), and comes back as an Internal status. -/
theorem StateChange_validates_then_delegates_witness :
    ((∃ msg, (StateChange stateNames failingDriver none).1
          = .error { code := .InvalidArgument, message := msg }) ∧
        (StateChange stateNames failingDriver none).2 = []) ∧
      (StateChange stateNames failingDriver
          (some { SrcVolumeId := "vol-1",
                  RequestedState := .SdkCloudBackupRequestedStatePause })).2
        = [{ SrcVolumeID := "vol-1", RequestedState := "pause" }] ∧
      (StateChange stateNames failingDriver
          (some { SrcVolumeId := "vol-1",
                  RequestedState := .SdkCloudBackupRequestedStatePause })).1
        = .error { code := .Internal,
                   message := "Failed to change state: backup not found" } :=
  ⟨(StateChange_validates_then_delegates stateNames failingDriver none).1 (Or.inl rfl),
    ((StateChange_validates_then_delegates stateNames failingDriver
        (some { SrcVolumeId := "vol-1",
                RequestedState := .SdkCloudBackupRequestedStatePause })).2
      "pause" (by decide) rfl).1,
    ((StateChange_validates_then_delegates stateNames failingDriver
        (some { SrcVolumeId := "vol-1",
                RequestedState := .SdkCloudBackupRequestedStatePause })).2
      "pause" (by decide) rfl).2.1 (.external "backup not found") rfl⟩

theorem Attach_returns_unless_spec_missing (v : volumeClient) (volumeID : String)
    (attachOptions : List (String × String)) (response : VolumeSetResponse)
    (hput : v.putVolume volumeID
        { Action := some { Attach := .VOLUME_ACTION_PARAM_ON }, Options := attachOptions }
      = .ok response)
    (hquiet : ∀ vr, response.VolumeResponse = some vr → vr.Error = "") :
    (response.Volume = none → Attach v volumeID attachOptions = .returned ("", none)) ∧
      (∀ vol spec, response.Volume = some vol → vol.Spec = some spec →
        Attach v volumeID attachOptions
          = .returned (if spec.Encrypted then vol.SecureDevicePath else vol.DevicePath, none)) ∧
      (∀ vol, response.Volume = some vol → vol.Spec = none →
        ∃ msg, Attach v volumeID attachOptions = .fault msg) := by
  have hd : doVolumeSetGetResponse v volumeID
      { Action := some { Attach := .VOLUME_ACTION_PARAM_ON }, Options := attachOptions }
      = .ok response := by
    unfold doVolumeSetGetResponse
    rw [hput]
    cases hvr : response.VolumeResponse with
    | none => simp [hvr]
    | some vr =>
      have h0 := hquiet vr hvr
      simp [hvr, h0]
  refine ⟨?_, ?_, ?_⟩
  · intro hv
    simp only [Attach, hd, hv]
  · intro vol spec hv hs
    simp only [Attach, hd, hv, hs]
    cases spec.Encrypted <;> simp
  · intro vol hv hs
    exact ⟨"invalid memory address or nil pointer dereference",
      by simp only [Attach, hd, hv, hs]⟩

/-- C24: Attach is not total over the responses that decode without error and
carry no error string.  When the response carries a volume whose spec is
absent (a body whose volume object has no spec field decodes to one), Attach
reads Encrypted through the nil spec and stops with a nil pointer dereference instead of returning;
no error string is present and the decode succeeded. -/
theorem Attach_faults_on_missing_spec :
    doVolumeSetGetResponse
        (answeringClient
          { Volume := some { Spec := none, DevicePath := "/dev/pxd/pxd1",
                             SecureDevicePath := "/dev/mapper/pxd-enc1" },
            VolumeResponse := none })
        "vol-1" { Action := some { Attach := .VOLUME_ACTION_PARAM_ON }, Options := [] }
      = .ok { Volume := some { Spec := none, DevicePath := "/dev/pxd/pxd1",
                               SecureDevicePath := "/dev/mapper/pxd-enc1" },
              VolumeResponse := none } ∧
      Attach
        (answeringClient
          { Volume := some { Spec := none, DevicePath := "/dev/pxd/pxd1",
                             SecureDevicePath := "/dev/mapper/pxd-enc1" },
            VolumeResponse := none })
        "vol-1" []
      = .fault "invalid memory address or nil pointer dereference" ∧
      (∀ r : String × Option Error,
        Attach
          (answeringClient
            { Volume := some { Spec := none, DevicePath := "/dev/pxd/pxd1",
                               SecureDevicePath := "/dev/mapper/pxd-enc1" },
              VolumeResponse := none })
          "vol-1" []
        ≠ .returned r) := by
  refine ⟨rfl, rfl, ?_⟩
  intro r h
  have h2 : Attach
      (answeringClient
        { Volume := some { Spec := none, DevicePath := "/dev/pxd/pxd1",
                           SecureDevicePath := "/dev/mapper/pxd-enc1" },
          VolumeResponse := none })
      "vol-1" []
      = .fault "invalid memory address or nil pointer dereference" := rfl
  rw [h2] at h
  cases h

end Openstorage
